import Mathlib

/-!
# Gleam engine: geometry, spot light and camera uniform block

A shallow embedding of `src/src/geometries/box_geometry.cpp`,
`src/src/lights/spot_light.cpp`, `src/src/renderer/gl/gl_camera.hpp` and of the
members of `include/gleam/core/geometry.hpp`, together with the parts of the
math library that `tests/math` exercises.

Modelling conventions.

* `float` values are numbers of exact arithmetic.  The box builder, the camera
  block and the matrix tests only add, multiply and divide the numbers they
  are given; they are stated over the rationals (`ℚ`).  The vectors, bounding
  volumes, geometry and spot light are stated over an arbitrary linear ordered
  field `K`, because their statements about `sqrt` need a field that has
  square roots (the reals); over `ℚ` they run on concrete inputs.
* The C++ integers (`unsigned` segment counts, the `int` loop counters, the
  `unsigned int` entries of `index_data_`) are natural numbers.  Every integer
  the builder computes is bounded by the final number of vertices, so the model
  and the code agree as long as that number fits the machine types.
* `std::vector::emplace_back` is list append at the end.
* A counted loop `for (auto i = 0; i < n; ++i) body` is `forLoop n body`.
* The width of `unsigned int` is left to the platform by the language, so the
  statements are the platform-independent ones: no wrap-around is modelled.
* The functions of `<cmath>` (`sqrt`, `cos`, `sin`, `tan`) and `math::two_pi`
  are a parameter `fp : CMath K` of every definition that calls them.
* A `shared_ptr` is a value with an identity (a natural number); a null
  pointer is `none`; dereferencing a null pointer has no result (`none`).
* A member function that mutates its object returns the new object; a function
  declared in a header whose body is not among the sources follows the spec
  and says so in its comment.
-/

namespace gleam

/-! ## Data model -/

/-- Three-component vector of the math library (`Vector3`), over the numbers `K`. -/
structure Vector3 (K : Type) where
  x : K
  y : K
  z : K
deriving DecidableEq, Repr

/-- Value-initialised vector, `Vector3 {}`. -/
def Vector3.zero {K : Type} [LinearOrderedField K] : Vector3 K := ⟨0, 0, 0⟩

/-- Kind of a per-vertex attribute, `enum class GeometryAttributeType`. -/
inductive GeometryAttributeType where
  | Position
  | Normal
  | UV
deriving DecidableEq, Repr

/-- Interpretation of the index data, `enum class GeometryPrimitiveType`. -/
inductive GeometryPrimitiveType where
  | Triangles
  | Lines
  | LineLoop
deriving DecidableEq, Repr

/-- One declared attribute, `struct GeometryAttribute`. -/
structure GeometryAttribute where
  type : GeometryAttributeType
  item_size : Nat
deriving DecidableEq, Repr

/-- Modelled from the spec: the axis-aligned box `Box3` of the math library
(header not part of the sources at hand).  `empty` is the box that encloses
nothing, `bounds min max` the box spanned by its two corners. -/
inductive Box3 (K : Type) where
  | empty
  | bounds (min max : Vector3 K)
deriving DecidableEq, Repr

/-- Modelled from the spec: the bounding sphere `Sphere` of the math library.
The header is not part of the sources at hand; `tests/math/sphere_test.cpp`
reads the two public members `center` and `radius`. -/
structure Sphere (K : Type) where
  center : Vector3 K
  radius : K
deriving DecidableEq, Repr

/-- The data members of `class Geometry`: the public `primitive` and
`renderer_id`, the protected buffers, cached bounds and attributes, the name
kept by the `Identity` base and the flag kept by the `Disposable` base. -/
structure Geometry (K : Type) where
  vertex_data_ : List K
  index_data_ : List Nat
  attributes_ : List GeometryAttribute
  primitive : GeometryPrimitiveType
  renderer_id : Nat
  name : String
  bounding_box_ : Option (Box3 K)
  bounding_sphere_ : Option (Sphere K)
  disposed_ : Bool
deriving DecidableEq, Repr

/-- A default-constructed geometry: no vertices, no indices, no attributes,
triangles as primitive, no renderer id, no cached bounds, not disposed. -/
def Geometry.empty {K : Type} : Geometry K :=
  ⟨[], [], [], GeometryPrimitiveType.Triangles, 0, "", none, none, false⟩

/-- The factory `Geometry::Create(vertex_data, index_data)`: the two buffers are
copied, everything else is as in a default-constructed geometry. -/
def Geometry.Create {K : Type} (vertex_data : List K) (index_data : List Nat) : Geometry K :=
  { Geometry.empty with vertex_data_ := vertex_data, index_data_ := index_data }

/-- The member `IndexCount()`: the size of the index vector. -/
def Geometry.IndexCount {K : Type} (g : Geometry K) : Nat := g.index_data_.length

/-- Modelled from the spec: `Geometry::SetAttribute` is declared in
`geometry.hpp` but its body is not part of the sources at hand.  The spec says
it appends the attribute, or, when an attribute of the same kind is already
declared, replaces that one in place, keeping the slot order, and that it
invalidates the cached bounds. -/
def Geometry.SetAttribute {K : Type} (g : Geometry K) (attr : GeometryAttribute) : Geometry K :=
  if g.attributes_.any (fun a => decide (a.type = attr.type)) then
    { g with
      attributes_ := g.attributes_.map (fun a => if a.type = attr.type then attr else a),
      bounding_box_ := none, bounding_sphere_ := none }
  else
    { g with
      attributes_ := g.attributes_ ++ [attr],
      bounding_box_ := none, bounding_sphere_ := none }

/-- Modelled from the spec: `Geometry::HasAttribute` (declared only) tells
whether an attribute of the given kind is declared. -/
def Geometry.HasAttribute {K : Type} (g : Geometry K) (type : GeometryAttributeType) : Bool :=
  g.attributes_.any (fun a => decide (a.type = type))

/-- Modelled from the spec: `Geometry::Stride` (declared only) is the sum of the
component counts of all declared attributes, in declared order. -/
def Geometry.Stride {K : Type} (g : Geometry K) : Nat :=
  (g.attributes_.map (fun a => a.item_size)).sum

/-- Modelled from the spec: `Geometry::VertexCount` (declared only) is
`len(vertex_data) / Stride()` when the stride is positive and `0` otherwise. -/
def Geometry.VertexCount {K : Type} (g : Geometry K) : Nat :=
  if 0 < g.Stride then g.vertex_data_.length / g.Stride else 0

/-- Modelled from the spec: `BoxGeometry::Parameters` lives in the header
`box_geometry.hpp`, which is not part of the sources at hand; the constructor
reads three extents and three segment counts from it. -/
structure Parameters where
  width : ℚ
  height : ℚ
  depth : ℚ
  width_segments : Nat
  height_segments : Nat
  depth_segments : Nat
deriving DecidableEq, Repr

/-- Modelled from the spec: the default parameters describe the unit cube with
one segment along each axis. -/
def Parameters.default : Parameters := ⟨1, 1, 1, 1, 1, 1⟩

/-- Modelled from the spec: `BoxGeometry::PlaneParameters` (header not at hand).
The fields are listed in the order the constructor's brace initialisers give
them: three axis letters, two direction signs, three extents, two grid sizes. -/
structure PlaneParameters where
  u : Char
  v : Char
  w : Char
  udir : Int
  vdir : Int
  width : ℚ
  height : ℚ
  depth : ℚ
  grid_x : Nat
  grid_y : Nat
deriving DecidableEq, Repr

/-- The object under construction: the inherited `Geometry` members plus the
running `vertex_counter_` of `BoxGeometry` and the name set by `SetName`. -/
structure BoxGeometry where
  geometry : Geometry ℚ
  vertex_counter_ : Nat
  name : String
deriving DecidableEq, Repr

/-- The object before the constructor body runs. -/
def BoxGeometry.init : BoxGeometry := ⟨Geometry.empty, 0, ""⟩

/-! ## Control flow -/

/-- Counted loop: `forLoop n body s` runs `body 0`, `body 1`, ..., `body (n-1)`
in that order, threading the state `s`. -/
def forLoop {σ : Type} : Nat → (Nat → σ → σ) → σ → σ
  | 0, _, s => s
  | n + 1, body, s => body n (forLoop n body s)

/-! ## `BoxGeometry::SetComponent` -/

/-- The member `SetComponent`: a switch on the axis letter; any other letter
leaves the vector unchanged. -/
def SetComponent (vec : Vector3 ℚ) (axis : Char) (value : ℚ) : Vector3 ℚ :=
  if axis = 'x' then ⟨value, vec.y, vec.z⟩
  else if axis = 'y' then ⟨vec.x, value, vec.z⟩
  else if axis = 'z' then ⟨vec.x, vec.y, value⟩
  else vec

/-! ## `BoxGeometry::BuildPlane` -/

/-- Local mutable state of the vertex loops of `BuildPlane`. -/
structure PlaneLoop where
  vec : Vector3 ℚ
  counter : Nat
  vertex_data_ : List ℚ
deriving DecidableEq, Repr

/-- The local `width_half`. -/
def width_half (params : PlaneParameters) : ℚ := params.width / 2

/-- The local `height_half`. -/
def height_half (params : PlaneParameters) : ℚ := params.height / 2

/-- The local `depth_half`. -/
def depth_half (params : PlaneParameters) : ℚ := params.depth / 2

/-- The local `segment_w`. -/
def segment_w (params : PlaneParameters) : ℚ := params.width / (params.grid_x : ℚ)

/-- The local `segment_h`. -/
def segment_h (params : PlaneParameters) : ℚ := params.height / (params.grid_y : ℚ)

/-- Body of the inner vertex loop (source lines 80 to 106) at lattice point
`(ix, iy)`: position, normal and texture coordinates are appended, eight
floats in all, and `counter` is incremented. -/
def vertexBody (params : PlaneParameters) (iy ix : Nat) (s : PlaneLoop) : PlaneLoop :=
  let y := (iy : ℚ) * segment_h params - height_half params
  let x := (ix : ℚ) * segment_w params - width_half params
  let vec1 := SetComponent (SetComponent (SetComponent s.vec params.u (x * (params.udir : ℚ)))
    params.v (y * (params.vdir : ℚ))) params.w (depth_half params)
  let data1 := s.vertex_data_ ++ [vec1.x] ++ [vec1.y] ++ [vec1.z]
  let vec2 := SetComponent (SetComponent (SetComponent vec1 params.u 0) params.v 0)
    params.w (if params.depth > 0 then 1 else -1)
  let data2 := data1 ++ [vec2.x] ++ [vec2.y] ++ [vec2.z]
  let u := (ix : ℚ) / (params.grid_x : ℚ)
  let v := 1 - (iy : ℚ) / (params.grid_y : ℚ)
  ⟨vec2, s.counter + 1, data2 ++ [u] ++ [v]⟩

/-- Body of the inner index loop (source lines 112 to 122) for the grid cell
`(ix, iy)`: the two triangles `(a, b, d)` and `(b, c, d)` are appended. -/
def indexBody (params : PlaneParameters) (vertex_counter_ : Nat) (iy ix : Nat)
    (index_data_ : List Nat) : List Nat :=
  let grid_x1 := params.grid_x + 1
  let a := vertex_counter_ + ix + grid_x1 * iy
  let b := vertex_counter_ + ix + grid_x1 * (iy + 1)
  let c := vertex_counter_ + ix + 1 + grid_x1 * (iy + 1)
  let d := vertex_counter_ + ix + 1 + grid_x1 * iy
  index_data_ ++ [a] ++ [b] ++ [d] ++ [b] ++ [c] ++ [d]

/-- The vertex loops of `BuildPlane` (source lines 74 to 108), started on the
current vertex data with a fresh `vec` and `counter`. -/
def vertexLoops (params : PlaneParameters) (vertex_data_ : List ℚ) : PlaneLoop :=
  let grid_x1 := params.grid_x + 1
  let grid_y1 := params.grid_y + 1
  forLoop grid_y1 (fun iy s => forLoop grid_x1 (fun ix s => vertexBody params iy ix s) s)
    ⟨Vector3.zero, 0, vertex_data_⟩

/-- The index loops of `BuildPlane` (source lines 110 to 124). -/
def indexLoops (params : PlaneParameters) (vertex_counter_ : Nat) (index_data_ : List Nat) :
    List Nat :=
  forLoop params.grid_y
    (fun iy idx => forLoop params.grid_x (fun ix idx => indexBody params vertex_counter_ iy ix idx) idx)
    index_data_

/-- The member `BuildPlane`: one face of the box is appended to the vertex and
index data and `vertex_counter_` advances by the number of vertices emitted. -/
def BuildPlane (self : BoxGeometry) (params : PlaneParameters) : BoxGeometry :=
  let s := vertexLoops params self.geometry.vertex_data_
  let idx := indexLoops params self.vertex_counter_ self.geometry.index_data_
  { self with
    geometry := { self.geometry with vertex_data_ := s.vertex_data_, index_data_ := idx },
    vertex_counter_ := self.vertex_counter_ + s.counter }

/-! ## `BoxGeometry::SetAttributes` and the constructor -/

/-- The member `SetAttributes`: position, normal and texture coordinates are
declared, in that order. -/
def SetAttributes (self : BoxGeometry) : BoxGeometry :=
  let g1 := self.geometry.SetAttribute ⟨GeometryAttributeType.Position, 3⟩
  let g2 := g1.SetAttribute ⟨GeometryAttributeType.Normal, 3⟩
  let g3 := g2.SetAttribute ⟨GeometryAttributeType.UV, 2⟩
  { self with geometry := g3 }

/-- The six assertions that open the constructor. -/
def assertionsHold (params : Parameters) : Bool :=
  decide (params.width > 0) && decide (params.height > 0) && decide (params.depth > 0)
    && decide (params.width_segments > 0) && decide (params.height_segments > 0)
    && decide (params.depth_segments > 0)

/-- Arguments of the first `BuildPlane` call of the constructor. -/
def plane1 (params : Parameters) : PlaneParameters :=
  ⟨'z', 'y', 'x', -1, -1, params.depth, params.height, params.width,
    params.depth_segments, params.height_segments⟩

/-- Arguments of the second `BuildPlane` call. -/
def plane2 (params : Parameters) : PlaneParameters :=
  ⟨'z', 'y', 'x', 1, -1, params.depth, params.height, -params.width,
    params.depth_segments, params.height_segments⟩

/-- Arguments of the third `BuildPlane` call. -/
def plane3 (params : Parameters) : PlaneParameters :=
  ⟨'x', 'z', 'y', 1, 1, params.width, params.depth, params.height,
    params.width_segments, params.depth_segments⟩

/-- Arguments of the fourth `BuildPlane` call. -/
def plane4 (params : Parameters) : PlaneParameters :=
  ⟨'x', 'z', 'y', 1, -1, params.width, params.depth, -params.height,
    params.width_segments, params.depth_segments⟩

/-- Arguments of the fifth `BuildPlane` call. -/
def plane5 (params : Parameters) : PlaneParameters :=
  ⟨'x', 'y', 'z', 1, -1, params.width, params.height, params.depth,
    params.width_segments, params.height_segments⟩

/-- Arguments of the sixth `BuildPlane` call. -/
def plane6 (params : Parameters) : PlaneParameters :=
  ⟨'x', 'y', 'z', -1, -1, params.width, params.height, -params.depth,
    params.width_segments, params.height_segments⟩

/-- The constructor body after the assertions: the name is set, the six planes
are built in source order and the attributes are declared. -/
def construct (params : Parameters) : BoxGeometry :=
  let g0 : BoxGeometry := { BoxGeometry.init with name := "box geometry" }
  let g1 := BuildPlane g0 (plane1 params)
  let g2 := BuildPlane g1 (plane2 params)
  let g3 := BuildPlane g2 (plane3 params)
  let g4 := BuildPlane g3 (plane4 params)
  let g5 := BuildPlane g4 (plane5 params)
  let g6 := BuildPlane g5 (plane6 params)
  SetAttributes g6

/-- The constructor `BoxGeometry::BoxGeometry` with assertions enabled: a failed
assertion aborts (`none`), otherwise the constructed object is returned. -/
def BoxGeometry.new (params : Parameters) : Option BoxGeometry :=
  if assertionsHold params then some (construct params) else none

/-- The six `BuildPlane` argument records of the constructor, in call order. -/
def planeCalls (params : Parameters) : List PlaneParameters :=
  [plane1 params, plane2 params, plane3 params, plane4 params, plane5 params, plane6 params]

/-- A run of `BuildPlane` calls, one after the other. -/
def buildPlanes (self : BoxGeometry) (calls : List PlaneParameters) : BoxGeometry :=
  calls.foldl BuildPlane self

/-- Number of lattice points of one plane. -/
def planeVertexCount (params : PlaneParameters) : Nat := (params.grid_x + 1) * (params.grid_y + 1)

/-- Number of grid cells of one plane. -/
def planeCellCount (params : PlaneParameters) : Nat := params.grid_x * params.grid_y

/-! ## Reading the buffers back

The definitions below do not come from the builder; they describe how the
buffers it fills are read: the interleaved layout fixed by the attributes
`[Position:3, Normal:3, UV:2]` (eight floats per vertex) and the
`Triangles` primitive (three indices per triangle). -/

/-- Concatenation of the blocks `f 0`, `f 1`, ..., `f (n-1)`. -/
def blocks {α : Type} (n : Nat) (f : Nat → List α) : List α :=
  forLoop n (fun i acc => acc ++ f i) []

/-- The letter names one of the three axes. -/
def IsAxis (c : Char) : Prop := c = 'x' ∨ c = 'y' ∨ c = 'z'

/-- The axis letters `(u, v, w)` of a plane are a permutation of `x, y, z`. -/
def AxesPermuted (params : PlaneParameters) : Prop :=
  IsAxis params.u ∧ IsAxis params.v ∧ IsAxis params.w
    ∧ params.u ≠ params.v ∧ params.u ≠ params.w ∧ params.v ≠ params.w

/-- Component of a vector along the axis named by a letter. -/
def component (vec : Vector3 ℚ) (axis : Char) : ℚ :=
  if axis = 'x' then vec.x else if axis = 'y' then vec.y else vec.z

/-- Position of the vertex at lattice point `(ix, iy)` of a plane: the three
`SetComponent` calls of source lines 83 to 85, started on the zero vector. -/
def planePosition (params : PlaneParameters) (iy ix : Nat) : Vector3 ℚ :=
  SetComponent (SetComponent (SetComponent Vector3.zero params.u
    (((ix : ℚ) * segment_w params - width_half params) * (params.udir : ℚ)))
    params.v (((iy : ℚ) * segment_h params - height_half params) * (params.vdir : ℚ)))
    params.w (depth_half params)

/-- Normal of a plane: the three `SetComponent` calls of source lines 92 to 94,
started on the zero vector. -/
def planeNormal (params : PlaneParameters) : Vector3 ℚ :=
  SetComponent (SetComponent (SetComponent Vector3.zero params.u 0) params.v 0)
    params.w (if params.depth > 0 then 1 else -1)

/-- Texture coordinates at lattice point `(ix, iy)` (source lines 101, 102). -/
def planeUV (params : PlaneParameters) (iy ix : Nat) : ℚ × ℚ :=
  ((ix : ℚ) / (params.grid_x : ℚ), 1 - (iy : ℚ) / (params.grid_y : ℚ))

/-- The eight floats of one vertex. -/
def vertexFloats (params : PlaneParameters) (iy ix : Nat) : List ℚ :=
  [(planePosition params iy ix).x, (planePosition params iy ix).y, (planePosition params iy ix).z,
    (planeNormal params).x, (planeNormal params).y, (planeNormal params).z,
    (planeUV params iy ix).1, (planeUV params iy ix).2]

/-- All vertices of a plane, row by row. -/
def planeVertices (params : PlaneParameters) : List ℚ :=
  blocks (params.grid_y + 1) (fun iy => blocks (params.grid_x + 1) (fun ix => vertexFloats params iy ix))

/-- Lattice index of the point `(ix, iy)` of a plane whose first vertex has index `s`. -/
def latticeIndex (params : PlaneParameters) (s iy ix : Nat) : Nat :=
  s + ix + (params.grid_x + 1) * iy

/-- The six indices of the grid cell `(ix, iy)`. -/
def cellIndices (params : PlaneParameters) (s iy ix : Nat) : List Nat :=
  [latticeIndex params s iy ix, latticeIndex params s (iy + 1) ix, latticeIndex params s iy (ix + 1),
    latticeIndex params s (iy + 1) ix, latticeIndex params s (iy + 1) (ix + 1),
    latticeIndex params s iy (ix + 1)]

/-- All indices of a plane, cell by cell in row-major order. -/
def planeIndices (params : PlaneParameters) (s : Nat) : List Nat :=
  blocks params.grid_y (fun iy => blocks params.grid_x (fun ix => cellIndices params s iy ix))

/-- Vertex data of a run of planes. -/
def allVertices : List PlaneParameters → List ℚ
  | [] => []
  | p :: ps => planeVertices p ++ allVertices ps

/-- Index data of a run of planes whose first vertex has index `s`. -/
def allIndices (s : Nat) : List PlaneParameters → List Nat
  | [] => []
  | p :: ps => planeIndices p s ++ allIndices (s + planeVertexCount p) ps

/-- Number of vertices of a run of planes. -/
def vertexTotal : List PlaneParameters → Nat
  | [] => 0
  | p :: ps => planeVertexCount p + vertexTotal ps

/-- Position attribute of vertex `i` in interleaved vertex data of stride 8. -/
def positionAt (vd : List ℚ) (i : Nat) : Vector3 ℚ :=
  ⟨vd.getD (8 * i) 0, vd.getD (8 * i + 1) 0, vd.getD (8 * i + 2) 0⟩

/-- Normal attribute of vertex `i` in interleaved vertex data of stride 8. -/
def normalAt (vd : List ℚ) (i : Nat) : Vector3 ℚ :=
  ⟨vd.getD (8 * i + 3) 0, vd.getD (8 * i + 4) 0, vd.getD (8 * i + 5) 0⟩

/-- Texture coordinates of vertex `i` in interleaved vertex data of stride 8. -/
def uvAt (vd : List ℚ) (i : Nat) : ℚ × ℚ :=
  (vd.getD (8 * i + 6) 0, vd.getD (8 * i + 7) 0)

/-- The triangles of an index list: consecutive triples. -/
def triangles : List Nat → List (Nat × Nat × Nat)
  | a :: b :: c :: rest => (a, b, c) :: triangles rest
  | _ => []

/-- Difference of two vectors. -/
def Vector3.sub {K : Type} [LinearOrderedField K]
    (a b : Vector3 K) : Vector3 K := ⟨a.x - b.x, a.y - b.y, a.z - b.z⟩

/-- Cross product. -/
def Vector3.cross {K : Type} [LinearOrderedField K] (a b : Vector3 K) : Vector3 K :=
  ⟨a.y * b.z - a.z * b.y, a.z * b.x - a.x * b.z, a.x * b.y - a.y * b.x⟩

/-- Dot product. -/
def Vector3.dot {K : Type} [LinearOrderedField K]
    (a b : Vector3 K) : K := a.x * b.x + a.y * b.y + a.z * b.z

/-- Multiplication of a vector by a scalar. -/
def Vector3.scale {K : Type} [LinearOrderedField K]
    (t : K) (a : Vector3 K) : Vector3 K := ⟨t * a.x, t * a.y, t * a.z⟩

/-- The local `vec` of `BuildPlane` behaves like the zero vector under the
three `SetComponent` calls of the plane: it is zero outside the axes they set. -/
def vecInvariant (params : PlaneParameters) (s : PlaneLoop) : Prop :=
  ∀ a b c : ℚ,
    SetComponent (SetComponent (SetComponent s.vec params.u a) params.v b) params.w c
      = SetComponent (SetComponent (SetComponent Vector3.zero params.u a) params.v b) params.w c

/-- The six outward unit normals, in the order the constructor builds the
faces: `+X, -X, +Y, -Y, +Z, -Z`. -/
def faceDirections : List (Vector3 ℚ) :=
  [⟨1, 0, 0⟩, ⟨-1, 0, 0⟩, ⟨0, 1, 0⟩, ⟨0, -1, 0⟩, ⟨0, 0, 1⟩, ⟨0, 0, -1⟩]

/-- A sample plane used to instantiate statements: the front face of a
`2 x 3 x 5` box with a `2 x 3` grid. -/
def samplePlane : PlaneParameters := ⟨'x', 'y', 'z', 1, -1, 2, 3, 5, 2, 3⟩

/-- A sample box used to instantiate statements: extents `(2, 3, 5)`, segment
counts `(2, 3, 4)`. -/
def sampleBox : Parameters := ⟨2, 3, 5, 2, 3, 4⟩

/-! ## `<cmath>` and the math library -/

/-- The functions of `<cmath>` and the constant `math::two_pi` that the sources
call.  They are not defined by the sources at hand; a statement that needs a
property of one of them says so as a hypothesis. -/
structure CMath (K : Type) where
  sqrt : K → K
  cos : K → K
  sin : K → K
  tan : K → K
  two_pi : K

/-- A rational stand-in for `<cmath>`, used to instantiate statements at
concrete inputs: the square root is the rational square root, which is exact
on squares of rationals; the other entries are simple rational functions. -/
def CMath.rational : CMath ℚ := ⟨Rat.sqrt, fun _ => 1, fun _ => 0, fun x => x, 6⟩

/-- The square root of `fp` is the exact one: on every non-negative number it
returns the non-negative number whose square is that number. -/
def CMath.ExactSqrt {K : Type} [LinearOrderedField K] (fp : CMath K) : Prop :=
  ∀ x : K, 0 ≤ x → 0 ≤ fp.sqrt x ∧ fp.sqrt x * fp.sqrt x = x

/-- Sum of two vectors. -/
def Vector3.add {K : Type} [LinearOrderedField K]
    (a b : Vector3 K) : Vector3 K := ⟨a.x + b.x, a.y + b.y, a.z + b.z⟩

/-- Modelled from the spec: `Vector3::Length` (header not part of the sources
at hand), the square root of the dot product of the vector with itself. -/
def Vector3.Length {K : Type} [LinearOrderedField K]
    (fp : CMath K) (v : Vector3 K) : K := fp.sqrt (Vector3.dot v v)

/-- Modelled from the spec: the free function `Normalize` of the math library
(header not part of the sources at hand).  The spec asks for the
zero-length-safe result: the zero vector for a vector of length zero,
otherwise the vector divided by its length. -/
def Normalize {K : Type} [LinearOrderedField K] (fp : CMath K) (v : Vector3 K) : Vector3 K :=
  if v.Length fp = 0 then Vector3.zero else Vector3.scale (1 / v.Length fp) v

/-! ## Bounding volumes -/

/-- Modelled from the spec: `Box3::ExpandWithPoint` grows the box to the
smallest axis-aligned box that also holds the point. -/
def Box3.ExpandWithPoint {K : Type} [LinearOrderedField K] (b : Box3 K) (p : Vector3 K) : Box3 K :=
  match b with
  | Box3.empty => Box3.bounds p p
  | Box3.bounds mn mx =>
    Box3.bounds ⟨min mn.x p.x, min mn.y p.y, min mn.z p.z⟩ ⟨max mx.x p.x, max mx.y p.y, max mx.z p.z⟩

/-- Modelled from the spec: `Box3::Center`, the midpoint of the two corners
(the origin for the empty box). -/
def Box3.Center {K : Type} [LinearOrderedField K] (b : Box3 K) : Vector3 K :=
  match b with
  | Box3.empty => Vector3.zero
  | Box3.bounds mn mx => Vector3.scale (1 / 2) (Vector3.add mn mx)

/-- A default-constructed sphere: centre at the origin, radius `-1`
(`TEST(Sphere, DefaultConstructor)`). -/
def Sphere.default {K : Type} [LinearOrderedField K] : Sphere K := ⟨Vector3.zero, -1⟩

/-- The member `Sphere::IsEmpty`: a sphere of negative radius holds nothing
(`TEST(Sphere, IsEmptyTrue)`, `TEST(Sphere, IsEmptyFalse)`). -/
def Sphere.IsEmpty {K : Type} [LinearOrderedField K] (s : Sphere K) : Bool := decide (s.radius < 0)

/-- The member `Sphere::Reset`: back to the default-constructed sphere
(`TEST(Sphere, Reset)`). -/
def Sphere.Reset {K : Type} [LinearOrderedField K] (_s : Sphere K) : Sphere K := Sphere.default

/-- Modelled from the spec: `Sphere::ExpandWithPoint` (header not part of the
sources at hand; `tests/math/sphere_test.cpp` fixes its results).  An empty
sphere becomes the point; a point inside or on the sphere changes nothing; for
a point outside, at distance `d` from the centre, the radius grows by
`(d - radius) / 2` and the centre moves by that amount towards the point. -/
def Sphere.ExpandWithPoint {K : Type} [LinearOrderedField K]
    (fp : CMath K) (s : Sphere K) (p : Vector3 K) : Sphere K :=
  if s.IsEmpty then ⟨p, 0⟩
  else
    let delta := Vector3.sub p s.center
    let length := delta.Length fp
    if length > s.radius then
      let half_way := (length - s.radius) / 2
      ⟨Vector3.add s.center (Vector3.scale (half_way / length) delta), s.radius + half_way⟩
    else s

/-- Offset of the position attribute inside one interleaved vertex: the sum of
the component counts declared before it; `none` when no position attribute is
declared. -/
def positionOffset : List GeometryAttribute → Option Nat
  | [] => none
  | a :: rest =>
    if a.type = GeometryAttributeType.Position then some 0
    else (positionOffset rest).map (fun off => a.item_size + off)

/-- Modelled from the spec: the vertex positions the bounds are computed from,
read from the position attribute only. -/
def Geometry.positions {K : Type} [LinearOrderedField K] (g : Geometry K) : List (Vector3 K) :=
  match positionOffset g.attributes_ with
  | none => []
  | some off =>
    (List.range g.VertexCount).map (fun i =>
      ⟨g.vertex_data_.getD (i * g.Stride + off) 0, g.vertex_data_.getD (i * g.Stride + off + 1) 0,
        g.vertex_data_.getD (i * g.Stride + off + 2) 0⟩)

/-- Modelled from the spec: the bounding box is found by scanning all vertex
positions once for their minimum and maximum. -/
def Geometry.computeBoundingBox {K : Type} [LinearOrderedField K] (g : Geometry K) : Box3 K :=
  g.positions.foldl Box3.ExpandWithPoint Box3.empty

/-- Modelled from the spec: the bounding sphere is centred at the centre of the
bounding box and its radius is the largest distance from there to a vertex
position (not the minimal enclosing sphere). -/
def Geometry.computeBoundingSphere {K : Type} [LinearOrderedField K]
    (fp : CMath K) (g : Geometry K) : Sphere K :=
  let center := g.computeBoundingBox.Center
  ⟨center, g.positions.foldl (fun r p => max r ((Vector3.sub p center).Length fp)) 0⟩

/-- Modelled from the spec: `Geometry::CreateBoundingBox` (declared only)
creates and caches the bounding box. -/
def Geometry.CreateBoundingBox {K : Type} [LinearOrderedField K] (g : Geometry K) : Geometry K :=
  { g with bounding_box_ := some g.computeBoundingBox }

/-- Modelled from the spec: `Geometry::CreateBoundingSphere` (declared only)
creates and caches the bounding sphere. -/
def Geometry.CreateBoundingSphere {K : Type} [LinearOrderedField K]
    (fp : CMath K) (g : Geometry K) : Geometry K :=
  { g with bounding_sphere_ := some (g.computeBoundingSphere fp) }

/-- Modelled from the spec: `Geometry::BoundingBox` (declared only) computes the
box on first access and returns the cached one afterwards.  The result is the
box together with the geometry, whose cache the call may have filled. -/
def Geometry.BoundingBox {K : Type} [LinearOrderedField K] (g : Geometry K) : Box3 K × Geometry K :=
  match g.bounding_box_ with
  | some box => (box, g)
  | none => (g.computeBoundingBox, g.CreateBoundingBox)

/-- Modelled from the spec: `Geometry::BoundingSphere` (declared only) computes
the sphere on first access and returns the cached one afterwards. -/
def Geometry.BoundingSphere {K : Type} [LinearOrderedField K]
    (fp : CMath K) (g : Geometry K) : Sphere K × Geometry K :=
  match g.bounding_sphere_ with
  | some sphere => (sphere, g)
  | none => (g.computeBoundingSphere fp, g.CreateBoundingSphere fp)

/-! ## Disposal -/

/-- Modelled from the spec: `Disposable::Dispose` (header not part of the
sources at hand).  The first call releases the backend resource of the object
and marks the object disposed; a call on a disposed object does nothing.  The
second component is the backend's log of released renderer ids. -/
def Geometry.Dispose {K : Type} (g : Geometry K) (released : List Nat) : Geometry K × List Nat :=
  if g.disposed_ then (g, released)
  else ({ g with disposed_ := true }, released ++ [g.renderer_id])

/-- The destructor `Geometry::~Geometry`: it calls `Dispose()`. -/
def Geometry.destructor {K : Type} (g : Geometry K) (released : List Nat) : Geometry K × List Nat :=
  g.Dispose released

/-- A run of `n` explicit `Dispose()` calls. -/
def Geometry.disposeTimes {K : Type} : Nat → Geometry K → List Nat → Geometry K × List Nat
  | 0, g, released => (g, released)
  | n + 1, g, released =>
    Geometry.disposeTimes n (g.Dispose released).1 (g.Dispose released).2

/-! ## Camera uniform block -/

/-- Modelled from the spec: four-component vector of the math library. -/
structure Vector4 where
  x : ℚ
  y : ℚ
  z : ℚ
  w : ℚ
deriving DecidableEq, Repr

/-- Modelled from the spec: the `4 x 4` matrix `Matrix4` of the math library
(header not part of the sources at hand), kept as its four columns. -/
structure Matrix4 where
  c0 : Vector4
  c1 : Vector4
  c2 : Vector4
  c3 : Vector4
deriving DecidableEq, Repr

/-- The record `GLCamera::UniformCamera`. -/
structure UniformCamera where
  projection : Matrix4
  view : Matrix4
deriving DecidableEq, Repr

/-- Modelled from the spec: the uniform buffer `GLUniformBuffer` (header not
part of the sources at hand): its block name and size, the record of the last
upload (`none` before the first one) and the number of uploads made. -/
structure GLUniformBuffer where
  name : String
  size : Nat
  uploaded : Option UniformCamera
  uploads : Nat
deriving DecidableEq, Repr

/-- Modelled from the spec: `GLUniformBuffer::UploadIfNeeded` uploads the record
only if it differs from the record of the last upload. -/
def GLUniformBuffer.UploadIfNeeded (buffer : GLUniformBuffer) (record : UniformCamera) :
    GLUniformBuffer :=
  if buffer.uploaded = some record then buffer
  else { buffer with uploaded := some record, uploads := buffer.uploads + 1 }

/-- The data members of `class GLCamera`. -/
structure GLCamera where
  camera_ : UniformCamera
  uniform_buffer_ : GLUniformBuffer
deriving DecidableEq, Repr

/-- A freshly constructed `GLCamera`: `camera_` holds whatever the default
constructor of `Matrix4` leaves there, the buffer `{"ub_Camera",
sizeof(UniformCamera)}` has uploaded nothing yet. -/
def GLCamera.fresh (initial : UniformCamera) : GLCamera :=
  ⟨initial, ⟨"ub_Camera", 128, none, 0⟩⟩

/-- The member `GLCamera::Update`. -/
def GLCamera.Update (self : GLCamera) (projection view : Matrix4) : GLCamera :=
  let camera1 : UniformCamera := { self.camera_ with projection := projection }
  let camera2 : UniformCamera := { camera1 with view := view }
  { self with camera_ := camera2, uniform_buffer_ := self.uniform_buffer_.UploadIfNeeded camera2 }

/-! ## Spot light -/

/-- Modelled from the spec: an RGB colour of the math library. -/
structure Color (K : Type) where
  r : K
  g : K
  b : K
deriving DecidableEq, Repr

/-- Modelled from the spec: a scene node as a light sees it through a
`shared_ptr<Node>`: the identity of the object and the world position that
`GetWorldPosition()` returns. -/
structure Node (K : Type) where
  id : Nat
  world_position : Vector3 K
deriving DecidableEq, Repr

/-- Modelled from the spec: `Node::GetWorldPosition`. -/
def Node.GetWorldPosition {K : Type} (node : Node K) : Vector3 K := node.world_position

/-- Modelled from the spec: the distance falloff parameters of a light. -/
structure Attenuation (K : Type) where
  base : K
  linear : K
  quadratic : K
deriving DecidableEq, Repr

/-- Modelled from the spec: the members of `FlatMaterial` that the debug mesh
sets (header not part of the sources at hand). -/
structure FlatMaterial (K : Type) where
  color : Color K
  two_sided : Bool
  wireframe : Bool
  fog : Bool
deriving DecidableEq, Repr

/-- Modelled from the spec: `FlatMaterial::Create()`.  The defaults do not
matter here: `CreateDebugMesh` assigns all four members. -/
def FlatMaterial.Create {K : Type} [LinearOrderedField K]
    : FlatMaterial K := ⟨⟨1, 1, 1⟩, false, false, true⟩

/-- Modelled from the spec: the members of `Mesh` that the debug mesh uses: the
identity of the object, its geometry, the `transform_auto_update` flag, the
target of the last `LookAt` call and the scale.  The material of the mesh is
the object held in `Impl::material`. -/
structure Mesh (K : Type) where
  id : Nat
  geometry : Geometry K
  transform_auto_update : Bool
  look_at : Option (Vector3 K)
  scale : Vector3 K
deriving DecidableEq, Repr

/-- Modelled from the spec: `Mesh::Create(geometry, material)`; `id` is the
identity of the newly allocated object. -/
def Mesh.Create {K : Type} [LinearOrderedField K] (id : Nat) (geometry : Geometry K) : Mesh K :=
  ⟨id, geometry, true, none, ⟨1, 1, 1⟩⟩

/-- Modelled from the spec: `Node::LookAt` orients the node towards a target. -/
def Mesh.LookAt {K : Type}
    (mesh : Mesh K) (target : Vector3 K) : Mesh K := { mesh with look_at := some target }

/-- Modelled from the spec: `Node::SetScale`. -/
def Mesh.SetScale {K : Type}
    (mesh : Mesh K) (value : Vector3 K) : Mesh K := { mesh with scale := value }

/-- The private `SpotLight::Impl`: the two shared pointers, `none` when null. -/
structure SpotLight.Impl (K : Type) where
  cone : Option (Mesh K)
  material : Option (FlatMaterial K)
deriving DecidableEq, Repr

/-- Modelled from the spec: `SpotLight::Parameters` (header not part of the
sources at hand); the constructor reads these six members. -/
structure SpotLight.Parameters (K : Type) where
  color : Color K
  intensity : K
  angle : K
  penumbra : K
  target : Option (Node K)
  attenuation : Attenuation K
deriving DecidableEq, Repr

/-- A spot light: the members the constructor initialises, the world position
and the children it has as a scene node (children by identity), the debug flag
and the private implementation object. -/
structure SpotLight (K : Type) where
  name : String
  color : Color K
  intensity : K
  angle : K
  penumbra : K
  target : Option (Node K)
  attenuation : Attenuation K
  world_position : Vector3 K
  children : List Nat
  debug_mode_enabled_ : Bool
  impl_ : SpotLight.Impl K
deriving DecidableEq, Repr

/-- The constructor `SpotLight::SpotLight`: a node at the origin without
children, debug mode off, an `Impl` holding two null pointers. -/
def SpotLight.new {K : Type} [LinearOrderedField K]
    (params : SpotLight.Parameters K) : SpotLight K :=
  { name := "spot light", color := params.color, intensity := params.intensity,
    angle := params.angle, penumbra := params.penumbra, target := params.target,
    attenuation := params.attenuation, world_position := Vector3.zero, children := [],
    debug_mode_enabled_ := false, impl_ := ⟨none, none⟩ }

/-- Modelled from the spec: `Node::GetWorldPosition` of the light itself. -/
def SpotLight.GetWorldPosition {K : Type} (self : SpotLight K) : Vector3 K := self.world_position

/-- Modelled from the spec: `Node::Add` appends the child to the ordered
sequence of children. -/
def SpotLight.Add {K : Type} (self : SpotLight K) (child : Nat) : SpotLight K :=
  { self with children := self.children ++ [child] }

/-- Modelled from the spec: `Node::Remove` detaches the child: the object is
looked up by identity and taken out of the sequence of children. -/
def SpotLight.Remove {K : Type} (self : SpotLight K) (child : Nat) : SpotLight K :=
  { self with children := self.children.erase child }

/-- The constant `circle_line_segments` of `CreateDebugMesh`. -/
def circle_line_segments : Nat := 64

/-- Local state of the circle loop of `CreateDebugMesh`: the counter `j` and
the vector `points`. -/
structure CircleLoop (K : Type) where
  j : Nat
  points : List K
deriving DecidableEq, Repr

/-- Body of the circle loop (source lines 44 to 49) for the counter `i`. -/
def circleBody {K : Type} [LinearOrderedField K]
    (fp : CMath K) (l : Nat) (i : Nat) (s : CircleLoop K) : CircleLoop K :=
  let p1 := ((i : K) / (l : K)) * fp.two_pi
  let p2 := ((s.j : K) / (l : K)) * fp.two_pi
  ⟨s.j + 1, s.points ++ [fp.cos p1, fp.sin p1, 1, fp.cos p2, fp.sin p2, 1]⟩

/-- The vector `points` of `CreateDebugMesh` (source lines 33 to 50): five
lines from the apex, then the circle at the base of the cone. -/
def conePoints {K : Type} [LinearOrderedField K] (fp : CMath K) : List K :=
  let points : List K :=
    [0, 0, 0, 0, 0, 1,
     0, 0, 0, 1, 0, 1,
     0, 0, 0, -1, 0, 1,
     0, 0, 0, 0, 1, 1,
     0, 0, 0, 0, -1, 1]
  (forLoop circle_line_segments (circleBody fp circle_line_segments) ⟨1, points⟩).points

/-- The member `Impl::UpdateDebugMesh`.  It dereferences `cone` and `material`:
with a null pointer there is no defined result (`none`). -/
def UpdateDebugMesh {K : Type} [LinearOrderedField K]
    (fp : CMath K) (self : SpotLight K) : Option (SpotLight K) :=
  let target_world_pos :=
    match self.target with
    | some target => target.GetWorldPosition
    | none => Vector3.zero
  let cone_length := (Vector3.sub target_world_pos self.GetWorldPosition).Length fp + 1
  let cone_width := fp.tan self.angle * cone_length
  match self.impl_.cone, self.impl_.material with
  | some cone, some material =>
    some { self with
      impl_ := ⟨some ((cone.LookAt target_world_pos).SetScale ⟨cone_width, cone_width, cone_length⟩),
        some { material with color := self.color }⟩ }
  | _, _ => none

/-- The member `Impl::CreateDebugMesh`; `fresh` is the identity of the mesh
object that `Mesh::Create` allocates. -/
def CreateDebugMesh {K : Type} [LinearOrderedField K]
    (fp : CMath K) (self : SpotLight K) (fresh : Nat) : Option (SpotLight K) :=
  let material0 : FlatMaterial K := FlatMaterial.Create
  let material1 := { material0 with two_sided := true }
  let material2 := { material1 with color := self.color }
  let material3 := { material2 with wireframe := true }
  let material := { material3 with fog := false }
  let points := conePoints fp
  let cone0 := Mesh.Create fresh (Geometry.Create points [])
  let cone1 := { cone0 with geometry := { cone0.geometry with name := "directional light line" } }
  let cone2 := { cone1 with
    geometry := cone1.geometry.SetAttribute ⟨GeometryAttributeType.Position, 3⟩ }
  let cone3 := { cone2 with
    geometry := { cone2.geometry with primitive := GeometryPrimitiveType.Lines } }
  let cone := { cone3 with transform_auto_update := false }
  let self1 := { self with impl_ := ⟨some cone, some material⟩ }
  let self2 := self1.Add cone.id
  UpdateDebugMesh fp self2

/-- The member `Impl::RemoveDebugMesh`. -/
def RemoveDebugMesh {K : Type} (self : SpotLight K) : SpotLight K :=
  let self1 :=
    match self.impl_.cone with
    | some cone => self.Remove cone.id
    | none => self
  { self1 with impl_ := ⟨none, none⟩ }

/-- The member `SpotLight::Direction`. -/
def SpotLight.Direction {K : Type} [LinearOrderedField K]
    (fp : CMath K) (self : SpotLight K) : Vector3 K :=
  match self.target with
  | some target => Normalize fp (Vector3.sub self.GetWorldPosition target.GetWorldPosition)
  | none => Normalize fp self.GetWorldPosition

/-- The member `SpotLight::SetDebugMode`; `fresh` is the identity of the mesh
object a call that switches debug mode on allocates. -/
def SpotLight.SetDebugMode {K : Type} [LinearOrderedField K]
    (fp : CMath K) (self : SpotLight K) (is_debug_mode : Bool)
    (fresh : Nat) : Option (SpotLight K) :=
  if self.debug_mode_enabled_ != is_debug_mode then
    (if is_debug_mode then CreateDebugMesh fp self fresh else some (RemoveDebugMesh self)).map
      (fun s => { s with debug_mode_enabled_ := is_debug_mode })
  else some self

/-- The member `SpotLight::OnUpdate`. -/
def SpotLight.OnUpdate {K : Type} [LinearOrderedField K]
    (fp : CMath K) (self : SpotLight K) (_delta : K) : Option (SpotLight K) :=
  if self.debug_mode_enabled_ then UpdateDebugMesh fp self else some self

/-- Number of children of the light that are its debug mesh. -/
def SpotLight.debugChildCount {K : Type} (self : SpotLight K) : Nat :=
  match self.impl_.cone with
  | some cone => self.children.count cone.id
  | none => 0

/-- The vector `Direction()` normalises: the world position of the light
relative to its target, or relative to the origin when there is no target. -/
def SpotLight.directionArgument {K : Type} [LinearOrderedField K]
    (self : SpotLight K) : Vector3 K :=
  match self.target with
  | some target => Vector3.sub self.GetWorldPosition target.GetWorldPosition
  | none => self.GetWorldPosition

/-- A sample light used to instantiate statements: no target, world position
`(3, 4, 0)`, two children with identities `7` and `8`, debug mode off. -/
def sampleLight : SpotLight ℚ :=
  { SpotLight.new ⟨⟨1, 0, 0⟩, 1, 1 / 2, 0, none, ⟨1, 0, 0⟩⟩ with
    world_position := ⟨3, 4, 0⟩, children := [7, 8] }

/-- A light without target at a given world position, used to instantiate
statements over any field of numbers. -/
def sampleLightAt {K : Type} [LinearOrderedField K] (position : Vector3 K) : SpotLight K :=
  { SpotLight.new ⟨⟨1, 1, 1⟩, 1, 1 / 2, 0, none, ⟨1, 0, 0⟩⟩ with world_position := position }

/-- Squared distance between two points. -/
def Vector3.distanceSquared {K : Type} [LinearOrderedField K]
    (a b : Vector3 K) : K := Vector3.dot (Vector3.sub a b) (Vector3.sub a b)

/-- The point lies in the closed ball of the sphere (an empty sphere holds no point). -/
def Sphere.Contains {K : Type} [LinearOrderedField K] (s : Sphere K) (p : Vector3 K) : Prop :=
  0 ≤ s.radius ∧ Vector3.distanceSquared p s.center ≤ s.radius * s.radius

/-- A sample geometry used to instantiate statements: four points on the
diagonal, declared as positions of three components. -/
def sampleGeometry : Geometry ℚ :=
  (Geometry.Create [0, 0, 0, 1, 1, 1, 2, 2, 2, 3, 3, 3] []).SetAttribute
    ⟨GeometryAttributeType.Position, 3⟩

/-- A sample matrix used to instantiate statements: the identity. -/
def Matrix4.sample : Matrix4 := ⟨⟨1, 0, 0, 0⟩, ⟨0, 1, 0, 0⟩, ⟨0, 0, 1, 0⟩, ⟨0, 0, 0, 1⟩⟩

/-- A second sample matrix: all entries zero. -/
def Matrix4.sampleZero : Matrix4 := ⟨⟨0, 0, 0, 0⟩, ⟨0, 0, 0, 0⟩, ⟨0, 0, 0, 0⟩, ⟨0, 0, 0, 0⟩⟩

/-! ## Matrix3 and interpolation

The headers `matrix3.hpp` and `utilities.hpp` are not among the sources at
hand; `tests/math/matrix3_test.cpp` and `tests/math/utilities_test.cpp` are.
The definitions of this section follow the spec and reproduce the values the
tests expect. -/

/-- Modelled from the spec: `Vector3::operator[]`, component `i` of a vector
(`0` is `x`, `1` is `y`, anything else is `z`). -/
def Vector3.get (v : Vector3 ℚ) (i : Nat) : ℚ :=
  match i with
  | 0 => v.x
  | 1 => v.y
  | _ => v.z

/-- Modelled from the spec: `Matrix3` (header `matrix3.hpp` missing), stored as
three column vectors like `Matrix4`. -/
structure Matrix3 where
  c0 : Vector3 ℚ
  c1 : Vector3 ℚ
  c2 : Vector3 ℚ
deriving DecidableEq, Repr

/-- Modelled from the spec: the `Matrix3` constructor that takes the nine
entries row by row (`n00, n01, n02, n10, ...`). -/
def Matrix3.rowMajor (n00 n01 n02 n10 n11 n12 n20 n21 n22 : ℚ) : Matrix3 :=
  ⟨⟨n00, n10, n20⟩, ⟨n01, n11, n21⟩, ⟨n02, n12, n22⟩⟩

/-- Modelled from the spec: the `Matrix3` constructor that takes one value and
puts it on the diagonal (`Matrix3 {1.0f}`). -/
def Matrix3.diagonal (value : ℚ) : Matrix3 :=
  Matrix3.rowMajor value 0 0 0 value 0 0 0 value

/-- Modelled from the spec: `Matrix3::Identity()`. -/
def Matrix3.Identity : Matrix3 := Matrix3.diagonal 1

/-- Modelled from the spec: `Matrix3::operator[]`, column `j` of the matrix. -/
def Matrix3.column (m : Matrix3) (j : Nat) : Vector3 ℚ :=
  match j with
  | 0 => m.c0
  | 1 => m.c1
  | _ => m.c2

/-- Modelled from the spec: `Matrix3::operator()`, the entry in row `i` and
column `j`. -/
def Matrix3.entry (m : Matrix3) (i j : Nat) : ℚ := (m.column j).get i

/-- Modelled from the spec: the product of two matrices, `operator*`. -/
def Matrix3.mul (a b : Matrix3) : Matrix3 :=
  Matrix3.rowMajor
    (a.entry 0 0 * b.entry 0 0 + a.entry 0 1 * b.entry 1 0 + a.entry 0 2 * b.entry 2 0)
    (a.entry 0 0 * b.entry 0 1 + a.entry 0 1 * b.entry 1 1 + a.entry 0 2 * b.entry 2 1)
    (a.entry 0 0 * b.entry 0 2 + a.entry 0 1 * b.entry 1 2 + a.entry 0 2 * b.entry 2 2)
    (a.entry 1 0 * b.entry 0 0 + a.entry 1 1 * b.entry 1 0 + a.entry 1 2 * b.entry 2 0)
    (a.entry 1 0 * b.entry 0 1 + a.entry 1 1 * b.entry 1 1 + a.entry 1 2 * b.entry 2 1)
    (a.entry 1 0 * b.entry 0 2 + a.entry 1 1 * b.entry 1 2 + a.entry 1 2 * b.entry 2 2)
    (a.entry 2 0 * b.entry 0 0 + a.entry 2 1 * b.entry 1 0 + a.entry 2 2 * b.entry 2 0)
    (a.entry 2 0 * b.entry 0 1 + a.entry 2 1 * b.entry 1 1 + a.entry 2 2 * b.entry 2 1)
    (a.entry 2 0 * b.entry 0 2 + a.entry 2 1 * b.entry 1 2 + a.entry 2 2 * b.entry 2 2)

/-- Modelled from the spec: the product of a matrix and a column vector. -/
def Matrix3.mulVec (m : Matrix3) (v : Vector3 ℚ) : Vector3 ℚ :=
  ⟨m.entry 0 0 * v.x + m.entry 0 1 * v.y + m.entry 0 2 * v.z,
    m.entry 1 0 * v.x + m.entry 1 1 * v.y + m.entry 1 2 * v.z,
    m.entry 2 0 * v.x + m.entry 2 1 * v.y + m.entry 2 2 * v.z⟩

/-- Modelled from the spec: `Determinant(m)`, the expansion along the first
row of the matrix. -/
def Determinant (m : Matrix3) : ℚ :=
  m.entry 0 0 * (m.entry 1 1 * m.entry 2 2 - m.entry 1 2 * m.entry 2 1)
    - m.entry 0 1 * (m.entry 1 0 * m.entry 2 2 - m.entry 1 2 * m.entry 2 0)
    + m.entry 0 2 * (m.entry 1 0 * m.entry 2 1 - m.entry 1 1 * m.entry 2 0)

/-- Modelled from the spec: `Inverse(m)`.  The rows of the result are the
cross products of pairs of columns, divided by the determinant; a division by
zero (a singular matrix) gives zero in the model. -/
def Inverse (m : Matrix3) : Matrix3 :=
  let a := m.column 0
  let b := m.column 1
  let c := m.column 2
  let r0 := Vector3.cross b c
  let r1 := Vector3.cross c a
  let r2 := Vector3.cross a b
  let inv_det := 1 / Vector3.dot r2 c
  Matrix3.rowMajor
    (r0.x * inv_det) (r0.y * inv_det) (r0.z * inv_det)
    (r1.x * inv_det) (r1.y * inv_det) (r1.z * inv_det)
    (r2.x * inv_det) (r2.y * inv_det) (r2.z * inv_det)

/-- Modelled from the spec: `Transpose(m)`, rows and columns exchanged. -/
def Transpose (m : Matrix3) : Matrix3 :=
  Matrix3.rowMajor
    (m.entry 0 0) (m.entry 1 0) (m.entry 2 0)
    (m.entry 0 1) (m.entry 1 1) (m.entry 2 1)
    (m.entry 0 2) (m.entry 1 2) (m.entry 2 2)

/-- Two matrices agree entry by entry up to the tolerance `eps`, as
`EXPECT_MAT3_NEAR` checks. -/
def Matrix3.Near (a b : Matrix3) (eps : ℚ) : Prop :=
  ∀ i j : Fin 3, |a.entry i.val j.val - b.entry i.val j.val| ≤ eps

/-- The columns of the matrix are linearly dependent: some combination of
them with coefficients not all zero is the zero vector. -/
def Matrix3.ColumnsDependent (m : Matrix3) : Prop :=
  ∃ a b c : ℚ, (a ≠ 0 ∨ b ≠ 0 ∨ c ≠ 0) ∧
    Vector3.add (Vector3.add (Vector3.scale a m.c0) (Vector3.scale b m.c1))
      (Vector3.scale c m.c2) = Vector3.zero

/-- The matrix of the tests `Determinant` and `Inverse`. -/
def Matrix3.sample : Matrix3 := Matrix3.rowMajor 4 7 2 3 6 1 2 5 3

/-- Modelled from the spec: `math::Lerp(a, b, t)` (header `utilities.hpp`
missing), linear interpolation without clamping of the factor. -/
def Lerp (a b t : ℚ) : ℚ := a + (b - a) * t

/-! ## Reading the debug cone back -/

/-- Start point of line segment `k` of a `Lines` buffer with the single
attribute `Position:3` (six floats per segment). -/
def segmentStart {K : Type} [LinearOrderedField K] (data : List K) (k : Nat) : Vector3 K :=
  ⟨data.getD (6 * k) 0, data.getD (6 * k + 1) 0, data.getD (6 * k + 2) 0⟩

/-- End point of line segment `k` of such a buffer. -/
def segmentEnd {K : Type} [LinearOrderedField K] (data : List K) (k : Nat) : Vector3 K :=
  ⟨data.getD (6 * k + 3) 0, data.getD (6 * k + 4) 0, data.getD (6 * k + 5) 0⟩

/-- The five lines from the apex that open the vector `points`. -/
def apexLines {K : Type} [LinearOrderedField K] : List K :=
  [0, 0, 0, 0, 0, 1,
   0, 0, 0, 1, 0, 1,
   0, 0, 0, -1, 0, 1,
   0, 0, 0, 0, 1, 1,
   0, 0, 0, 0, -1, 1]

/-- The six floats of circle segment `i`: the points at the angles
`i / 64 * two_pi` and `(i + 1) / 64 * two_pi` in the plane `z = 1`. -/
def circleSegment {K : Type} [LinearOrderedField K] (fp : CMath K) (i : Nat) : List K :=
  [fp.cos (((i : K) / (circle_line_segments : K)) * fp.two_pi),
   fp.sin (((i : K) / (circle_line_segments : K)) * fp.two_pi), 1,
   fp.cos ((((i + 1 : Nat) : K) / (circle_line_segments : K)) * fp.two_pi),
   fp.sin ((((i + 1 : Nat) : K) / (circle_line_segments : K)) * fp.two_pi), 1]

/-- The point of the unit circle in the plane `z = 1` at the angle
`k / 64 * two_pi`. -/
def circlePoint {K : Type} [LinearOrderedField K] (fp : CMath K) (k : Nat) : Vector3 K :=
  ⟨fp.cos (((k : K) / (circle_line_segments : K)) * fp.two_pi),
    fp.sin (((k : K) / (circle_line_segments : K)) * fp.two_pi), 1⟩

/-- The target position `UpdateDebugMesh` aims the cone at: the world position
of the target, or the origin without a target. -/
def SpotLight.targetWorldPosition {K : Type} [LinearOrderedField K]
    (self : SpotLight K) : Vector3 K :=
  match self.target with
  | some target => target.GetWorldPosition
  | none => Vector3.zero

/-- Distance between two points, the length of their difference. -/
def Vector3.distance {K : Type} [LinearOrderedField K]
    (fp : CMath K) (a b : Vector3 K) : K := Vector3.Length fp (Vector3.sub b a)

/-- A sample light with debug mode on: `sampleLight` holding a cone with the
identity `9` as its third child and a material. -/
def sampleLightOn : SpotLight ℚ :=
  { sampleLight with
    children := [7, 8, 9],
    debug_mode_enabled_ := true,
    impl_ := ⟨some (Mesh.Create 9 (Geometry.Create [] [])), some FlatMaterial.Create⟩ }

/-! ## Sequences of calls on a spot light -/

/-- One call of the public interface of the debug visualisation. -/
inductive DebugCall (K : Type) where
  | SetDebugMode (is_debug_mode : Bool) (fresh : Nat)
  | OnUpdate (delta : K)
deriving DecidableEq, Repr

/-- One call applied to a light. -/
def SpotLight.call {K : Type} [LinearOrderedField K]
    (fp : CMath K) (self : SpotLight K) : DebugCall K → Option (SpotLight K)
  | DebugCall.SetDebugMode is_debug_mode fresh => self.SetDebugMode fp is_debug_mode fresh
  | DebugCall.OnUpdate delta => self.OnUpdate fp delta

/-- A finite sequence of calls applied to a light, first call first; a call
without a result ends the run without a result. -/
def SpotLight.run {K : Type} [LinearOrderedField K]
    (fp : CMath K) : SpotLight K → List (DebugCall K) → Option (SpotLight K)
  | self, [] => some self
  | self, c :: cs =>
    match self.call fp c with
    | some s => SpotLight.run fp s cs
    | none => none

/-- The argument of the last `SetDebugMode` call of a sequence; `initial` when
the sequence has no such call. -/
def lastSetDebugMode {K : Type} (initial : Bool) : List (DebugCall K) → Bool
  | [] => initial
  | DebugCall.SetDebugMode is_debug_mode _ :: cs => lastSetDebugMode is_debug_mode cs
  | DebugCall.OnUpdate _ :: cs => lastSetDebugMode initial cs

/-- The held cone is one of the children of the light. -/
def SpotLight.coneIsChild {K : Type} (self : SpotLight K) : Bool :=
  match self.impl_.cone with
  | some cone => decide (cone.id ∈ self.children)
  | none => false

/-- The two states of the debug visualisation of a light whose children no
other code touches: off, without cone, material and child; or on, holding a
material and a cone that is the only child. -/
def SpotLight.DebugInvariant {K : Type} (self : SpotLight K) : Prop :=
  (self.debug_mode_enabled_ = false ∧ self.impl_ = ⟨none, none⟩ ∧ self.children = [])
    ∨ (self.debug_mode_enabled_ = true
      ∧ ∃ cone material, self.impl_ = ⟨some cone, some material⟩ ∧ self.children = [cone.id])

/-! ## Counting lemmas -/

theorem forLoop_measure {σ : Type} (m : σ → Nat) (k : Nat) (body : Nat → σ → σ)
    (hbody : ∀ i s, m (body i s) = m s + k) (n : Nat) (s : σ) :
    m (forLoop n body s) = m s + n * k := by
  induction n with
  | zero => simp [forLoop]
  | succ n ih => rw [forLoop, hbody, ih]; ring

theorem vertexBody_length (params : PlaneParameters) (iy ix : Nat) (s : PlaneLoop) :
    (vertexBody params iy ix s).vertex_data_.length = s.vertex_data_.length + 8 := by
  simp [vertexBody]

theorem vertexBody_counter (params : PlaneParameters) (iy ix : Nat) (s : PlaneLoop) :
    (vertexBody params iy ix s).counter = s.counter + 1 := rfl

theorem indexBody_length (params : PlaneParameters) (c iy ix : Nat) (idx : List Nat) :
    (indexBody params c iy ix idx).length = idx.length + 6 := by
  simp [indexBody]

theorem vertexLoops_length (params : PlaneParameters) (vd : List ℚ) :
    (vertexLoops params vd).vertex_data_.length = vd.length + 8 * planeVertexCount params := by
  have h := forLoop_measure (fun s : PlaneLoop => s.vertex_data_.length) ((params.grid_x + 1) * 8)
    (fun iy s => forLoop (params.grid_x + 1) (fun ix s => vertexBody params iy ix s) s)
    (fun iy s => forLoop_measure (fun s : PlaneLoop => s.vertex_data_.length) 8 _
      (fun ix s => vertexBody_length params iy ix s) _ s)
    (params.grid_y + 1) ⟨Vector3.zero, 0, vd⟩
  simp only [vertexLoops, planeVertexCount] at h ⊢
  rw [h]; ring

theorem vertexLoops_counter (params : PlaneParameters) (vd : List ℚ) :
    (vertexLoops params vd).counter = planeVertexCount params := by
  have h := forLoop_measure (fun s : PlaneLoop => s.counter) ((params.grid_x + 1) * 1)
    (fun iy s => forLoop (params.grid_x + 1) (fun ix s => vertexBody params iy ix s) s)
    (fun iy s => forLoop_measure (fun s : PlaneLoop => s.counter) 1 _
      (fun ix s => vertexBody_counter params iy ix s) _ s)
    (params.grid_y + 1) ⟨Vector3.zero, 0, vd⟩
  simp only [vertexLoops, planeVertexCount] at h ⊢
  rw [h]; ring

theorem indexLoops_length (params : PlaneParameters) (c : Nat) (idx : List Nat) :
    (indexLoops params c idx).length = idx.length + 6 * planeCellCount params := by
  have h := forLoop_measure (fun s : List Nat => s.length) (params.grid_x * 6)
    (fun iy s => forLoop params.grid_x (fun ix s => indexBody params c iy ix s) s)
    (fun iy s => forLoop_measure (fun s : List Nat => s.length) 6 _
      (fun ix s => indexBody_length params c iy ix s) _ s)
    params.grid_y idx
  simp only [indexLoops, planeCellCount] at h ⊢
  rw [h]; ring

theorem BuildPlane_vertex_length (self : BoxGeometry) (params : PlaneParameters) :
    (BuildPlane self params).geometry.vertex_data_.length
      = self.geometry.vertex_data_.length + 8 * planeVertexCount params := by
  simp [BuildPlane, vertexLoops_length]

theorem BuildPlane_counter (self : BoxGeometry) (params : PlaneParameters) :
    (BuildPlane self params).vertex_counter_ = self.vertex_counter_ + planeVertexCount params := by
  simp [BuildPlane, vertexLoops_counter]

theorem BuildPlane_index_length (self : BoxGeometry) (params : PlaneParameters) :
    (BuildPlane self params).geometry.index_data_.length
      = self.geometry.index_data_.length + 6 * planeCellCount params := by
  simp [BuildPlane, indexLoops_length]

theorem BuildPlane_attributes (self : BoxGeometry) (params : PlaneParameters) :
    (BuildPlane self params).geometry.attributes_ = self.geometry.attributes_ := rfl

theorem construct_eq_buildPlanes (params : Parameters) :
    construct params
      = SetAttributes (buildPlanes ⟨Geometry.empty, 0, "box geometry"⟩ (planeCalls params)) := rfl

theorem SetAttributes_vertex_data (self : BoxGeometry) :
    (SetAttributes self).geometry.vertex_data_ = self.geometry.vertex_data_ := by
  simp only [SetAttributes, Geometry.SetAttribute]
  split_ifs <;> rfl

theorem SetAttributes_index_data (self : BoxGeometry) :
    (SetAttributes self).geometry.index_data_ = self.geometry.index_data_ := by
  simp only [SetAttributes, Geometry.SetAttribute]
  split_ifs <;> rfl

theorem SetAttributes_counter (self : BoxGeometry) :
    (SetAttributes self).vertex_counter_ = self.vertex_counter_ := rfl

theorem SetAttributes_of_no_attributes (self : BoxGeometry)
    (h : self.geometry.attributes_ = []) :
    (SetAttributes self).geometry.attributes_
      = [⟨GeometryAttributeType.Position, 3⟩, ⟨GeometryAttributeType.Normal, 3⟩,
          ⟨GeometryAttributeType.UV, 2⟩] := by
  simp [SetAttributes, Geometry.SetAttribute, h]

theorem construct_vertex_data (params : Parameters) :
    (construct params).geometry.vertex_data_
      = (buildPlanes ⟨Geometry.empty, 0, "box geometry"⟩ (planeCalls params)).geometry.vertex_data_ := by
  rw [construct_eq_buildPlanes, SetAttributes_vertex_data]

theorem construct_index_data (params : Parameters) :
    (construct params).geometry.index_data_
      = (buildPlanes ⟨Geometry.empty, 0, "box geometry"⟩ (planeCalls params)).geometry.index_data_ := by
  rw [construct_eq_buildPlanes, SetAttributes_index_data]

theorem construct_attributes (params : Parameters) :
    (construct params).geometry.attributes_
      = [⟨GeometryAttributeType.Position, 3⟩, ⟨GeometryAttributeType.Normal, 3⟩,
          ⟨GeometryAttributeType.UV, 2⟩] := by
  rw [construct_eq_buildPlanes]
  apply SetAttributes_of_no_attributes
  simp [buildPlanes, planeCalls, BuildPlane_attributes, Geometry.empty]

theorem construct_stride (params : Parameters) : (construct params).geometry.Stride = 8 := by
  simp [Geometry.Stride, construct_attributes]

theorem construct_counter (params : Parameters) :
    (construct params).vertex_counter_
      = 2 * ((params.width_segments + 1) * (params.height_segments + 1)
          + (params.height_segments + 1) * (params.depth_segments + 1)
          + (params.depth_segments + 1) * (params.width_segments + 1)) := by
  rw [construct_eq_buildPlanes, SetAttributes_counter]
  simp only [buildPlanes, planeCalls, List.foldl_cons, List.foldl_nil, BuildPlane_counter,
    planeVertexCount, plane1, plane2, plane3, plane4, plane5, plane6]
  ring

theorem construct_vertex_length (params : Parameters) :
    (construct params).geometry.vertex_data_.length = 8 * (construct params).vertex_counter_ := by
  rw [construct_counter, construct_vertex_data]
  simp only [buildPlanes, planeCalls, List.foldl_cons, List.foldl_nil, BuildPlane_vertex_length,
    planeVertexCount, plane1, plane2, plane3, plane4, plane5, plane6, Geometry.empty,
    List.length_nil]
  ring

theorem construct_index_length (params : Parameters) :
    (construct params).geometry.index_data_.length
      = 12 * (params.width_segments * params.height_segments
          + params.height_segments * params.depth_segments
          + params.depth_segments * params.width_segments) := by
  rw [construct_index_data]
  simp only [buildPlanes, planeCalls, List.foldl_cons, List.foldl_nil, BuildPlane_index_length,
    planeCellCount, plane1, plane2, plane3, plane4, plane5, plane6, Geometry.empty,
    List.length_nil]
  ring

theorem construct_VertexCount (params : Parameters) :
    (construct params).geometry.VertexCount = (construct params).vertex_counter_ := by
  simp [Geometry.VertexCount, construct_stride, construct_vertex_length]

/-! ## Closed form of the loops -/

theorem blocks_succ {α : Type} (n : Nat) (f : Nat → List α) :
    blocks (n + 1) f = blocks n f ++ f n := rfl

theorem blocks_zero {α : Type} (f : Nat → List α) : blocks 0 f = [] := rfl

theorem forLoop_append {σ α : Type} (proj : σ → List α) (f : Nat → List α)
    (body : Nat → σ → σ) (hbody : ∀ i s, proj (body i s) = proj s ++ f i) (n : Nat) (s : σ) :
    proj (forLoop n body s) = proj s ++ blocks n f := by
  induction n with
  | zero => simp [forLoop, blocks_zero]
  | succ n ih => rw [forLoop, hbody, ih, blocks_succ, List.append_assoc]

theorem blocks_length {α : Type} (f : Nat → List α) (m : Nat) (hf : ∀ i, (f i).length = m)
    (n : Nat) : (blocks n f).length = n * m := by
  induction n with
  | zero => simp [blocks_zero]
  | succ n ih => rw [blocks_succ, List.length_append, ih, hf]; ring

theorem blocks_getD {α : Type} (f : Nat → List α) (m : Nat) (hf : ∀ i, (f i).length = m)
    (d : α) (n i j : Nat) (hi : i < n) (hj : j < m) :
    (blocks n f).getD (i * m + j) d = (f i).getD j d := by
  induction n with
  | zero => omega
  | succ n ih =>
    rw [blocks_succ]
    rcases Nat.lt_succ_iff_lt_or_eq.1 hi with h | h
    · have hlt : i * m + j < (blocks n f).length := by
        rw [blocks_length f m hf]
        calc i * m + j < i * m + m := by omega
          _ = (i + 1) * m := by ring
          _ ≤ n * m := Nat.mul_le_mul_right m h
      rw [List.getD_append _ _ _ _ hlt, ih h]
    · subst h
      have hle : (blocks i f).length ≤ i * m + j := by
        rw [blocks_length f m hf]; omega
      rw [List.getD_append_right _ _ _ _ hle, blocks_length f m hf]
      congr 1
      omega

theorem triangles_append (n : Nat) (xs ys : List Nat) (hxs : xs.length = 3 * n) :
    triangles (xs ++ ys) = triangles xs ++ triangles ys := by
  induction n generalizing xs with
  | zero =>
    have : xs = [] := List.length_eq_zero.1 (by omega)
    subst this
    simp [triangles]
  | succ n ih =>
    match xs, hxs with
    | a :: b :: c :: rest, h =>
      have hr : rest.length = 3 * n := by simp at h; omega
      simp [triangles, ih rest hr]

theorem triangles_length (n : Nat) (xs : List Nat) (hxs : xs.length = 3 * n) :
    (triangles xs).length = n := by
  induction n generalizing xs with
  | zero =>
    have : xs = [] := List.length_eq_zero.1 (by omega)
    subst this
    simp [triangles]
  | succ n ih =>
    match xs, hxs with
    | a :: b :: c :: rest, h =>
      have hr : rest.length = 3 * n := by simp at h; omega
      simp [triangles, ih rest hr]

theorem mem_triangles_blocks (f : Nat → List Nat) (m : Nat) (hf : ∀ i, (f i).length = 3 * m)
    (n : Nat) (t : Nat × Nat × Nat) :
    t ∈ triangles (blocks n f) ↔ ∃ i, i < n ∧ t ∈ triangles (f i) := by
  induction n with
  | zero => simp [blocks_zero, triangles]
  | succ n ih =>
    have hlen : (blocks n f).length = 3 * (n * m) := by
      rw [blocks_length f (3 * m) hf]; ring
    rw [blocks_succ, triangles_append (n * m) _ _ hlen, List.mem_append, ih]
    constructor
    · rintro (⟨i, hi, ht⟩ | ht)
      · exact ⟨i, by omega, ht⟩
      · exact ⟨n, by omega, ht⟩
    · rintro ⟨i, hi, ht⟩
      rcases Nat.lt_succ_iff_lt_or_eq.1 hi with h | h
      · exact Or.inl ⟨i, h, ht⟩
      · subst h; exact Or.inr ht

/-- Setting the same three axes again overrides what the first round wrote. -/
theorem SetComponent_override (u v w : Char) (vec : Vector3 ℚ) (a b c a2 b2 c2 : ℚ) :
    SetComponent (SetComponent (SetComponent
        (SetComponent (SetComponent (SetComponent vec u a) v b) w c) u a2) v b2) w c2
      = SetComponent (SetComponent (SetComponent vec u a2) v b2) w c2 := by
  by_cases hux : u = 'x' <;> by_cases huy : u = 'y' <;> by_cases huz : u = 'z' <;>
    by_cases hvx : v = 'x' <;> by_cases hvy : v = 'y' <;> by_cases hvz : v = 'z' <;>
    by_cases hwx : w = 'x' <;> by_cases hwy : w = 'y' <;> by_cases hwz : w = 'z' <;>
    simp [SetComponent, hux, huy, huz, hvx, hvy, hvz, hwx, hwy, hwz]

theorem vertexBody_data (params : PlaneParameters) (iy ix : Nat) (s : PlaneLoop)
    (hs : vecInvariant params s) :
    vecInvariant params (vertexBody params iy ix s)
      ∧ (vertexBody params iy ix s).vertex_data_
          = s.vertex_data_ ++ vertexFloats params iy ix := by
  constructor
  · intro a b c
    simp only [vertexBody]
    rw [SetComponent_override, SetComponent_override, hs]
  · simp only [vertexBody, vertexFloats, planePosition, planeNormal, planeUV]
    rw [SetComponent_override, hs, hs]
    simp

theorem forLoop_append_inv {σ α : Type} (Inv : σ → Prop) (proj : σ → List α)
    (f : Nat → List α) (body : Nat → σ → σ)
    (hbody : ∀ i s, Inv s → Inv (body i s) ∧ proj (body i s) = proj s ++ f i)
    (n : Nat) (s : σ) (hs : Inv s) :
    Inv (forLoop n body s) ∧ proj (forLoop n body s) = proj s ++ blocks n f := by
  induction n with
  | zero => exact ⟨hs, by simp [forLoop, blocks_zero]⟩
  | succ n ih =>
    obtain ⟨h1, h2⟩ := hbody n _ ih.1
    refine ⟨h1, ?_⟩
    rw [forLoop, h2, ih.2, blocks_succ, List.append_assoc]

theorem vertexLoops_data (params : PlaneParameters) (vd : List ℚ) :
    (vertexLoops params vd).vertex_data_ = vd ++ planeVertices params := by
  have h := forLoop_append_inv (vecInvariant params) (fun s : PlaneLoop => s.vertex_data_)
    (fun iy => blocks (params.grid_x + 1) (fun ix => vertexFloats params iy ix))
    (fun iy s => forLoop (params.grid_x + 1) (fun ix s => vertexBody params iy ix s) s)
    (fun iy s hs => forLoop_append_inv (vecInvariant params)
      (fun s : PlaneLoop => s.vertex_data_)
      (fun ix => vertexFloats params iy ix) _
      (fun ix s hs => vertexBody_data params iy ix s hs) _ s hs)
    (params.grid_y + 1) ⟨Vector3.zero, 0, vd⟩ (fun _ _ _ => rfl)
  simpa only [vertexLoops, planeVertices] using h.2

theorem indexBody_eq (params : PlaneParameters) (c iy ix : Nat) (idx : List Nat) :
    indexBody params c iy ix idx = idx ++ cellIndices params c iy ix := by
  simp [indexBody, cellIndices, latticeIndex]
  omega

theorem indexLoops_eq (params : PlaneParameters) (c : Nat) (idx : List Nat) :
    indexLoops params c idx = idx ++ planeIndices params c := by
  have h := forLoop_append (fun s : List Nat => s)
    (fun iy => blocks params.grid_x (fun ix => cellIndices params c iy ix))
    (fun iy s => forLoop params.grid_x (fun ix s => indexBody params c iy ix s) s)
    (fun iy s => forLoop_append (fun s : List Nat => s)
      (fun ix => cellIndices params c iy ix) _ (fun ix s => indexBody_eq params c iy ix s) _ s)
    params.grid_y idx
  simpa only [indexLoops, planeIndices] using h

theorem BuildPlane_eq (self : BoxGeometry) (params : PlaneParameters) :
    BuildPlane self params
      = { self with
          geometry := { self.geometry with
            vertex_data_ := self.geometry.vertex_data_ ++ planeVertices params,
            index_data_ := self.geometry.index_data_ ++ planeIndices params self.vertex_counter_ },
          vertex_counter_ := self.vertex_counter_ + planeVertexCount params } := by
  simp only [BuildPlane, vertexLoops_data, indexLoops_eq, vertexLoops_counter]

theorem buildPlanes_eq (calls : List PlaneParameters) (self : BoxGeometry) :
    buildPlanes self calls
      = { self with
          geometry := { self.geometry with
            vertex_data_ := self.geometry.vertex_data_ ++ allVertices calls,
            index_data_ := self.geometry.index_data_ ++ allIndices self.vertex_counter_ calls },
          vertex_counter_ := self.vertex_counter_ + vertexTotal calls } := by
  induction calls generalizing self with
  | nil => simp [buildPlanes, allVertices, allIndices, vertexTotal]
  | cons p ps ih =>
    have h := ih (BuildPlane self p)
    simp only [buildPlanes, List.foldl_cons] at h ⊢
    rw [h, BuildPlane_eq self p]
    simp [allVertices, allIndices, vertexTotal, Nat.add_assoc]

theorem planeCalls_permuted (params : Parameters) : ∀ p ∈ planeCalls params, AxesPermuted p := by
  intro p hp
  simp only [planeCalls, List.mem_cons, List.mem_singleton, List.not_mem_nil, or_false] at hp
  rcases hp with rfl | rfl | rfl | rfl | rfl | rfl <;>
    simp [AxesPermuted, IsAxis, plane1, plane2, plane3, plane4, plane5, plane6]

theorem construct_vertex_data_eq (params : Parameters) :
    (construct params).geometry.vertex_data_ = allVertices (planeCalls params) := by
  rw [construct_vertex_data, buildPlanes_eq]
  simp [Geometry.empty]

theorem construct_index_data_eq (params : Parameters) :
    (construct params).geometry.index_data_ = allIndices 0 (planeCalls params) := by
  rw [construct_index_data, buildPlanes_eq]
  simp [Geometry.empty]

theorem vertexFloats_length (params : PlaneParameters) (iy ix : Nat) :
    (vertexFloats params iy ix).length = 8 := rfl

theorem planeVertices_length (params : PlaneParameters) :
    (planeVertices params).length = 8 * planeVertexCount params := by
  unfold planeVertices planeVertexCount
  rw [blocks_length _ ((params.grid_x + 1) * 8)
    (fun iy => blocks_length _ 8 (fun ix => vertexFloats_length params iy ix) _)]
  ring

theorem planeVertices_getD (params : PlaneParameters) (iy ix j : Nat)
    (hiy : iy ≤ params.grid_y) (hix : ix ≤ params.grid_x) (hj : j < 8) (d : ℚ) :
    (planeVertices params).getD (8 * latticeIndex params 0 iy ix + j) d
      = (vertexFloats params iy ix).getD j d := by
  have hidx : 8 * latticeIndex params 0 iy ix + j
      = iy * ((params.grid_x + 1) * 8) + (ix * 8 + j) := by
    unfold latticeIndex; ring
  unfold planeVertices
  rw [hidx, blocks_getD _ ((params.grid_x + 1) * 8)
    (fun iy => blocks_length _ 8 (fun ix => vertexFloats_length params iy ix) _)
    d _ iy (ix * 8 + j) (by omega) (by
      calc ix * 8 + j < (ix + 1) * 8 := by omega
        _ ≤ (params.grid_x + 1) * 8 := Nat.mul_le_mul_right 8 (by omega))]
  exact blocks_getD _ 8 (fun ix => vertexFloats_length params iy ix) d _ ix j (by omega) hj

theorem allVertices_length (calls : List PlaneParameters) :
    (allVertices calls).length = 8 * vertexTotal calls := by
  induction calls with
  | nil => rfl
  | cons p ps ih => simp [allVertices, vertexTotal, planeVertices_length, ih]; ring

/-- Reading the eight floats of the vertex at lattice point `(ix, iy)` of a
plane that sits between earlier and later vertex data. -/
theorem plane_getD (pre post : List ℚ) (params : PlaneParameters) (s : Nat)
    (hpre : pre.length = 8 * s) (iy ix j : Nat) (hiy : iy ≤ params.grid_y)
    (hix : ix ≤ params.grid_x) (hj : j < 8) (d : ℚ) :
    (pre ++ (planeVertices params ++ post)).getD (8 * latticeIndex params s iy ix + j) d
      = (vertexFloats params iy ix).getD j d := by
  have hs : 8 * latticeIndex params s iy ix + j
      = pre.length + (8 * latticeIndex params 0 iy ix + j) := by
    rw [hpre]; unfold latticeIndex; ring
  have hlt : 8 * latticeIndex params 0 iy ix + j < (planeVertices params).length := by
    rw [planeVertices_length]
    unfold latticeIndex planeVertexCount
    have h1 : ix + (params.grid_x + 1) * iy + 1 ≤ (params.grid_x + 1) * (params.grid_y + 1) := by
      calc ix + (params.grid_x + 1) * iy + 1 ≤ (params.grid_x + 1) * iy + (params.grid_x + 1) := by
            omega
        _ = (params.grid_x + 1) * (iy + 1) := by ring
        _ ≤ (params.grid_x + 1) * (params.grid_y + 1) := Nat.mul_le_mul_left _ (by omega)
    omega
  rw [hs, List.getD_append_right _ _ _ _ (by omega), Nat.add_sub_cancel_left,
    List.getD_append _ _ _ _ hlt]
  exact planeVertices_getD params iy ix j hiy hix hj d

theorem plane_positionAt (pre post : List ℚ) (params : PlaneParameters) (s : Nat)
    (hpre : pre.length = 8 * s) (iy ix : Nat) (hiy : iy ≤ params.grid_y)
    (hix : ix ≤ params.grid_x) :
    positionAt (pre ++ (planeVertices params ++ post)) (latticeIndex params s iy ix)
      = planePosition params iy ix := by
  have h0 := plane_getD pre post params s hpre iy ix 0 hiy hix (by omega) 0
  have h1 := plane_getD pre post params s hpre iy ix 1 hiy hix (by omega) 0
  have h2 := plane_getD pre post params s hpre iy ix 2 hiy hix (by omega) 0
  rw [Nat.add_zero] at h0
  simp only [positionAt, h0, h1, h2]
  rfl

theorem plane_normalAt (pre post : List ℚ) (params : PlaneParameters) (s : Nat)
    (hpre : pre.length = 8 * s) (iy ix : Nat) (hiy : iy ≤ params.grid_y)
    (hix : ix ≤ params.grid_x) :
    normalAt (pre ++ (planeVertices params ++ post)) (latticeIndex params s iy ix)
      = planeNormal params := by
  have h3 := plane_getD pre post params s hpre iy ix 3 hiy hix (by omega) 0
  have h4 := plane_getD pre post params s hpre iy ix 4 hiy hix (by omega) 0
  have h5 := plane_getD pre post params s hpre iy ix 5 hiy hix (by omega) 0
  simp only [normalAt, h3, h4, h5]
  rfl

theorem plane_uvAt (pre post : List ℚ) (params : PlaneParameters) (s : Nat)
    (hpre : pre.length = 8 * s) (iy ix : Nat) (hiy : iy ≤ params.grid_y)
    (hix : ix ≤ params.grid_x) :
    uvAt (pre ++ (planeVertices params ++ post)) (latticeIndex params s iy ix)
      = planeUV params iy ix := by
  have h6 := plane_getD pre post params s hpre iy ix 6 hiy hix (by omega) 0
  have h7 := plane_getD pre post params s hpre iy ix 7 hiy hix (by omega) 0
  simp only [uvAt, h6, h7]
  rfl

theorem allVertices_append (ps qs : List PlaneParameters) :
    allVertices (ps ++ qs) = allVertices ps ++ allVertices qs := by
  induction ps with
  | nil => rfl
  | cons p ps ih => simp [allVertices, ih]

theorem vertexTotal_append (ps qs : List PlaneParameters) :
    vertexTotal (ps ++ qs) = vertexTotal ps + vertexTotal qs := by
  induction ps with
  | nil => simp [vertexTotal]
  | cons p ps ih => simp [vertexTotal, ih, Nat.add_assoc]

theorem allIndices_append (s : Nat) (ps qs : List PlaneParameters) :
    allIndices s (ps ++ qs) = allIndices s ps ++ allIndices (s + vertexTotal ps) qs := by
  induction ps generalizing s with
  | nil => simp [allIndices, vertexTotal]
  | cons p ps ih => simp [allIndices, vertexTotal, ih, Nat.add_assoc]

/-- The vertex at lattice point `(ix, iy)` of the plane `p` inside a run of
planes `ps ++ p :: qs`. -/
theorem face_vertex (ps qs : List PlaneParameters) (p : PlaneParameters) (iy ix : Nat)
    (hiy : iy ≤ p.grid_y) (hix : ix ≤ p.grid_x) :
    positionAt (allVertices (ps ++ p :: qs)) (latticeIndex p (vertexTotal ps) iy ix)
        = planePosition p iy ix
      ∧ normalAt (allVertices (ps ++ p :: qs)) (latticeIndex p (vertexTotal ps) iy ix)
        = planeNormal p
      ∧ uvAt (allVertices (ps ++ p :: qs)) (latticeIndex p (vertexTotal ps) iy ix)
        = planeUV p iy ix := by
  rw [allVertices_append]
  simp only [allVertices]
  exact ⟨plane_positionAt _ _ p _ (allVertices_length ps) iy ix hiy hix,
    plane_normalAt _ _ p _ (allVertices_length ps) iy ix hiy hix,
    plane_uvAt _ _ p _ (allVertices_length ps) iy ix hiy hix⟩

theorem latticeIndex_lt (p : PlaneParameters) (s iy ix : Nat) (hiy : iy ≤ p.grid_y)
    (hix : ix ≤ p.grid_x) : latticeIndex p s iy ix < s + planeVertexCount p := by
  unfold latticeIndex planeVertexCount
  have h1 : (p.grid_x + 1) * iy + (p.grid_x + 1) ≤ (p.grid_x + 1) * (p.grid_y + 1) := by
    calc (p.grid_x + 1) * iy + (p.grid_x + 1) = (p.grid_x + 1) * (iy + 1) := by ring
      _ ≤ (p.grid_x + 1) * (p.grid_y + 1) := Nat.mul_le_mul_left _ (by omega)
  omega

/-- Every vertex index below the total belongs to exactly one plane of the run
and is the lattice index of one of its lattice points. -/
theorem vertex_decompose (calls : List PlaneParameters) (i : Nat) (hi : i < vertexTotal calls) :
    ∃ ps p qs iy ix, calls = ps ++ p :: qs ∧ iy ≤ p.grid_y ∧ ix ≤ p.grid_x
      ∧ i = latticeIndex p (vertexTotal ps) iy ix := by
  induction calls generalizing i with
  | nil => simp [vertexTotal] at hi
  | cons p rest ih =>
    by_cases h : i < planeVertexCount p
    · refine ⟨[], p, rest, i / (p.grid_x + 1), i % (p.grid_x + 1), rfl, ?_, ?_, ?_⟩
      · have : i / (p.grid_x + 1) < p.grid_y + 1 := by
          rw [Nat.div_lt_iff_lt_mul (by omega)]
          unfold planeVertexCount at h
          rw [Nat.mul_comm]; exact h
        omega
      · have := Nat.mod_lt i (show 0 < p.grid_x + 1 by omega)
        omega
      · simp only [latticeIndex, vertexTotal, Nat.zero_add]
        exact (Nat.mod_add_div i (p.grid_x + 1)).symm
    · have hi2 : i - planeVertexCount p < vertexTotal rest := by
        simp only [vertexTotal] at hi; omega
      obtain ⟨ps, q, qs, iy, ix, hc, hiy, hix, hidx⟩ := ih (i - planeVertexCount p) hi2
      refine ⟨p :: ps, q, qs, iy, ix, by simp [hc], hiy, hix, ?_⟩
      simp only [latticeIndex, vertexTotal] at hidx ⊢
      omega

theorem cellIndices_length (params : PlaneParameters) (s iy ix : Nat) :
    (cellIndices params s iy ix).length = 3 * 2 := rfl

theorem planeIndices_length (params : PlaneParameters) (s : Nat) :
    (planeIndices params s).length = 3 * (2 * planeCellCount params) := by
  unfold planeIndices planeCellCount
  rw [blocks_length _ (params.grid_x * 6)
    (fun iy => blocks_length _ 6 (fun ix => cellIndices_length params s iy ix) _)]
  ring

theorem mem_triangles_planeIndices (params : PlaneParameters) (s : Nat) (t : Nat × Nat × Nat) :
    t ∈ triangles (planeIndices params s) ↔
      ∃ iy ix, iy < params.grid_y ∧ ix < params.grid_x
        ∧ (t = (latticeIndex params s iy ix, latticeIndex params s (iy + 1) ix,
              latticeIndex params s iy (ix + 1))
          ∨ t = (latticeIndex params s (iy + 1) ix, latticeIndex params s (iy + 1) (ix + 1),
              latticeIndex params s iy (ix + 1))) := by
  unfold planeIndices
  rw [mem_triangles_blocks _ (params.grid_x * 2)
    (fun iy => by
      rw [blocks_length _ 6 (fun ix => cellIndices_length params s iy ix)]; ring)]
  constructor
  · rintro ⟨iy, hiy, ht⟩
    rw [mem_triangles_blocks _ 2 (fun ix => cellIndices_length params s iy ix)] at ht
    obtain ⟨ix, hix, ht⟩ := ht
    refine ⟨iy, ix, hiy, hix, ?_⟩
    simpa [cellIndices, triangles] using ht
  · rintro ⟨iy, ix, hiy, hix, ht⟩
    refine ⟨iy, hiy, ?_⟩
    rw [mem_triangles_blocks _ 2 (fun ix => cellIndices_length params s iy ix)]
    refine ⟨ix, hix, ?_⟩
    simpa [cellIndices, triangles] using ht

theorem allIndices_length (s : Nat) (calls : List PlaneParameters) :
    ∃ n, (allIndices s calls).length = 3 * n := by
  induction calls generalizing s with
  | nil => exact ⟨0, rfl⟩
  | cons p ps ih =>
    obtain ⟨n, hn⟩ := ih (s + planeVertexCount p)
    refine ⟨2 * planeCellCount p + n, ?_⟩
    simp only [allIndices, List.length_append, planeIndices_length, hn]
    ring

/-- Every triangle of a run of planes is a triangle of exactly one plane of
the run, whose first vertex index is the number of vertices emitted before. -/
theorem mem_triangles_allIndices (s : Nat) (calls : List PlaneParameters) (t : Nat × Nat × Nat) :
    t ∈ triangles (allIndices s calls) ↔
      ∃ ps p qs, calls = ps ++ p :: qs ∧ t ∈ triangles (planeIndices p (s + vertexTotal ps)) := by
  induction calls generalizing s with
  | nil => simp [allIndices, triangles]
  | cons p rest ih =>
    simp only [allIndices]
    rw [triangles_append _ _ _ (planeIndices_length p s), List.mem_append, ih]
    constructor
    · rintro (ht | ⟨ps, q, qs, hc, ht⟩)
      · exact ⟨[], p, rest, rfl, by simpa [vertexTotal] using ht⟩
      · refine ⟨p :: ps, q, qs, by simp [hc], ?_⟩
        simpa [vertexTotal, Nat.add_assoc] using ht
    · rintro ⟨ps, q, qs, hc, ht⟩
      cases ps with
      | nil =>
        simp only [List.nil_append, List.cons.injEq] at hc
        obtain ⟨rfl, rfl⟩ := hc
        exact Or.inl (by simpa [vertexTotal] using ht)
      | cons p2 ps =>
        simp only [List.cons_append, List.cons.injEq] at hc
        obtain ⟨rfl, rfl⟩ := hc
        exact Or.inr ⟨ps, q, qs, rfl, by simpa [vertexTotal, Nat.add_assoc] using ht⟩

/-! ## The six planes of the box, explicitly -/

theorem mem_planeCalls (params : Parameters) (p : PlaneParameters) (hp : p ∈ planeCalls params) :
    p = plane1 params ∨ p = plane2 params ∨ p = plane3 params ∨ p = plane4 params
      ∨ p = plane5 params ∨ p = plane6 params := by
  simpa [planeCalls] using hp

theorem mem_planeCalls_of_eq (params : Parameters) (ps qs : List PlaneParameters)
    (p : PlaneParameters) (h : planeCalls params = ps ++ p :: qs) : p ∈ planeCalls params := by
  rw [h]; simp

theorem Vector3.eq_iff (a b : Vector3 ℚ) : a = b ↔ a.x = b.x ∧ a.y = b.y ∧ a.z = b.z := by
  cases a; cases b; simp

theorem planePosition_plane1 (params : Parameters) (iy ix : Nat) :
    planePosition (plane1 params) iy ix
      = ⟨params.width / 2,
          params.height / 2 - (iy : ℚ) * (params.height / (params.height_segments : ℚ)),
          params.depth / 2 - (ix : ℚ) * (params.depth / (params.depth_segments : ℚ))⟩ := by
  simp [planePosition, SetComponent, plane1, segment_w, segment_h, width_half, height_half,
    depth_half, Vector3.zero]

theorem planePosition_plane2 (params : Parameters) (iy ix : Nat) :
    planePosition (plane2 params) iy ix
      = ⟨-params.width / 2,
          params.height / 2 - (iy : ℚ) * (params.height / (params.height_segments : ℚ)),
          (ix : ℚ) * (params.depth / (params.depth_segments : ℚ)) - params.depth / 2⟩ := by
  simp [planePosition, SetComponent, plane2, segment_w, segment_h, width_half, height_half,
    depth_half, Vector3.zero]

theorem planePosition_plane3 (params : Parameters) (iy ix : Nat) :
    planePosition (plane3 params) iy ix
      = ⟨(ix : ℚ) * (params.width / (params.width_segments : ℚ)) - params.width / 2,
          params.height / 2,
          (iy : ℚ) * (params.depth / (params.depth_segments : ℚ)) - params.depth / 2⟩ := by
  simp [planePosition, SetComponent, plane3, segment_w, segment_h, width_half, height_half,
    depth_half, Vector3.zero]

theorem planePosition_plane4 (params : Parameters) (iy ix : Nat) :
    planePosition (plane4 params) iy ix
      = ⟨(ix : ℚ) * (params.width / (params.width_segments : ℚ)) - params.width / 2,
          -params.height / 2,
          params.depth / 2 - (iy : ℚ) * (params.depth / (params.depth_segments : ℚ))⟩ := by
  simp [planePosition, SetComponent, plane4, segment_w, segment_h, width_half, height_half,
    depth_half, Vector3.zero]

theorem planePosition_plane5 (params : Parameters) (iy ix : Nat) :
    planePosition (plane5 params) iy ix
      = ⟨(ix : ℚ) * (params.width / (params.width_segments : ℚ)) - params.width / 2,
          params.height / 2 - (iy : ℚ) * (params.height / (params.height_segments : ℚ)),
          params.depth / 2⟩ := by
  simp [planePosition, SetComponent, plane5, segment_w, segment_h, width_half, height_half,
    depth_half, Vector3.zero]

theorem planePosition_plane6 (params : Parameters) (iy ix : Nat) :
    planePosition (plane6 params) iy ix
      = ⟨params.width / 2 - (ix : ℚ) * (params.width / (params.width_segments : ℚ)),
          params.height / 2 - (iy : ℚ) * (params.height / (params.height_segments : ℚ)),
          -params.depth / 2⟩ := by
  simp [planePosition, SetComponent, plane6, segment_w, segment_h, width_half, height_half,
    depth_half, Vector3.zero]

theorem planeNormal_calls (params : Parameters) (hw : 0 < params.width)
    (hh : 0 < params.height) (hd : 0 < params.depth) :
    (planeCalls params).map planeNormal = faceDirections := by
  have h2 : ¬ (params.width < 0) := not_lt.2 hw.le
  have h4 : ¬ (params.height < 0) := not_lt.2 hh.le
  have h6 : ¬ (params.depth < 0) := not_lt.2 hd.le
  simp [planeCalls, faceDirections, planeNormal, SetComponent, plane1, plane2, plane3, plane4,
    plane5, plane6, Vector3.zero, hw, hh, hd, h2, h4, h6]

theorem planeNormal_each (params : Parameters) (hw : 0 < params.width)
    (hh : 0 < params.height) (hd : 0 < params.depth) :
    planeNormal (plane1 params) = ⟨1, 0, 0⟩ ∧ planeNormal (plane2 params) = ⟨-1, 0, 0⟩
      ∧ planeNormal (plane3 params) = ⟨0, 1, 0⟩ ∧ planeNormal (plane4 params) = ⟨0, -1, 0⟩
      ∧ planeNormal (plane5 params) = ⟨0, 0, 1⟩ ∧ planeNormal (plane6 params) = ⟨0, 0, -1⟩ := by
  have hN := planeNormal_calls params hw hh hd
  simp only [planeCalls, List.map, faceDirections, List.cons.injEq, and_true] at hN
  exact hN

/-- Both triangles of every grid cell of every plane of the box turn
counter-clockwise around the plane's normal. -/
theorem cell_winding (params : Parameters) (hw : 0 < params.width) (hh : 0 < params.height)
    (hd : 0 < params.depth) (hsx : 1 ≤ params.width_segments)
    (hsy : 1 ≤ params.height_segments) (hsz : 1 ≤ params.depth_segments)
    (p : PlaneParameters) (hp : p ∈ planeCalls params) (iy ix : Nat) :
    0 < segment_w p * segment_h p
      ∧ Vector3.cross
          (Vector3.sub (planePosition p (iy + 1) ix) (planePosition p iy ix))
          (Vector3.sub (planePosition p iy (ix + 1)) (planePosition p iy ix))
        = Vector3.scale (segment_w p * segment_h p) (planeNormal p)
      ∧ Vector3.cross
          (Vector3.sub (planePosition p (iy + 1) (ix + 1)) (planePosition p (iy + 1) ix))
          (Vector3.sub (planePosition p iy (ix + 1)) (planePosition p (iy + 1) ix))
        = Vector3.scale (segment_w p * segment_h p) (planeNormal p) := by
  obtain ⟨n1, n2, n3, n4, n5, n6⟩ := planeNormal_each params hw hh hd
  have hx : (0 : ℚ) < (params.width_segments : ℚ) := by exact_mod_cast hsx
  have hy : (0 : ℚ) < (params.height_segments : ℚ) := by exact_mod_cast hsy
  have hz : (0 : ℚ) < (params.depth_segments : ℚ) := by exact_mod_cast hsz
  rcases mem_planeCalls params p hp with rfl | rfl | rfl | rfl | rfl | rfl <;>
    refine ⟨?_, ?_, ?_⟩
  all_goals first
    | exact mul_pos (div_pos hd hz) (div_pos hh hy)
    | exact mul_pos (div_pos hw hx) (div_pos hd hz)
    | exact mul_pos (div_pos hw hx) (div_pos hh hy)
    | (simp only [planePosition_plane1, planePosition_plane2, planePosition_plane3,
        planePosition_plane4, planePosition_plane5, planePosition_plane6, n1, n2, n3, n4, n5,
        n6]
       simp only [Vector3.cross, Vector3.sub, Vector3.scale, Vector3.mk.injEq, segment_w,
        segment_h, plane1, plane2, plane3, plane4, plane5, plane6]
       push_cast
       refine ⟨by ring, by ring, by ring⟩)

theorem construct_counter_eq (params : Parameters) :
    (construct params).vertex_counter_ = vertexTotal (planeCalls params) := by
  rw [construct_eq_buildPlanes, SetAttributes_counter, buildPlanes_eq]
  simp

theorem face_vertex_lt (ps qs : List PlaneParameters) (p : PlaneParameters) (iy ix : Nat)
    (hiy : iy ≤ p.grid_y) (hix : ix ≤ p.grid_x) :
    latticeIndex p (vertexTotal ps) iy ix < vertexTotal (ps ++ p :: qs) := by
  have h := latticeIndex_lt p (vertexTotal ps) iy ix hiy hix
  rw [vertexTotal_append]
  simp only [vertexTotal]
  omega

/-- On every plane of the box the stored normal points away from the centre:
its dot product with every position of the plane is positive. -/
theorem plane_dot_pos (params : Parameters) (hw : 0 < params.width) (hh : 0 < params.height)
    (hd : 0 < params.depth) (p : PlaneParameters) (hp : p ∈ planeCalls params) (iy ix : Nat) :
    0 < Vector3.dot (planePosition p iy ix) (planeNormal p) := by
  obtain ⟨n1, n2, n3, n4, n5, n6⟩ := planeNormal_each params hw hh hd
  rcases mem_planeCalls params p hp with rfl | rfl | rfl | rfl | rfl | rfl
  all_goals
    simp only [planePosition_plane1, planePosition_plane2, planePosition_plane3,
      planePosition_plane4, planePosition_plane5, planePosition_plane6, n1, n2, n3, n4, n5,
      n6, Vector3.dot]
    linarith

/-! ## One plane on its own -/

theorem lattice_of_lt (p : PlaneParameters) (j : Nat) (hj : j < planeVertexCount p) :
    ∃ iy ix, iy ≤ p.grid_y ∧ ix ≤ p.grid_x ∧ j = ix + (p.grid_x + 1) * iy := by
  refine ⟨j / (p.grid_x + 1), j % (p.grid_x + 1), ?_, ?_, ?_⟩
  · have : j / (p.grid_x + 1) < p.grid_y + 1 := by
      rw [Nat.div_lt_iff_lt_mul (by omega)]
      unfold planeVertexCount at hj
      rw [Nat.mul_comm]; exact hj
    omega
  · have := Nat.mod_lt j (show 0 < p.grid_x + 1 by omega)
    omega
  · exact (Nat.mod_add_div j (p.grid_x + 1)).symm

/-- The vertex emitted at lattice point `(ix, iy)` is number
`ix + (grid_x + 1) * iy` of the block a plane appends. -/
theorem block_vertex (p : PlaneParameters) (iy ix : Nat) (hiy : iy ≤ p.grid_y)
    (hix : ix ≤ p.grid_x) :
    positionAt (planeVertices p) (ix + (p.grid_x + 1) * iy) = planePosition p iy ix
      ∧ normalAt (planeVertices p) (ix + (p.grid_x + 1) * iy) = planeNormal p
      ∧ uvAt (planeVertices p) (ix + (p.grid_x + 1) * iy) = planeUV p iy ix := by
  have h1 := plane_positionAt [] [] p 0 rfl iy ix hiy hix
  have h2 := plane_normalAt [] [] p 0 rfl iy ix hiy hix
  have h3 := plane_uvAt [] [] p 0 rfl iy ix hiy hix
  simp only [List.nil_append, List.append_nil, latticeIndex, Nat.zero_add] at h1 h2 h3
  exact ⟨h1, h2, h3⟩

theorem face_normal_at (ps qs : List PlaneParameters) (p : PlaneParameters) (j : Nat)
    (hj : j < planeVertexCount p) :
    normalAt (allVertices (ps ++ p :: qs)) (vertexTotal ps + j) = planeNormal p := by
  obtain ⟨iy, ix, hiy, hix, rfl⟩ := lattice_of_lt p j hj
  have h := (face_vertex ps qs p iy ix hiy hix).2.1
  simp only [latticeIndex] at h
  rw [← h, Nat.add_assoc]

theorem BuildPlane_vertex_data (self : BoxGeometry) (params : PlaneParameters) :
    (BuildPlane self params).geometry.vertex_data_
      = self.geometry.vertex_data_ ++ planeVertices params := by
  rw [BuildPlane_eq]

theorem BuildPlane_index_data (self : BoxGeometry) (params : PlaneParameters) :
    (BuildPlane self params).geometry.index_data_
      = self.geometry.index_data_ ++ planeIndices params self.vertex_counter_ := by
  rw [BuildPlane_eq]

theorem lattice_fraction (n i : Nat) (hn : 1 ≤ n) (hi : i ≤ n) :
    0 ≤ (i : ℚ) / (n : ℚ) ∧ (i : ℚ) / (n : ℚ) ≤ 1 := by
  have hn0 : (0 : ℚ) < (n : ℚ) := by exact_mod_cast hn
  have hi0 : (0 : ℚ) ≤ (i : ℚ) := by exact_mod_cast Nat.zero_le i
  have hin : (i : ℚ) ≤ (n : ℚ) := by exact_mod_cast hi
  exact ⟨div_nonneg hi0 hn0.le, (div_le_one hn0).2 hin⟩

theorem component_SetComponent_permuted (u v w : Char) (hu : IsAxis u) (hv : IsAxis v)
    (hw : IsAxis w) (huv : u ≠ v) (huw : u ≠ w) (hvw : v ≠ w) (vec : Vector3 ℚ) (a b c : ℚ) :
    component (SetComponent (SetComponent (SetComponent vec u a) v b) w c) u = a
      ∧ component (SetComponent (SetComponent (SetComponent vec u a) v b) w c) v = b
      ∧ component (SetComponent (SetComponent (SetComponent vec u a) v b) w c) w = c := by
  rcases hu with rfl | rfl | rfl <;> rcases hv with rfl | rfl | rfl <;>
    rcases hw with rfl | rfl | rfl <;> simp [SetComponent, component] at huv huw hvw ⊢

theorem lattice_scaled (L : ℚ) (n i : Nat) (hL : 0 < L) (hn : 1 ≤ n) (hi : i ≤ n) :
    0 ≤ (i : ℚ) * (L / (n : ℚ)) ∧ (i : ℚ) * (L / (n : ℚ)) ≤ L := by
  obtain ⟨h0, h1⟩ := lattice_fraction n i hn hi
  have h : (i : ℚ) * (L / (n : ℚ)) = L * ((i : ℚ) / (n : ℚ)) := by ring
  rw [h]
  constructor
  · exact mul_nonneg hL.le h0
  · calc L * ((i : ℚ) / (n : ℚ)) ≤ L * 1 := mul_le_mul_of_nonneg_left h1 hL.le
      _ = L := mul_one L

theorem lattice_full (L : ℚ) (n : Nat) (hn : 1 ≤ n) : (n : ℚ) * (L / (n : ℚ)) = L := by
  have hn0 : (n : ℚ) ≠ 0 := by exact_mod_cast (show n ≠ 0 by omega)
  field_simp

theorem exists_vertex (ps qs : List PlaneParameters) (p : PlaneParameters) (iy ix : Nat)
    (hiy : iy ≤ p.grid_y) (hix : ix ≤ p.grid_x) :
    ∃ i, i < vertexTotal (ps ++ p :: qs)
      ∧ positionAt (allVertices (ps ++ p :: qs)) i = planePosition p iy ix :=
  ⟨latticeIndex p (vertexTotal ps) iy ix, face_vertex_lt ps qs p iy ix hiy hix,
    (face_vertex ps qs p iy ix hiy hix).1⟩

/-- Position and normal of every vertex of every plane of the box: the position
lies in the box, on the side the normal names. -/
theorem plane_vertex_facts (params : Parameters) (hw : 0 < params.width)
    (hh : 0 < params.height) (hd : 0 < params.depth) (hsx : 1 ≤ params.width_segments)
    (hsy : 1 ≤ params.height_segments) (hsz : 1 ≤ params.depth_segments)
    (p : PlaneParameters) (hp : p ∈ planeCalls params) (iy ix : Nat) (hiy : iy ≤ p.grid_y)
    (hix : ix ≤ p.grid_x) :
    -(params.width / 2) ≤ (planePosition p iy ix).x
      ∧ (planePosition p iy ix).x ≤ params.width / 2
      ∧ -(params.height / 2) ≤ (planePosition p iy ix).y
      ∧ (planePosition p iy ix).y ≤ params.height / 2
      ∧ -(params.depth / 2) ≤ (planePosition p iy ix).z
      ∧ (planePosition p iy ix).z ≤ params.depth / 2
      ∧ ((planeNormal p = ⟨1, 0, 0⟩ ∧ (planePosition p iy ix).x = params.width / 2
            ∧ Vector3.dot (planePosition p iy ix) (planeNormal p) = params.width / 2)
        ∨ (planeNormal p = ⟨-1, 0, 0⟩ ∧ (planePosition p iy ix).x = -(params.width / 2)
            ∧ Vector3.dot (planePosition p iy ix) (planeNormal p) = params.width / 2)
        ∨ (planeNormal p = ⟨0, 1, 0⟩ ∧ (planePosition p iy ix).y = params.height / 2
            ∧ Vector3.dot (planePosition p iy ix) (planeNormal p) = params.height / 2)
        ∨ (planeNormal p = ⟨0, -1, 0⟩ ∧ (planePosition p iy ix).y = -(params.height / 2)
            ∧ Vector3.dot (planePosition p iy ix) (planeNormal p) = params.height / 2)
        ∨ (planeNormal p = ⟨0, 0, 1⟩ ∧ (planePosition p iy ix).z = params.depth / 2
            ∧ Vector3.dot (planePosition p iy ix) (planeNormal p) = params.depth / 2)
        ∨ (planeNormal p = ⟨0, 0, -1⟩ ∧ (planePosition p iy ix).z = -(params.depth / 2)
            ∧ Vector3.dot (planePosition p iy ix) (planeNormal p) = params.depth / 2)) := by
  obtain ⟨n1, n2, n3, n4, n5, n6⟩ := planeNormal_each params hw hh hd
  rcases mem_planeCalls params p hp with rfl | rfl | rfl | rfl | rfl | rfl
  · obtain ⟨a0, a1⟩ := lattice_scaled params.depth _ ix hd hsz hix
    obtain ⟨b0, b1⟩ := lattice_scaled params.height _ iy hh hsy hiy
    rw [planePosition_plane1, n1]
    refine ⟨by linarith, by linarith, by linarith, by linarith, by linarith, by linarith, ?_⟩
    exact Or.inl ⟨rfl, rfl, by simp [Vector3.dot]⟩
  · obtain ⟨a0, a1⟩ := lattice_scaled params.depth _ ix hd hsz hix
    obtain ⟨b0, b1⟩ := lattice_scaled params.height _ iy hh hsy hiy
    rw [planePosition_plane2, n2]
    refine ⟨by linarith, by linarith, by linarith, by linarith, by linarith, by linarith, ?_⟩
    exact Or.inr (Or.inl ⟨rfl, by ring, by simp [Vector3.dot]; ring⟩)
  · obtain ⟨a0, a1⟩ := lattice_scaled params.width _ ix hw hsx hix
    obtain ⟨b0, b1⟩ := lattice_scaled params.depth _ iy hd hsz hiy
    rw [planePosition_plane3, n3]
    refine ⟨by linarith, by linarith, by linarith, by linarith, by linarith, by linarith, ?_⟩
    exact Or.inr (Or.inr (Or.inl ⟨rfl, rfl, by simp [Vector3.dot]⟩))
  · obtain ⟨a0, a1⟩ := lattice_scaled params.width _ ix hw hsx hix
    obtain ⟨b0, b1⟩ := lattice_scaled params.depth _ iy hd hsz hiy
    rw [planePosition_plane4, n4]
    refine ⟨by linarith, by linarith, by linarith, by linarith, by linarith, by linarith, ?_⟩
    exact Or.inr (Or.inr (Or.inr (Or.inl ⟨rfl, by ring, by simp [Vector3.dot]; ring⟩)))
  · obtain ⟨a0, a1⟩ := lattice_scaled params.width _ ix hw hsx hix
    obtain ⟨b0, b1⟩ := lattice_scaled params.height _ iy hh hsy hiy
    rw [planePosition_plane5, n5]
    refine ⟨by linarith, by linarith, by linarith, by linarith, by linarith, by linarith, ?_⟩
    exact Or.inr (Or.inr (Or.inr (Or.inr (Or.inl ⟨rfl, rfl, by simp [Vector3.dot]⟩))))
  · obtain ⟨a0, a1⟩ := lattice_scaled params.width _ ix hw hsx hix
    obtain ⟨b0, b1⟩ := lattice_scaled params.height _ iy hh hsy hiy
    rw [planePosition_plane6, n6]
    refine ⟨by linarith, by linarith, by linarith, by linarith, by linarith, by linarith, ?_⟩
    exact Or.inr (Or.inr (Or.inr (Or.inr (Or.inr ⟨rfl, by ring, by simp [Vector3.dot]; ring⟩))))

/-- All eight corners of the box occur among the positions of the two faces
built first. -/
theorem box_corners (params : Parameters) (hsy : 1 ≤ params.height_segments)
    (hsz : 1 ≤ params.depth_segments) (a b c : ℚ) (ha : a = 1 ∨ a = -1)
    (hb : b = 1 ∨ b = -1) (hc : c = 1 ∨ c = -1) :
    ∃ i, i < vertexTotal (planeCalls params)
      ∧ positionAt (allVertices (planeCalls params)) i
          = ⟨a * (params.width / 2), b * (params.height / 2), c * (params.depth / 2)⟩ := by
  have fy := lattice_full params.height _ hsy
  have fz := lattice_full params.depth _ hsz
  have e1 : ∀ iy ix, iy ≤ params.height_segments → ix ≤ params.depth_segments →
      ∃ i, i < vertexTotal (planeCalls params)
        ∧ positionAt (allVertices (planeCalls params)) i
            = planePosition (plane1 params) iy ix :=
    fun iy ix hiy hix => exists_vertex []
      [plane2 params, plane3 params, plane4 params, plane5 params, plane6 params]
      (plane1 params) iy ix hiy hix
  have e2 : ∀ iy ix, iy ≤ params.height_segments → ix ≤ params.depth_segments →
      ∃ i, i < vertexTotal (planeCalls params)
        ∧ positionAt (allVertices (planeCalls params)) i
            = planePosition (plane2 params) iy ix :=
    fun iy ix hiy hix => exists_vertex [plane1 params]
      [plane3 params, plane4 params, plane5 params, plane6 params]
      (plane2 params) iy ix hiy hix
  rcases ha with rfl | rfl <;> rcases hb with rfl | rfl <;> rcases hc with rfl | rfl
  · obtain ⟨i, hi, hpos⟩ := e1 0 0 (Nat.zero_le _) (Nat.zero_le _)
    refine ⟨i, hi, ?_⟩
    rw [hpos, planePosition_plane1]
    simp
  · obtain ⟨i, hi, hpos⟩ := e1 0 params.depth_segments (Nat.zero_le _) le_rfl
    refine ⟨i, hi, ?_⟩
    rw [hpos, planePosition_plane1, fz]
    simp only [Vector3.mk.injEq, Nat.cast_zero, zero_mul]
    refine ⟨by ring, by ring, by ring⟩
  · obtain ⟨i, hi, hpos⟩ := e1 params.height_segments 0 le_rfl (Nat.zero_le _)
    refine ⟨i, hi, ?_⟩
    rw [hpos, planePosition_plane1, fy]
    simp only [Vector3.mk.injEq, Nat.cast_zero, zero_mul]
    refine ⟨by ring, by ring, by ring⟩
  · obtain ⟨i, hi, hpos⟩ := e1 params.height_segments params.depth_segments le_rfl le_rfl
    refine ⟨i, hi, ?_⟩
    rw [hpos, planePosition_plane1, fy, fz]
    simp only [Vector3.mk.injEq]
    refine ⟨by ring, by ring, by ring⟩
  · obtain ⟨i, hi, hpos⟩ := e2 0 params.depth_segments (Nat.zero_le _) le_rfl
    refine ⟨i, hi, ?_⟩
    rw [hpos, planePosition_plane2, fz]
    simp only [Vector3.mk.injEq, Nat.cast_zero, zero_mul]
    refine ⟨by ring, by ring, by ring⟩
  · obtain ⟨i, hi, hpos⟩ := e2 0 0 (Nat.zero_le _) (Nat.zero_le _)
    refine ⟨i, hi, ?_⟩
    rw [hpos, planePosition_plane2]
    simp only [Vector3.mk.injEq, Nat.cast_zero, zero_mul]
    refine ⟨by ring, by ring, by ring⟩
  · obtain ⟨i, hi, hpos⟩ := e2 params.height_segments params.depth_segments le_rfl le_rfl
    refine ⟨i, hi, ?_⟩
    rw [hpos, planePosition_plane2, fy, fz]
    simp only [Vector3.mk.injEq]
    refine ⟨by ring, by ring, by ring⟩
  · obtain ⟨i, hi, hpos⟩ := e2 params.height_segments 0 le_rfl (Nat.zero_le _)
    refine ⟨i, hi, ?_⟩
    rw [hpos, planePosition_plane2, fy]
    simp only [Vector3.mk.injEq, Nat.cast_zero, zero_mul]
    refine ⟨by ring, by ring, by ring⟩

theorem assertionsHold_iff (params : Parameters) :
    assertionsHold params = true ↔
      0 < params.width ∧ 0 < params.height ∧ 0 < params.depth ∧ 0 < params.width_segments
        ∧ 0 < params.height_segments ∧ 0 < params.depth_segments := by
  simp [assertionsHold, and_assoc]

theorem new_eq_some (params : Parameters) (hw : 0 < params.width) (hh : 0 < params.height)
    (hd : 0 < params.depth) (hsx : 1 ≤ params.width_segments)
    (hsy : 1 ≤ params.height_segments) (hsz : 1 ≤ params.depth_segments) :
    BoxGeometry.new params = some (construct params) := by
  have h : assertionsHold params = true :=
    (assertionsHold_iff params).2 ⟨hw, hh, hd, hsx, hsy, hsz⟩
  simp [BoxGeometry.new, h]

/-! ## Counts, layout and assertions of the box -/

/-- C1: a box built from positive extents and segment counts `sx, sy, sz ≥ 1` is
returned by the constructor and emits `2 * ((sx+1)(sy+1) + (sy+1)(sz+1) + (sz+1)(sx+1))`
vertices: that is the final vertex counter, the vertex data holds eight floats
for each of them, and `VertexCount()` returns that number. -/
theorem box_vertex_count (params : Parameters) (hw : 0 < params.width)
    (hh : 0 < params.height) (hd : 0 < params.depth) (hsx : 1 ≤ params.width_segments)
    (hsy : 1 ≤ params.height_segments) (hsz : 1 ≤ params.depth_segments) :
    ∃ g, BoxGeometry.new params = some g
      ∧ g.vertex_counter_
          = 2 * ((params.width_segments + 1) * (params.height_segments + 1)
            + (params.height_segments + 1) * (params.depth_segments + 1)
            + (params.depth_segments + 1) * (params.width_segments + 1))
      ∧ g.geometry.vertex_data_.length
          = 8 * (2 * ((params.width_segments + 1) * (params.height_segments + 1)
            + (params.height_segments + 1) * (params.depth_segments + 1)
            + (params.depth_segments + 1) * (params.width_segments + 1)))
      ∧ g.geometry.VertexCount
          = 2 * ((params.width_segments + 1) * (params.height_segments + 1)
            + (params.height_segments + 1) * (params.depth_segments + 1)
            + (params.depth_segments + 1) * (params.width_segments + 1)) := by
  refine ⟨construct params, new_eq_some params hw hh hd hsx hsy hsz, construct_counter params,
    ?_, ?_⟩
  · rw [construct_vertex_length, construct_counter]
  · rw [construct_VertexCount, construct_counter]

/-- Witness of C1: a box of extents `(2, 3, 5)` with segment counts `(2, 3, 4)`. -/
theorem box_vertex_count_witness :
    ∃ g, BoxGeometry.new ⟨2, 3, 5, 2, 3, 4⟩ = some g
      ∧ g.vertex_counter_ = 2 * ((2 + 1) * (3 + 1) + (3 + 1) * (4 + 1) + (4 + 1) * (2 + 1))
      ∧ g.geometry.vertex_data_.length
          = 8 * (2 * ((2 + 1) * (3 + 1) + (3 + 1) * (4 + 1) + (4 + 1) * (2 + 1)))
      ∧ g.geometry.VertexCount
          = 2 * ((2 + 1) * (3 + 1) + (3 + 1) * (4 + 1) + (4 + 1) * (2 + 1)) :=
  box_vertex_count ⟨2, 3, 5, 2, 3, 4⟩ (by norm_num) (by norm_num) (by norm_num)
    (by norm_num) (by norm_num) (by norm_num)

/-- C2, as stated, fails: the unit box with segment counts `(2, 1, 1)` is
returned by the constructor with 60 indices, not `6 * 2 * 1 * 1 * 6 = 72`. -/
theorem box_index_count_counterexample :
    ∃ g, BoxGeometry.new ⟨1, 1, 1, 2, 1, 1⟩ = some g
      ∧ g.geometry.IndexCount = 60 ∧ g.geometry.IndexCount ≠ 6 * 2 * 1 * 1 * 6 := by
  refine ⟨construct ⟨1, 1, 1, 2, 1, 1⟩, new_eq_some _ (by norm_num) (by norm_num) (by norm_num)
    (by norm_num) (by norm_num) (by norm_num), ?_, ?_⟩ <;>
  · unfold Geometry.IndexCount
    rw [construct_index_length]
    norm_num

/-- C2, amended: a box built from positive extents and segment counts
`sx, sy, sz ≥ 1` is returned by the constructor with
`12 * (sx*sy + sy*sz + sz*sx)` indices. -/
theorem box_index_count (params : Parameters) (hw : 0 < params.width)
    (hh : 0 < params.height) (hd : 0 < params.depth) (hsx : 1 ≤ params.width_segments)
    (hsy : 1 ≤ params.height_segments) (hsz : 1 ≤ params.depth_segments) :
    ∃ g, BoxGeometry.new params = some g
      ∧ g.geometry.IndexCount
          = 12 * (params.width_segments * params.height_segments
            + params.height_segments * params.depth_segments
            + params.depth_segments * params.width_segments) :=
  ⟨construct params, new_eq_some params hw hh hd hsx hsy hsz, construct_index_length params⟩

/-- Witness of the amended C2: extents `(2, 3, 5)`, segment counts `(2, 3, 4)`. -/
theorem box_index_count_witness :
    ∃ g, BoxGeometry.new ⟨2, 3, 5, 2, 3, 4⟩ = some g
      ∧ g.geometry.IndexCount = 12 * (2 * 3 + 3 * 4 + 4 * 2) :=
  box_index_count ⟨2, 3, 5, 2, 3, 4⟩ (by norm_num) (by norm_num) (by norm_num)
    (by norm_num) (by norm_num) (by norm_num)

/-- C3: a box built from positive extents and segment counts `≥ 1` declares
exactly the attributes `[Position:3, Normal:3, UV:2]`, so its stride is 8 and
its vertex data holds eight floats for each vertex emitted; the default unit
cube has 24 vertices, 36 indices, stride 8 and 192 floats. -/
theorem box_attributes_and_stride (params : Parameters) (hw : 0 < params.width)
    (hh : 0 < params.height) (hd : 0 < params.depth) (hsx : 1 ≤ params.width_segments)
    (hsy : 1 ≤ params.height_segments) (hsz : 1 ≤ params.depth_segments) :
    (∃ g, BoxGeometry.new params = some g
      ∧ g.geometry.attributes_
          = [⟨GeometryAttributeType.Position, 3⟩, ⟨GeometryAttributeType.Normal, 3⟩,
              ⟨GeometryAttributeType.UV, 2⟩]
      ∧ g.geometry.Stride = 8
      ∧ g.geometry.vertex_data_.length = 8 * g.vertex_counter_)
    ∧ (∃ cube, BoxGeometry.new Parameters.default = some cube
      ∧ cube.vertex_counter_ = 24 ∧ cube.geometry.VertexCount = 24
      ∧ cube.geometry.IndexCount = 36 ∧ cube.geometry.Stride = 8
      ∧ cube.geometry.vertex_data_.length = 192) := by
  refine ⟨⟨construct params, new_eq_some params hw hh hd hsx hsy hsz,
    construct_attributes params, construct_stride params, construct_vertex_length params⟩,
    construct Parameters.default, new_eq_some _ (by norm_num [Parameters.default])
      (by norm_num [Parameters.default]) (by norm_num [Parameters.default])
      (by norm_num [Parameters.default]) (by norm_num [Parameters.default])
      (by norm_num [Parameters.default]), ?_, ?_, ?_, construct_stride _, ?_⟩
  · rw [construct_counter]; rfl
  · rw [construct_VertexCount, construct_counter]; rfl
  · unfold Geometry.IndexCount; rw [construct_index_length]; rfl
  · rw [construct_vertex_length, construct_counter]; rfl

/-- Witness of C3: extents `(2, 3, 5)`, segment counts `(2, 3, 4)`. -/
theorem box_attributes_and_stride_witness :
    (∃ g, BoxGeometry.new ⟨2, 3, 5, 2, 3, 4⟩ = some g
      ∧ g.geometry.attributes_
          = [⟨GeometryAttributeType.Position, 3⟩, ⟨GeometryAttributeType.Normal, 3⟩,
              ⟨GeometryAttributeType.UV, 2⟩]
      ∧ g.geometry.Stride = 8
      ∧ g.geometry.vertex_data_.length = 8 * g.vertex_counter_)
    ∧ (∃ cube, BoxGeometry.new Parameters.default = some cube
      ∧ cube.vertex_counter_ = 24 ∧ cube.geometry.VertexCount = 24
      ∧ cube.geometry.IndexCount = 36 ∧ cube.geometry.Stride = 8
      ∧ cube.geometry.vertex_data_.length = 192) :=
  box_attributes_and_stride ⟨2, 3, 5, 2, 3, 4⟩ (by norm_num) (by norm_num) (by norm_num)
    (by norm_num) (by norm_num) (by norm_num)

/-- C10: the constructor passes its assertions and returns an object exactly
when the three extents and the three segment counts are all positive, it aborts
on any violation, and under that precondition every `BuildPlane` call of the
constructor has `grid_x ≥ 1` and `grid_y ≥ 1`, the only values it divides by. -/
theorem box_assertions (params : Parameters) :
    ((BoxGeometry.new params).isSome = true ↔
        0 < params.width ∧ 0 < params.height ∧ 0 < params.depth ∧ 0 < params.width_segments
          ∧ 0 < params.height_segments ∧ 0 < params.depth_segments)
      ∧ (BoxGeometry.new params = none ↔
        ¬ (0 < params.width ∧ 0 < params.height ∧ 0 < params.depth
          ∧ 0 < params.width_segments ∧ 0 < params.height_segments
          ∧ 0 < params.depth_segments))
      ∧ ((0 < params.width ∧ 0 < params.height ∧ 0 < params.depth ∧ 0 < params.width_segments
          ∧ 0 < params.height_segments ∧ 0 < params.depth_segments) →
        BoxGeometry.new params
            = some (SetAttributes (buildPlanes ⟨Geometry.empty, 0, "box geometry"⟩
                (planeCalls params)))
          ∧ ∀ p ∈ planeCalls params, 1 ≤ p.grid_x ∧ 1 ≤ p.grid_y) := by
  have hiff := assertionsHold_iff params
  refine ⟨?_, ?_, ?_⟩
  · rw [← hiff]
    by_cases h : assertionsHold params = true <;> simp [BoxGeometry.new, h]
  · rw [← hiff]
    by_cases h : assertionsHold params = true <;> simp [BoxGeometry.new, h]
  · intro h
    obtain ⟨hw, hh, hd, hsx, hsy, hsz⟩ := h
    refine ⟨?_, ?_⟩
    · rw [new_eq_some params hw hh hd hsx hsy hsz, construct_eq_buildPlanes]
    · intro p hp
      simp only [planeCalls, List.mem_cons, List.mem_singleton, List.not_mem_nil, or_false] at hp
      rcases hp with rfl | rfl | rfl | rfl | rfl | rfl <;>
        simp only [plane1, plane2, plane3, plane4, plane5, plane6] <;> omega

/-- Witness of C10: the default unit cube satisfies the precondition, so the
constructor returns and all six planes have grids of at least one segment. -/
theorem box_assertions_witness :
    BoxGeometry.new Parameters.default
        = some (SetAttributes (buildPlanes ⟨Geometry.empty, 0, "box geometry"⟩
            (planeCalls Parameters.default)))
      ∧ ∀ p ∈ planeCalls Parameters.default, 1 ≤ p.grid_x ∧ 1 ≤ p.grid_y :=
  (box_assertions Parameters.default).2.2
    (by norm_num [Parameters.default])

/-! ## Winding -/

/-- C4: in a box built from positive extents and segment counts `≥ 1` the index
data splits into whole triangles, and for every triangle `(i0, i1, i2)` the
three indices are valid, the three vertices store the same normal `n`, which
points away from the centre of the box, and `cross(p1 - p0, p2 - p0)` is a
strictly positive multiple of `n`: every triangle is wound counter-clockwise
when seen from outside. -/
theorem box_triangles_counter_clockwise (params : Parameters) (hw : 0 < params.width)
    (hh : 0 < params.height) (hd : 0 < params.depth) (hsx : 1 ≤ params.width_segments)
    (hsy : 1 ≤ params.height_segments) (hsz : 1 ≤ params.depth_segments) :
    ∃ g, BoxGeometry.new params = some g
      ∧ 3 * (triangles g.geometry.index_data_).length = g.geometry.index_data_.length
      ∧ ∀ t ∈ triangles g.geometry.index_data_,
          t.1 < g.vertex_counter_ ∧ t.2.1 < g.vertex_counter_ ∧ t.2.2 < g.vertex_counter_
          ∧ normalAt g.geometry.vertex_data_ t.2.1 = normalAt g.geometry.vertex_data_ t.1
          ∧ normalAt g.geometry.vertex_data_ t.2.2 = normalAt g.geometry.vertex_data_ t.1
          ∧ 0 < Vector3.dot (positionAt g.geometry.vertex_data_ t.1)
              (normalAt g.geometry.vertex_data_ t.1)
          ∧ ∃ k : ℚ, 0 < k
            ∧ Vector3.cross
                (Vector3.sub (positionAt g.geometry.vertex_data_ t.2.1)
                  (positionAt g.geometry.vertex_data_ t.1))
                (Vector3.sub (positionAt g.geometry.vertex_data_ t.2.2)
                  (positionAt g.geometry.vertex_data_ t.1))
              = Vector3.scale k (normalAt g.geometry.vertex_data_ t.1) := by
  refine ⟨construct params, new_eq_some params hw hh hd hsx hsy hsz, ?_, ?_⟩
  · rw [construct_index_data_eq]
    obtain ⟨n, hn⟩ := allIndices_length 0 (planeCalls params)
    rw [triangles_length n _ hn, hn]
  · intro t ht
    rw [construct_index_data_eq, mem_triangles_allIndices] at ht
    obtain ⟨ps, p, qs, hc, ht⟩ := ht
    rw [mem_triangles_planeIndices] at ht
    obtain ⟨iy, ix, hiy, hix, ht⟩ := ht
    have hp : p ∈ planeCalls params := mem_planeCalls_of_eq params ps qs p hc
    rw [construct_vertex_data_eq, construct_counter_eq, hc]
    rw [Nat.zero_add] at ht
    obtain ⟨pa, na, -⟩ := face_vertex ps qs p iy ix (by omega) (by omega)
    obtain ⟨pb, nb, -⟩ := face_vertex ps qs p (iy + 1) ix (by omega) (by omega)
    obtain ⟨pc, nc, -⟩ := face_vertex ps qs p (iy + 1) (ix + 1) (by omega) (by omega)
    obtain ⟨pd, nd, -⟩ := face_vertex ps qs p iy (ix + 1) (by omega) (by omega)
    have la := face_vertex_lt ps qs p iy ix (by omega) (by omega)
    have lb := face_vertex_lt ps qs p (iy + 1) ix (by omega) (by omega)
    have lc := face_vertex_lt ps qs p (iy + 1) (ix + 1) (by omega) (by omega)
    have ld := face_vertex_lt ps qs p iy (ix + 1) (by omega) (by omega)
    obtain ⟨hk, h1, h2⟩ := cell_winding params hw hh hd hsx hsy hsz p hp iy ix
    rcases ht with rfl | rfl
    · refine ⟨la, lb, ld, ?_, ?_, ?_, segment_w p * segment_h p, hk, ?_⟩
      · simp only [na, nb]
      · simp only [na, nd]
      · simp only [pa, na]; exact plane_dot_pos params hw hh hd p hp iy ix
      · simp only [pa, pb, pd, na]; exact h1
    · refine ⟨lb, lc, ld, ?_, ?_, ?_, segment_w p * segment_h p, hk, ?_⟩
      · simp only [nb, nc]
      · simp only [nb, nd]
      · simp only [pb, nb]; exact plane_dot_pos params hw hh hd p hp (iy + 1) ix
      · simp only [pb, pc, pd, nb]; exact h2

/-- Witness of C4: extents `(2, 3, 5)`, segment counts `(2, 3, 4)`. -/
theorem box_triangles_counter_clockwise_witness :
    ∃ g, BoxGeometry.new ⟨2, 3, 5, 2, 3, 4⟩ = some g
      ∧ 3 * (triangles g.geometry.index_data_).length = g.geometry.index_data_.length
      ∧ ∀ t ∈ triangles g.geometry.index_data_,
          t.1 < g.vertex_counter_ ∧ t.2.1 < g.vertex_counter_ ∧ t.2.2 < g.vertex_counter_
          ∧ normalAt g.geometry.vertex_data_ t.2.1 = normalAt g.geometry.vertex_data_ t.1
          ∧ normalAt g.geometry.vertex_data_ t.2.2 = normalAt g.geometry.vertex_data_ t.1
          ∧ 0 < Vector3.dot (positionAt g.geometry.vertex_data_ t.1)
              (normalAt g.geometry.vertex_data_ t.1)
          ∧ ∃ k : ℚ, 0 < k
            ∧ Vector3.cross
                (Vector3.sub (positionAt g.geometry.vertex_data_ t.2.1)
                  (positionAt g.geometry.vertex_data_ t.1))
                (Vector3.sub (positionAt g.geometry.vertex_data_ t.2.2)
                  (positionAt g.geometry.vertex_data_ t.1))
              = Vector3.scale k (normalAt g.geometry.vertex_data_ t.1) :=
  box_triangles_counter_clockwise ⟨2, 3, 5, 2, 3, 4⟩ (by norm_num) (by norm_num) (by norm_num)
    (by norm_num) (by norm_num) (by norm_num)

/-! ## Indices and texture coordinates of one plane -/

/-- C9: a `BuildPlane` call entered with `vertex_counter_ = s` appends, for the
grid cells `(ix, iy)` in row-major order (`iy` outer, `ix` inner), exactly the
six indices `a, b, d, b, c, d` with `a = s + ix + (grid_x+1)*iy`,
`b = s + ix + (grid_x+1)*(iy+1)`, `c = s + ix + 1 + (grid_x+1)*(iy+1)` and
`d = s + ix + 1 + (grid_x+1)*iy`; the vertices of the call are emitted row by
row, so the vertex of lattice point `(jx, jy)` is number `jx + (grid_x+1)*jy` of
the call and `a - s, b - s, c - s, d - s` are the numbers of the corners
`(ix, iy), (ix, iy+1), (ix+1, iy+1), (ix+1, iy)`. -/
theorem buildPlane_indices (self : BoxGeometry) (params : PlaneParameters) :
    (BuildPlane self params).geometry.index_data_
        = self.geometry.index_data_
          ++ blocks params.grid_y (fun iy => blocks params.grid_x (fun ix =>
              [self.vertex_counter_ + ix + (params.grid_x + 1) * iy,
                self.vertex_counter_ + ix + (params.grid_x + 1) * (iy + 1),
                self.vertex_counter_ + ix + 1 + (params.grid_x + 1) * iy,
                self.vertex_counter_ + ix + (params.grid_x + 1) * (iy + 1),
                self.vertex_counter_ + ix + 1 + (params.grid_x + 1) * (iy + 1),
                self.vertex_counter_ + ix + 1 + (params.grid_x + 1) * iy]))
      ∧ (BuildPlane self params).geometry.vertex_data_
        = self.geometry.vertex_data_
          ++ blocks (params.grid_y + 1) (fun jy => blocks (params.grid_x + 1) (fun jx =>
              vertexFloats params jy jx))
      ∧ ∀ jy jx, jy ≤ params.grid_y → jx ≤ params.grid_x →
          positionAt (blocks (params.grid_y + 1) (fun jy => blocks (params.grid_x + 1)
              (fun jx => vertexFloats params jy jx))) (jx + (params.grid_x + 1) * jy)
            = planePosition params jy jx
          ∧ normalAt (blocks (params.grid_y + 1) (fun jy => blocks (params.grid_x + 1)
              (fun jx => vertexFloats params jy jx))) (jx + (params.grid_x + 1) * jy)
            = planeNormal params
          ∧ uvAt (blocks (params.grid_y + 1) (fun jy => blocks (params.grid_x + 1)
              (fun jx => vertexFloats params jy jx))) (jx + (params.grid_x + 1) * jy)
            = planeUV params jy jx := by
  refine ⟨?_, BuildPlane_vertex_data self params, ?_⟩
  · rw [BuildPlane_index_data]
    rfl
  · intro jy jx hjy hjx
    exact block_vertex params jy jx hjy hjx

/-- C8: a `BuildPlane` call with `grid_x, grid_y ≥ 1` gives the vertex at lattice
point `(ix, iy)` the texture coordinates `(ix/grid_x, 1 - iy/grid_y)`; both lie
in `[0, 1]`, the first vertex of the plane has `(0, 1)`, the last has `(1, 0)`,
`u` does not decrease with `ix` and `v` does not increase with `iy`. -/
theorem buildPlane_uv (self : BoxGeometry) (params : PlaneParameters)
    (hgx : 1 ≤ params.grid_x) (hgy : 1 ≤ params.grid_y) :
    ∃ block, (BuildPlane self params).geometry.vertex_data_
          = self.geometry.vertex_data_ ++ block
      ∧ block.length = 8 * ((params.grid_x + 1) * (params.grid_y + 1))
      ∧ (∀ iy ix, iy ≤ params.grid_y → ix ≤ params.grid_x →
          uvAt block (ix + (params.grid_x + 1) * iy)
              = ((ix : ℚ) / (params.grid_x : ℚ), 1 - (iy : ℚ) / (params.grid_y : ℚ))
            ∧ 0 ≤ (uvAt block (ix + (params.grid_x + 1) * iy)).1
            ∧ (uvAt block (ix + (params.grid_x + 1) * iy)).1 ≤ 1
            ∧ 0 ≤ (uvAt block (ix + (params.grid_x + 1) * iy)).2
            ∧ (uvAt block (ix + (params.grid_x + 1) * iy)).2 ≤ 1)
      ∧ uvAt block 0 = (0, 1)
      ∧ uvAt block ((params.grid_x + 1) * (params.grid_y + 1) - 1) = (1, 0)
      ∧ (∀ iy ix ix2, iy ≤ params.grid_y → ix ≤ ix2 → ix2 ≤ params.grid_x →
          (uvAt block (ix + (params.grid_x + 1) * iy)).1
            ≤ (uvAt block (ix2 + (params.grid_x + 1) * iy)).1)
      ∧ (∀ iy iy2 ix, ix ≤ params.grid_x → iy ≤ iy2 → iy2 ≤ params.grid_y →
          (uvAt block (ix + (params.grid_x + 1) * iy2)).2
            ≤ (uvAt block (ix + (params.grid_x + 1) * iy)).2) := by
  have hx0 : (0 : ℚ) < (params.grid_x : ℚ) := by exact_mod_cast hgx
  have hy0 : (0 : ℚ) < (params.grid_y : ℚ) := by exact_mod_cast hgy
  have huv : ∀ iy ix, iy ≤ params.grid_y → ix ≤ params.grid_x →
      uvAt (planeVertices params) (ix + (params.grid_x + 1) * iy)
        = ((ix : ℚ) / (params.grid_x : ℚ), 1 - (iy : ℚ) / (params.grid_y : ℚ)) :=
    fun iy ix hiy hix => (block_vertex params iy ix hiy hix).2.2
  refine ⟨planeVertices params, BuildPlane_vertex_data self params, ?_, ?_, ?_, ?_, ?_, ?_⟩
  · rw [planeVertices_length, planeVertexCount]
  · intro iy ix hiy hix
    obtain ⟨hu0, hu1⟩ := lattice_fraction params.grid_x ix hgx hix
    obtain ⟨hv0, hv1⟩ := lattice_fraction params.grid_y iy hgy hiy
    rw [huv iy ix hiy hix]
    refine ⟨rfl, hu0, hu1, ?_, ?_⟩
    · show 0 ≤ 1 - (iy : ℚ) / (params.grid_y : ℚ)
      linarith
    · show 1 - (iy : ℚ) / (params.grid_y : ℚ) ≤ 1
      linarith
  · have h := huv 0 0 (Nat.zero_le _) (Nat.zero_le _)
    simpa using h
  · have h := huv params.grid_y params.grid_x le_rfl le_rfl
    have hidx : params.grid_x + (params.grid_x + 1) * params.grid_y
        = (params.grid_x + 1) * (params.grid_y + 1) - 1 := by
      rw [Nat.mul_succ]; omega
    rw [hidx] at h
    rw [h, div_self hx0.ne', div_self hy0.ne']
    norm_num
  · intro iy ix ix2 hiy h12 h2
    rw [huv iy ix hiy (le_trans h12 h2), huv iy ix2 hiy h2]
    show (ix : ℚ) / (params.grid_x : ℚ) ≤ (ix2 : ℚ) / (params.grid_x : ℚ)
    exact div_le_div_of_nonneg_right (by exact_mod_cast h12) hx0.le
  · intro iy iy2 ix hix h12 h2
    rw [huv iy2 ix h2 hix, huv iy ix (le_trans h12 h2) hix]
    show 1 - (iy2 : ℚ) / (params.grid_y : ℚ) ≤ 1 - (iy : ℚ) / (params.grid_y : ℚ)
    have : (iy : ℚ) / (params.grid_y : ℚ) ≤ (iy2 : ℚ) / (params.grid_y : ℚ) :=
      div_le_div_of_nonneg_right (by exact_mod_cast h12) hy0.le
    linarith

/-! ## Positions -/

/-- C7: in exact arithmetic, the vertex of a `BuildPlane` call at lattice point
`(ix, iy)` has `u`-coordinate `udir * (ix*width/grid_x - width/2)`,
`v`-coordinate `vdir * (iy*height/grid_y - height/2)` and `w`-coordinate
`depth/2`, the axis letters `(u, v, w)` of the call naming the three axes
`x, y, z` in some order, as they do in each of the six calls of the
constructor; and in a box of positive extents `(W, H, D)` with segment counts
`≥ 1` every position lies in `[-W/2, W/2] x [-H/2, H/2] x [-D/2, D/2]`, its
coordinate along the normal's axis is plus or minus half that extent, its dot
product with the stored normal is half the extent along the normal's axis and
positive, and all eight corners occur as positions. -/
theorem buildPlane_positions (self : BoxGeometry) (params : PlaneParameters)
    (hperm : AxesPermuted params) (box : Parameters) (hw : 0 < box.width)
    (hh : 0 < box.height) (hd : 0 < box.depth) (hsx : 1 ≤ box.width_segments)
    (hsy : 1 ≤ box.height_segments) (hsz : 1 ≤ box.depth_segments) :
    (∀ p ∈ planeCalls box, AxesPermuted p)
    ∧ (∃ block, (BuildPlane self params).geometry.vertex_data_
          = self.geometry.vertex_data_ ++ block
      ∧ block.length = 8 * ((params.grid_x + 1) * (params.grid_y + 1))
      ∧ ∀ iy ix, iy ≤ params.grid_y → ix ≤ params.grid_x →
          component (positionAt block (ix + (params.grid_x + 1) * iy)) params.u
              = (params.udir : ℚ)
                * ((ix : ℚ) * params.width / (params.grid_x : ℚ) - params.width / 2)
            ∧ component (positionAt block (ix + (params.grid_x + 1) * iy)) params.v
              = (params.vdir : ℚ)
                * ((iy : ℚ) * params.height / (params.grid_y : ℚ) - params.height / 2)
            ∧ component (positionAt block (ix + (params.grid_x + 1) * iy)) params.w
              = params.depth / 2)
    ∧ ∃ g, BoxGeometry.new box = some g
      ∧ (∀ i, i < g.vertex_counter_ →
          -(box.width / 2) ≤ (positionAt g.geometry.vertex_data_ i).x
            ∧ (positionAt g.geometry.vertex_data_ i).x ≤ box.width / 2
            ∧ -(box.height / 2) ≤ (positionAt g.geometry.vertex_data_ i).y
            ∧ (positionAt g.geometry.vertex_data_ i).y ≤ box.height / 2
            ∧ -(box.depth / 2) ≤ (positionAt g.geometry.vertex_data_ i).z
            ∧ (positionAt g.geometry.vertex_data_ i).z ≤ box.depth / 2
            ∧ ((normalAt g.geometry.vertex_data_ i = ⟨1, 0, 0⟩
                  ∧ (positionAt g.geometry.vertex_data_ i).x = box.width / 2
                  ∧ Vector3.dot (positionAt g.geometry.vertex_data_ i)
                      (normalAt g.geometry.vertex_data_ i) = box.width / 2)
              ∨ (normalAt g.geometry.vertex_data_ i = ⟨-1, 0, 0⟩
                  ∧ (positionAt g.geometry.vertex_data_ i).x = -(box.width / 2)
                  ∧ Vector3.dot (positionAt g.geometry.vertex_data_ i)
                      (normalAt g.geometry.vertex_data_ i) = box.width / 2)
              ∨ (normalAt g.geometry.vertex_data_ i = ⟨0, 1, 0⟩
                  ∧ (positionAt g.geometry.vertex_data_ i).y = box.height / 2
                  ∧ Vector3.dot (positionAt g.geometry.vertex_data_ i)
                      (normalAt g.geometry.vertex_data_ i) = box.height / 2)
              ∨ (normalAt g.geometry.vertex_data_ i = ⟨0, -1, 0⟩
                  ∧ (positionAt g.geometry.vertex_data_ i).y = -(box.height / 2)
                  ∧ Vector3.dot (positionAt g.geometry.vertex_data_ i)
                      (normalAt g.geometry.vertex_data_ i) = box.height / 2)
              ∨ (normalAt g.geometry.vertex_data_ i = ⟨0, 0, 1⟩
                  ∧ (positionAt g.geometry.vertex_data_ i).z = box.depth / 2
                  ∧ Vector3.dot (positionAt g.geometry.vertex_data_ i)
                      (normalAt g.geometry.vertex_data_ i) = box.depth / 2)
              ∨ (normalAt g.geometry.vertex_data_ i = ⟨0, 0, -1⟩
                  ∧ (positionAt g.geometry.vertex_data_ i).z = -(box.depth / 2)
                  ∧ Vector3.dot (positionAt g.geometry.vertex_data_ i)
                      (normalAt g.geometry.vertex_data_ i) = box.depth / 2))
            ∧ 0 < Vector3.dot (positionAt g.geometry.vertex_data_ i)
                (normalAt g.geometry.vertex_data_ i))
      ∧ ∀ a b c : ℚ, (a = 1 ∨ a = -1) → (b = 1 ∨ b = -1) → (c = 1 ∨ c = -1) →
          ∃ i, i < g.vertex_counter_
            ∧ positionAt g.geometry.vertex_data_ i
                = ⟨a * (box.width / 2), b * (box.height / 2), c * (box.depth / 2)⟩ := by
  refine ⟨planeCalls_permuted box,
    ⟨planeVertices params, BuildPlane_vertex_data self params, ?_, ?_⟩,
    construct box, new_eq_some box hw hh hd hsx hsy hsz, ?_, ?_⟩
  · rw [planeVertices_length, planeVertexCount]
  · intro iy ix hiy hix
    obtain ⟨hu, hv, hw2, huv, huw, hvw⟩ := hperm
    rw [(block_vertex params iy ix hiy hix).1]
    obtain ⟨c1, c2, c3⟩ := component_SetComponent_permuted params.u params.v params.w hu hv hw2
      huv huw hvw Vector3.zero
      (((ix : ℚ) * segment_w params - width_half params) * (params.udir : ℚ))
      (((iy : ℚ) * segment_h params - height_half params) * (params.vdir : ℚ))
      (depth_half params)
    unfold planePosition
    rw [c1, c2, c3]
    simp only [segment_w, segment_h, width_half, height_half, depth_half]
    refine ⟨by ring, by ring, trivial⟩
  · intro i hi
    rw [construct_counter_eq] at hi
    obtain ⟨ps, p, qs, iy, ix, hc, hiy, hix, rfl⟩ := vertex_decompose (planeCalls box) i hi
    have hp : p ∈ planeCalls box := mem_planeCalls_of_eq box ps qs p hc
    obtain ⟨hpos, hnor, -⟩ := face_vertex ps qs p iy ix hiy hix
    rw [construct_vertex_data_eq, hc, hpos, hnor]
    obtain ⟨b1, b2, b3, b4, b5, b6, hside⟩ :=
      plane_vertex_facts box hw hh hd hsx hsy hsz p hp iy ix hiy hix
    exact ⟨b1, b2, b3, b4, b5, b6, hside, plane_dot_pos box hw hh hd p hp iy ix⟩
  · intro a b c ha hb hc
    rw [construct_counter_eq, construct_vertex_data_eq]
    exact box_corners box hsy hsz a b c ha hb hc

/-- Witness of C7: the sample plane appended to the empty object, and the
sample box. -/
theorem buildPlane_positions_witness :
    (∃ block, (BuildPlane BoxGeometry.init samplePlane).geometry.vertex_data_
          = BoxGeometry.init.geometry.vertex_data_ ++ block
      ∧ block.length = 8 * ((samplePlane.grid_x + 1) * (samplePlane.grid_y + 1))
      ∧ ∀ iy ix, iy ≤ samplePlane.grid_y → ix ≤ samplePlane.grid_x →
          component (positionAt block (ix + (samplePlane.grid_x + 1) * iy)) samplePlane.u
              = (samplePlane.udir : ℚ)
                * ((ix : ℚ) * samplePlane.width / (samplePlane.grid_x : ℚ) - samplePlane.width / 2)
            ∧ component (positionAt block (ix + (samplePlane.grid_x + 1) * iy)) samplePlane.v
              = (samplePlane.vdir : ℚ)
                * ((iy : ℚ) * samplePlane.height / (samplePlane.grid_y : ℚ) - samplePlane.height / 2)
            ∧ component (positionAt block (ix + (samplePlane.grid_x + 1) * iy)) samplePlane.w
              = samplePlane.depth / 2)
    ∧ ∃ g, BoxGeometry.new sampleBox = some g
      ∧ (∀ i, i < g.vertex_counter_ →
          -(sampleBox.width / 2) ≤ (positionAt g.geometry.vertex_data_ i).x
            ∧ (positionAt g.geometry.vertex_data_ i).x ≤ sampleBox.width / 2
            ∧ -(sampleBox.height / 2) ≤ (positionAt g.geometry.vertex_data_ i).y
            ∧ (positionAt g.geometry.vertex_data_ i).y ≤ sampleBox.height / 2
            ∧ -(sampleBox.depth / 2) ≤ (positionAt g.geometry.vertex_data_ i).z
            ∧ (positionAt g.geometry.vertex_data_ i).z ≤ sampleBox.depth / 2
            ∧ ((normalAt g.geometry.vertex_data_ i = ⟨1, 0, 0⟩
                  ∧ (positionAt g.geometry.vertex_data_ i).x = sampleBox.width / 2
                  ∧ Vector3.dot (positionAt g.geometry.vertex_data_ i)
                      (normalAt g.geometry.vertex_data_ i) = sampleBox.width / 2)
              ∨ (normalAt g.geometry.vertex_data_ i = ⟨-1, 0, 0⟩
                  ∧ (positionAt g.geometry.vertex_data_ i).x = -(sampleBox.width / 2)
                  ∧ Vector3.dot (positionAt g.geometry.vertex_data_ i)
                      (normalAt g.geometry.vertex_data_ i) = sampleBox.width / 2)
              ∨ (normalAt g.geometry.vertex_data_ i = ⟨0, 1, 0⟩
                  ∧ (positionAt g.geometry.vertex_data_ i).y = sampleBox.height / 2
                  ∧ Vector3.dot (positionAt g.geometry.vertex_data_ i)
                      (normalAt g.geometry.vertex_data_ i) = sampleBox.height / 2)
              ∨ (normalAt g.geometry.vertex_data_ i = ⟨0, -1, 0⟩
                  ∧ (positionAt g.geometry.vertex_data_ i).y = -(sampleBox.height / 2)
                  ∧ Vector3.dot (positionAt g.geometry.vertex_data_ i)
                      (normalAt g.geometry.vertex_data_ i) = sampleBox.height / 2)
              ∨ (normalAt g.geometry.vertex_data_ i = ⟨0, 0, 1⟩
                  ∧ (positionAt g.geometry.vertex_data_ i).z = sampleBox.depth / 2
                  ∧ Vector3.dot (positionAt g.geometry.vertex_data_ i)
                      (normalAt g.geometry.vertex_data_ i) = sampleBox.depth / 2)
              ∨ (normalAt g.geometry.vertex_data_ i = ⟨0, 0, -1⟩
                  ∧ (positionAt g.geometry.vertex_data_ i).z = -(sampleBox.depth / 2)
                  ∧ Vector3.dot (positionAt g.geometry.vertex_data_ i)
                      (normalAt g.geometry.vertex_data_ i) = sampleBox.depth / 2))
            ∧ 0 < Vector3.dot (positionAt g.geometry.vertex_data_ i)
                (normalAt g.geometry.vertex_data_ i))
      ∧ ∀ a b c : ℚ, (a = 1 ∨ a = -1) → (b = 1 ∨ b = -1) → (c = 1 ∨ c = -1) →
          ∃ i, i < g.vertex_counter_
            ∧ positionAt g.geometry.vertex_data_ i
                = ⟨a * (sampleBox.width / 2), b * (sampleBox.height / 2), c * (sampleBox.depth / 2)⟩ :=
  (buildPlane_positions BoxGeometry.init samplePlane
    (by simp [AxesPermuted, IsAxis, samplePlane]) sampleBox
    (by norm_num [sampleBox]) (by norm_num [sampleBox]) (by norm_num [sampleBox])
    (by norm_num [sampleBox]) (by norm_num [sampleBox]) (by norm_num [sampleBox])).2

/-! ## Normals -/

/-- C6: a `BuildPlane` call whose axis letters `(u, v, w)` are a permutation of
`x, y, z` gives every vertex of the plane the same normal, `0` on the `u` and
`v` axes and, on the `w` axis, `+1` if the plane's depth is positive and `-1`
otherwise; hence in a box of positive extents every stored normal is one of
the six axis-aligned unit vectors, all vertices of a face share the normal of
their plane, and each of the six directions is the normal of exactly one of
the six faces. -/
theorem buildPlane_normals (self : BoxGeometry) (params : PlaneParameters)
    (hperm : AxesPermuted params) (box : Parameters) (hw : 0 < box.width)
    (hh : 0 < box.height) (hd : 0 < box.depth) (hsx : 1 ≤ box.width_segments)
    (hsy : 1 ≤ box.height_segments) (hsz : 1 ≤ box.depth_segments) :
    (∃ block, (BuildPlane self params).geometry.vertex_data_
          = self.geometry.vertex_data_ ++ block
      ∧ block.length = 8 * ((params.grid_x + 1) * (params.grid_y + 1))
      ∧ ∀ j, j < (params.grid_x + 1) * (params.grid_y + 1) →
          component (normalAt block j) params.u = 0
            ∧ component (normalAt block j) params.v = 0
            ∧ component (normalAt block j) params.w = (if params.depth > 0 then 1 else -1))
    ∧ ∃ g, BoxGeometry.new box = some g
      ∧ (∀ i, i < g.vertex_counter_ → normalAt g.geometry.vertex_data_ i ∈ faceDirections)
      ∧ (∀ ps p qs, planeCalls box = ps ++ p :: qs → ∀ j, j < planeVertexCount p →
          normalAt g.geometry.vertex_data_ (vertexTotal ps + j) = planeNormal p)
      ∧ (planeCalls box).map planeNormal
          = [⟨1, 0, 0⟩, ⟨-1, 0, 0⟩, ⟨0, 1, 0⟩, ⟨0, -1, 0⟩, ⟨0, 0, 1⟩, ⟨0, 0, -1⟩]
      ∧ ∀ d, d ∈ faceDirections → ((planeCalls box).map planeNormal).count d = 1 := by
  have hmap := planeNormal_calls box hw hh hd
  refine ⟨⟨planeVertices params, BuildPlane_vertex_data self params, ?_, ?_⟩,
    construct box, new_eq_some box hw hh hd hsx hsy hsz, ?_, ?_, hmap, ?_⟩
  · rw [planeVertices_length, planeVertexCount]
  · intro j hj
    obtain ⟨iy, ix, hiy, hix, rfl⟩ := lattice_of_lt params j hj
    obtain ⟨hu, hv, hw2, huv, huw, hvw⟩ := hperm
    rw [(block_vertex params iy ix hiy hix).2.1]
    exact component_SetComponent_permuted params.u params.v params.w hu hv hw2 huv huw hvw
      Vector3.zero 0 0 (if params.depth > 0 then 1 else -1)
  · intro i hi
    rw [construct_counter_eq] at hi
    obtain ⟨ps, p, qs, iy, ix, hc, hiy, hix, rfl⟩ := vertex_decompose (planeCalls box) i hi
    have hp : p ∈ planeCalls box := mem_planeCalls_of_eq box ps qs p hc
    rw [construct_vertex_data_eq, hc, (face_vertex ps qs p iy ix hiy hix).2.1, ← hmap]
    exact List.mem_map_of_mem planeNormal hp
  · intro ps p qs hc j hj
    rw [construct_vertex_data_eq, hc]
    exact face_normal_at ps qs p j hj
  · intro d hd2
    rw [hmap]
    simp only [faceDirections, List.mem_cons, List.mem_singleton, List.not_mem_nil,
      or_false] at hd2
    rcases hd2 with rfl | rfl | rfl | rfl | rfl | rfl <;>
      simp [faceDirections, List.count_cons] <;> norm_num

/-- Witness of C6: the sample plane appended to the empty object, and the
sample box. -/
theorem buildPlane_normals_witness :
    (∃ block, (BuildPlane BoxGeometry.init samplePlane).geometry.vertex_data_
          = BoxGeometry.init.geometry.vertex_data_ ++ block
      ∧ block.length = 8 * ((samplePlane.grid_x + 1) * (samplePlane.grid_y + 1))
      ∧ ∀ j, j < (samplePlane.grid_x + 1) * (samplePlane.grid_y + 1) →
          component (normalAt block j) samplePlane.u = 0
            ∧ component (normalAt block j) samplePlane.v = 0
            ∧ component (normalAt block j) samplePlane.w = (if samplePlane.depth > 0 then 1 else -1))
    ∧ ∃ g, BoxGeometry.new sampleBox = some g
      ∧ (∀ i, i < g.vertex_counter_ → normalAt g.geometry.vertex_data_ i ∈ faceDirections)
      ∧ (∀ ps p qs, planeCalls sampleBox = ps ++ p :: qs → ∀ j, j < planeVertexCount p →
          normalAt g.geometry.vertex_data_ (vertexTotal ps + j) = planeNormal p)
      ∧ (planeCalls sampleBox).map planeNormal
          = [⟨1, 0, 0⟩, ⟨-1, 0, 0⟩, ⟨0, 1, 0⟩, ⟨0, -1, 0⟩, ⟨0, 0, 1⟩, ⟨0, 0, -1⟩]
      ∧ ∀ d, d ∈ faceDirections → ((planeCalls sampleBox).map planeNormal).count d = 1 :=
  buildPlane_normals BoxGeometry.init samplePlane
    (by simp [AxesPermuted, IsAxis, samplePlane]) sampleBox
    (by norm_num [sampleBox]) (by norm_num [sampleBox]) (by norm_num [sampleBox])
    (by norm_num [sampleBox]) (by norm_num [sampleBox]) (by norm_num [sampleBox])

/-! ## Order of the faces -/

/-- C5, as stated, fails: in the default unit cube the first vertex, emitted by
the first `BuildPlane` call, carries the normal `(1, 0, 0)` of the right face,
not the normal `(0, 0, 1)` of the front face. -/
theorem box_face_order_counterexample :
    normalAt (BuildPlane ⟨Geometry.empty, 0, "box geometry"⟩
        (plane1 Parameters.default)).geometry.vertex_data_ 0 = ⟨1, 0, 0⟩
      ∧ ∃ g, BoxGeometry.new Parameters.default = some g
        ∧ normalAt g.geometry.vertex_data_ 0 = ⟨1, 0, 0⟩
        ∧ normalAt g.geometry.vertex_data_ 0 ≠ ⟨0, 0, 1⟩ := by
  have hw : (0 : ℚ) < Parameters.default.width := by norm_num [Parameters.default]
  have hh : (0 : ℚ) < Parameters.default.height := by norm_num [Parameters.default]
  have hd : (0 : ℚ) < Parameters.default.depth := by norm_num [Parameters.default]
  have hn := (planeNormal_each Parameters.default hw hh hd).1
  have h1 := (block_vertex (plane1 Parameters.default) 0 0 (Nat.zero_le _) (Nat.zero_le _)).2.1
  simp only [Nat.mul_zero, Nat.add_zero] at h1
  have h2 := face_normal_at [] [plane2 Parameters.default, plane3 Parameters.default,
    plane4 Parameters.default, plane5 Parameters.default, plane6 Parameters.default]
    (plane1 Parameters.default) 0 (by simp [planeVertexCount])
  refine ⟨?_, construct Parameters.default, new_eq_some _ hw hh hd (by simp [Parameters.default])
    (by simp [Parameters.default]) (by simp [Parameters.default]), ?_, ?_⟩
  · rw [BuildPlane_vertex_data]
    simp only [Geometry.empty, List.nil_append]
    rw [h1, hn]
  · rw [construct_vertex_data_eq]
    exact h2.trans hn
  · rw [construct_vertex_data_eq]
    have h3 : normalAt (allVertices (planeCalls Parameters.default)) 0 = ⟨1, 0, 0⟩ :=
      h2.trans hn
    rw [h3]
    simp

/-- C5, amended: a box built from positive extents and segment counts `≥ 1`
emits its six faces in the order right, left, top, bottom, front, back: every
`BuildPlane` call appends its plane's vertices and indices, the vertex data
and index data of the box are the six blocks in call order, and the vertices
of the 1st to 6th block carry the normals `(1,0,0)`, `(-1,0,0)`, `(0,1,0)`,
`(0,-1,0)`, `(0,0,1)`, `(0,0,-1)`. -/
theorem box_face_order (params : Parameters) (hw : 0 < params.width)
    (hh : 0 < params.height) (hd : 0 < params.depth) (hsx : 1 ≤ params.width_segments)
    (hsy : 1 ≤ params.height_segments) (hsz : 1 ≤ params.depth_segments) :
    (∀ self p, (BuildPlane self p).geometry.vertex_data_
          = self.geometry.vertex_data_ ++ planeVertices p
        ∧ (BuildPlane self p).geometry.index_data_
          = self.geometry.index_data_ ++ planeIndices p self.vertex_counter_
        ∧ (BuildPlane self p).vertex_counter_ = self.vertex_counter_ + planeVertexCount p)
    ∧ ∃ g, BoxGeometry.new params = some g
      ∧ g.geometry.vertex_data_
          = planeVertices (plane1 params) ++ planeVertices (plane2 params)
            ++ planeVertices (plane3 params) ++ planeVertices (plane4 params)
            ++ planeVertices (plane5 params) ++ planeVertices (plane6 params)
      ∧ g.geometry.index_data_
          = planeIndices (plane1 params) 0
            ++ planeIndices (plane2 params) (planeVertexCount (plane1 params))
            ++ planeIndices (plane3 params)
                (planeVertexCount (plane1 params) + planeVertexCount (plane2 params))
            ++ planeIndices (plane4 params)
                (planeVertexCount (plane1 params) + planeVertexCount (plane2 params)
                  + planeVertexCount (plane3 params))
            ++ planeIndices (plane5 params)
                (planeVertexCount (plane1 params) + planeVertexCount (plane2 params)
                  + planeVertexCount (plane3 params) + planeVertexCount (plane4 params))
            ++ planeIndices (plane6 params)
                (planeVertexCount (plane1 params) + planeVertexCount (plane2 params)
                  + planeVertexCount (plane3 params) + planeVertexCount (plane4 params)
                  + planeVertexCount (plane5 params))
      ∧ (∀ j, j < planeVertexCount (plane1 params) →
          normalAt g.geometry.vertex_data_ j = ⟨1, 0, 0⟩)
      ∧ (∀ j, j < planeVertexCount (plane2 params) →
          normalAt g.geometry.vertex_data_ (planeVertexCount (plane1 params) + j)
            = ⟨-1, 0, 0⟩)
      ∧ (∀ j, j < planeVertexCount (plane3 params) →
          normalAt g.geometry.vertex_data_
              (planeVertexCount (plane1 params) + planeVertexCount (plane2 params) + j)
            = ⟨0, 1, 0⟩)
      ∧ (∀ j, j < planeVertexCount (plane4 params) →
          normalAt g.geometry.vertex_data_
              (planeVertexCount (plane1 params) + planeVertexCount (plane2 params)
                + planeVertexCount (plane3 params) + j)
            = ⟨0, -1, 0⟩)
      ∧ (∀ j, j < planeVertexCount (plane5 params) →
          normalAt g.geometry.vertex_data_
              (planeVertexCount (plane1 params) + planeVertexCount (plane2 params)
                + planeVertexCount (plane3 params) + planeVertexCount (plane4 params) + j)
            = ⟨0, 0, 1⟩)
      ∧ (∀ j, j < planeVertexCount (plane6 params) →
          normalAt g.geometry.vertex_data_
              (planeVertexCount (plane1 params) + planeVertexCount (plane2 params)
                + planeVertexCount (plane3 params) + planeVertexCount (plane4 params)
                + planeVertexCount (plane5 params) + j)
            = ⟨0, 0, -1⟩) := by
  obtain ⟨n1, n2, n3, n4, n5, n6⟩ := planeNormal_each params hw hh hd
  refine ⟨fun self p => ⟨BuildPlane_vertex_data self p, BuildPlane_index_data self p,
      BuildPlane_counter self p⟩,
    construct params, new_eq_some params hw hh hd hsx hsy hsz, ?_, ?_, ?_, ?_, ?_, ?_, ?_, ?_⟩
  · rw [construct_vertex_data_eq]
    simp [planeCalls, allVertices, List.append_assoc]
  · rw [construct_index_data_eq]
    simp [planeCalls, allIndices, List.append_assoc, Nat.add_assoc]
  · intro j hj
    rw [construct_vertex_data_eq, ← n1]
    have h := face_normal_at [] [plane2 params, plane3 params, plane4 params, plane5 params,
      plane6 params] (plane1 params) j hj
    simpa [vertexTotal] using h
  · intro j hj
    rw [construct_vertex_data_eq, ← n2]
    have h := face_normal_at [plane1 params] [plane3 params, plane4 params, plane5 params,
      plane6 params] (plane2 params) j hj
    simpa [vertexTotal] using h
  · intro j hj
    rw [construct_vertex_data_eq, ← n3]
    have h := face_normal_at [plane1 params, plane2 params] [plane4 params, plane5 params,
      plane6 params] (plane3 params) j hj
    simpa [vertexTotal, Nat.add_assoc] using h
  · intro j hj
    rw [construct_vertex_data_eq, ← n4]
    have h := face_normal_at [plane1 params, plane2 params, plane3 params] [plane5 params,
      plane6 params] (plane4 params) j hj
    simpa [vertexTotal, Nat.add_assoc] using h
  · intro j hj
    rw [construct_vertex_data_eq, ← n5]
    have h := face_normal_at [plane1 params, plane2 params, plane3 params, plane4 params]
      [plane6 params] (plane5 params) j hj
    simpa [vertexTotal, Nat.add_assoc] using h
  · intro j hj
    rw [construct_vertex_data_eq, ← n6]
    have h := face_normal_at [plane1 params, plane2 params, plane3 params, plane4 params,
      plane5 params] [] (plane6 params) j hj
    simpa [vertexTotal, Nat.add_assoc] using h

/-- Witness of the amended C5: in the sample box the vertex data starts with
the block of the first plane and its first vertex carries the normal `(1, 0, 0)`. -/
theorem box_face_order_witness :
    ∃ g, BoxGeometry.new sampleBox = some g
      ∧ normalAt g.geometry.vertex_data_ 0 = ⟨1, 0, 0⟩
      ∧ normalAt g.geometry.vertex_data_ (planeVertexCount (plane1 sampleBox) + 0)
          = ⟨-1, 0, 0⟩ := by
  obtain ⟨g, hg, -, -, h1, h2, -⟩ := (box_face_order sampleBox (by norm_num [sampleBox])
    (by norm_num [sampleBox]) (by norm_num [sampleBox]) (by norm_num [sampleBox])
    (by norm_num [sampleBox]) (by norm_num [sampleBox])).2
  exact ⟨g, hg, h1 0 (by simp [planeVertexCount]), h2 0 (by simp [planeVertexCount])⟩

/-- Witness of C8: the sample plane, appended to the empty object, has texture
coordinates `(0, 1)` at its first and `(1, 0)` at its last vertex. -/
theorem buildPlane_uv_witness :
    ∃ block, (BuildPlane BoxGeometry.init samplePlane).geometry.vertex_data_
          = BoxGeometry.init.geometry.vertex_data_ ++ block
      ∧ block.length = 8 * ((samplePlane.grid_x + 1) * (samplePlane.grid_y + 1))
      ∧ uvAt block 0 = (0, 1)
      ∧ uvAt block ((samplePlane.grid_x + 1) * (samplePlane.grid_y + 1) - 1) = (1, 0) := by
  obtain ⟨block, h1, h2, -, h3, h4, -⟩ := buildPlane_uv BoxGeometry.init samplePlane
    (by simp [samplePlane]) (by simp [samplePlane])
  exact ⟨block, h1, h2, h3, h4⟩

/-! ## Vectors and normalisation -/

theorem Vector3.sub_zero_right {K : Type} [LinearOrderedField K]
    (v : Vector3 K) : Vector3.sub v Vector3.zero = v := by
  cases v; simp [Vector3.sub, Vector3.zero]

theorem Vector3.sub_self_eq_zero {K : Type} [LinearOrderedField K]
    (v : Vector3 K) : Vector3.sub v v = Vector3.zero := by
  simp [Vector3.sub, Vector3.zero]

theorem Vector3.dot_self_nonneg {K : Type} [LinearOrderedField K]
    (v : Vector3 K) : 0 ≤ Vector3.dot v v := by
  unfold Vector3.dot
  nlinarith [mul_self_nonneg v.x, mul_self_nonneg v.y, mul_self_nonneg v.z]

theorem Vector3.dot_self_pos {K : Type} [LinearOrderedField K]
    (v : Vector3 K) (hv : v ≠ Vector3.zero) : 0 < Vector3.dot v v := by
  rcases lt_or_eq_of_le (Vector3.dot_self_nonneg v) with h | h
  · exact h
  · exfalso
    apply hv
    unfold Vector3.dot at h
    have hx : v.x = 0 := by
      nlinarith [mul_self_nonneg v.x, mul_self_nonneg v.y, mul_self_nonneg v.z]
    have hy : v.y = 0 := by
      nlinarith [mul_self_nonneg v.x, mul_self_nonneg v.y, mul_self_nonneg v.z]
    have hz : v.z = 0 := by
      nlinarith [mul_self_nonneg v.x, mul_self_nonneg v.y, mul_self_nonneg v.z]
    cases v
    simp only [Vector3.zero, Vector3.mk.injEq]
    exact ⟨hx, hy, hz⟩

theorem Vector3.dot_scale {K : Type} [LinearOrderedField K] (t : K) (v : Vector3 K) :
    Vector3.dot (Vector3.scale t v) (Vector3.scale t v) = t * t * Vector3.dot v v := by
  simp only [Vector3.dot, Vector3.scale]; ring

theorem Normalize_zero {K : Type} [LinearOrderedField K] (fp : CMath K) (h0 : fp.sqrt 0 = 0) :
    Normalize fp Vector3.zero = Vector3.zero := by
  have hl : Vector3.Length fp Vector3.zero = 0 := by
    simp [Vector3.Length, Vector3.dot, Vector3.zero, h0]
  simp [Normalize, hl]

/-- A non-zero vector whose length the square root gives exactly is
normalised to a vector of squared length one. -/
theorem Normalize_unit {K : Type} [LinearOrderedField K]
    (fp : CMath K) (v : Vector3 K) (hv : v ≠ Vector3.zero)
    (hexact : fp.sqrt (Vector3.dot v v) * fp.sqrt (Vector3.dot v v) = Vector3.dot v v) :
    Vector3.dot (Normalize fp v) (Normalize fp v) = 1 := by
  have hpos := Vector3.dot_self_pos v hv
  have hl : Vector3.Length fp v ≠ 0 := by
    intro h
    unfold Vector3.Length at h
    rw [h] at hexact
    linarith
  have hL : Vector3.Length fp v * Vector3.Length fp v = Vector3.dot v v := hexact
  unfold Normalize
  rw [if_neg hl, Vector3.dot_scale, ← hL]
  field_simp

theorem SpotLight.Direction_eq {K : Type} [LinearOrderedField K]
    (fp : CMath K) (self : SpotLight K) :
    self.Direction fp = Normalize fp self.directionArgument := by
  unfold SpotLight.Direction SpotLight.directionArgument
  cases self.target <;> rfl

/-! ## Direction of a spot light -/

theorem CMath.sqrt_one {K : Type} [LinearOrderedField K] (fp : CMath K) (hsqrt : fp.ExactSqrt) :
    fp.sqrt 1 = 1 := by
  obtain ⟨h0, h1⟩ := hsqrt 1 zero_le_one
  nlinarith

/-- The real square root is exact. -/
theorem exactSqrt_real :
    (⟨Real.sqrt, Real.cos, Real.sin, Real.tan, 2 * Real.pi⟩ : CMath ℝ).ExactSqrt :=
  fun x hx => ⟨Real.sqrt_nonneg x, Real.mul_self_sqrt hx⟩

/-- C11: `Direction()` returns `Normalize(own world position - target world
position)` when a target is present and `Normalize(own world position)` when
it is absent; without a target the result is the one for a target at the world
origin; and with the exact square root the result has squared length one, and
length one, whenever the normalised vector is not zero.  The last part also
holds when the square root is only known to be exact at the squared length of
that vector. -/
theorem spotLight_direction {K : Type} [LinearOrderedField K] (fp : CMath K)
    (self : SpotLight K) :
    (∀ target, self.target = some target →
        self.Direction fp
          = Normalize fp (Vector3.sub self.GetWorldPosition target.GetWorldPosition))
      ∧ (self.target = none → self.Direction fp = Normalize fp self.GetWorldPosition)
      ∧ (∀ id, SpotLight.Direction fp { self with target := none }
          = SpotLight.Direction fp { self with target := some ⟨id, Vector3.zero⟩ })
      ∧ (fp.ExactSqrt → self.directionArgument ≠ Vector3.zero →
          Vector3.dot (self.Direction fp) (self.Direction fp) = 1
            ∧ (self.Direction fp).Length fp = 1)
      ∧ (self.directionArgument ≠ Vector3.zero →
          fp.sqrt (Vector3.dot self.directionArgument self.directionArgument)
              * fp.sqrt (Vector3.dot self.directionArgument self.directionArgument)
            = Vector3.dot self.directionArgument self.directionArgument →
          Vector3.dot (self.Direction fp) (self.Direction fp) = 1
            ∧ (fp.sqrt 1 = 1 → (self.Direction fp).Length fp = 1)) := by
  refine ⟨?_, ?_, ?_, ?_, ?_⟩
  · intro target ht
    simp [SpotLight.Direction, ht]
  · intro ht
    simp [SpotLight.Direction, ht]
  · intro id
    simp [SpotLight.Direction, SpotLight.GetWorldPosition, Node.GetWorldPosition,
      Vector3.sub_zero_right]
  · intro hsqrt hne
    have h1 : Vector3.dot (self.Direction fp) (self.Direction fp) = 1 := by
      rw [SpotLight.Direction_eq]
      exact Normalize_unit fp _ hne (hsqrt _ (Vector3.dot_self_nonneg _)).2
    refine ⟨h1, ?_⟩
    unfold Vector3.Length
    rw [h1]
    exact CMath.sqrt_one fp hsqrt
  · intro hne hexact
    have h1 : Vector3.dot (self.Direction fp) (self.Direction fp) = 1 := by
      rw [SpotLight.Direction_eq]
      exact Normalize_unit fp _ hne hexact
    refine ⟨h1, fun hs => ?_⟩
    unfold Vector3.Length
    rw [h1, hs]

/-- Witness of C11: over the reals, with the real square root, the light at
`(1, 1, 0)` without target has a direction of squared length one, although
its distance from the origin is not rational; and over the rationals the
sample light at `(3, 4, 0)` has a direction of squared length one. -/
theorem spotLight_direction_witness :
    (∃ fp : CMath ℝ, fp.ExactSqrt
        ∧ (sampleLightAt (⟨1, 1, 0⟩ : Vector3 ℝ)).directionArgument ≠ Vector3.zero
        ∧ Vector3.dot ((sampleLightAt (⟨1, 1, 0⟩ : Vector3 ℝ)).Direction fp)
            ((sampleLightAt (⟨1, 1, 0⟩ : Vector3 ℝ)).Direction fp) = 1
        ∧ ((sampleLightAt (⟨1, 1, 0⟩ : Vector3 ℝ)).Direction fp).Length fp = 1)
      ∧ Vector3.dot (sampleLight.Direction CMath.rational)
          (sampleLight.Direction CMath.rational) = 1 := by
  have hne : (sampleLightAt (⟨1, 1, 0⟩ : Vector3 ℝ)).directionArgument ≠ Vector3.zero := by
    show (⟨1, 1, 0⟩ : Vector3 ℝ) ≠ Vector3.zero
    simp [Vector3.zero]
  have hreal := (spotLight_direction ⟨Real.sqrt, Real.cos, Real.sin, Real.tan, 2 * Real.pi⟩
    (sampleLightAt (⟨1, 1, 0⟩ : Vector3 ℝ))).2.2.2.1 exactSqrt_real hne
  refine ⟨⟨_, exactSqrt_real, hne, hreal.1, hreal.2⟩, ?_⟩
  have harg : sampleLight.directionArgument = ⟨3, 4, 0⟩ := rfl
  refine ((spotLight_direction CMath.rational sampleLight).2.2.2.2 ?_ ?_).1
  · rw [harg]; simp [Vector3.zero]
  · rw [harg]
    have h25 : Vector3.dot (⟨3, 4, 0⟩ : Vector3 ℚ) ⟨3, 4, 0⟩ = (5 : ℚ) * 5 := by
      simp [Vector3.dot]; norm_num
    rw [h25]
    show Rat.sqrt (5 * 5) * Rat.sqrt (5 * 5) = 5 * 5
    rw [Rat.sqrt_eq]
    norm_num

/-- C12: when the square root of zero is zero, `Direction()` of a light whose
target has the light's own world position, and of a light without target at
the world origin, is the zero vector. -/
theorem spotLight_direction_degenerate {K : Type} [LinearOrderedField K]
    (fp : CMath K) (h0 : fp.sqrt 0 = 0) (self : SpotLight K) :
    (∀ target, self.target = some target →
        target.GetWorldPosition = self.GetWorldPosition →
        self.Direction fp = Vector3.zero)
      ∧ (self.target = none → self.GetWorldPosition = Vector3.zero →
        self.Direction fp = Vector3.zero) := by
  constructor
  · intro target ht hpos
    simp only [SpotLight.Direction, ht, hpos, Vector3.sub_self_eq_zero]
    exact Normalize_zero fp h0
  · intro ht hpos
    simp only [SpotLight.Direction, ht, hpos]
    exact Normalize_zero fp h0

/-- Witness of C12: the sample light with a target at its own position. -/
theorem spotLight_direction_degenerate_witness :
    SpotLight.Direction CMath.rational { sampleLight with target := some ⟨5, ⟨3, 4, 0⟩⟩ }
      = Vector3.zero :=
  (spotLight_direction_degenerate CMath.rational (by simp [CMath.rational, Rat.sqrt])
    { sampleLight with target := some ⟨5, ⟨3, 4, 0⟩⟩ }).1 ⟨5, ⟨3, 4, 0⟩⟩ rfl rfl

/-! ## Debug visualisation of a spot light -/

/-- `CreateDebugMesh` always succeeds: it appends the new mesh to the children,
stores it together with the new material and leaves the debug flag alone. -/
theorem CreateDebugMesh_spec {K : Type} [LinearOrderedField K]
    (fp : CMath K) (self : SpotLight K) (fresh : Nat) :
    ∃ s cone material, CreateDebugMesh fp self fresh = some s
      ∧ s.children = self.children ++ [fresh]
      ∧ s.impl_ = ⟨some cone, some material⟩ ∧ cone.id = fresh
      ∧ s.debug_mode_enabled_ = self.debug_mode_enabled_ :=
  ⟨_, _, _, rfl, rfl, rfl, rfl, rfl⟩

theorem RemoveDebugMesh_impl {K : Type}
    (self : SpotLight K) : (RemoveDebugMesh self).impl_ = ⟨none, none⟩ := by
  unfold RemoveDebugMesh
  cases self.impl_.cone <;> rfl

theorem RemoveDebugMesh_children {K : Type} (self : SpotLight K) (cone : Mesh K)
    (hcone : self.impl_.cone = some cone) :
    (RemoveDebugMesh self).children = self.children.erase cone.id := by
  unfold RemoveDebugMesh
  rw [hcone]
  rfl

theorem SetDebugMode_same {K : Type} [LinearOrderedField K]
    (fp : CMath K) (self : SpotLight K) (b : Bool) (fresh : Nat)
    (h : self.debug_mode_enabled_ = b) : self.SetDebugMode fp b fresh = some self := by
  simp [SpotLight.SetDebugMode, h]

/-- Switching debug mode on from off. -/
theorem SetDebugMode_on {K : Type} [LinearOrderedField K]
    (fp : CMath K) (self : SpotLight K) (fresh : Nat)
    (h : self.debug_mode_enabled_ = false) :
    ∃ s cone material, self.SetDebugMode fp true fresh = some s
      ∧ s.children = self.children ++ [fresh]
      ∧ s.impl_ = ⟨some cone, some material⟩ ∧ cone.id = fresh
      ∧ s.debug_mode_enabled_ = true := by
  obtain ⟨s, cone, material, hs, hc, hi, hid, -⟩ := CreateDebugMesh_spec fp self fresh
  refine ⟨{ s with debug_mode_enabled_ := true }, cone, material, ?_, hc, hi, hid, rfl⟩
  simp [SpotLight.SetDebugMode, h, hs]

/-- Switching debug mode off from on. -/
theorem SetDebugMode_off {K : Type} [LinearOrderedField K]
    (fp : CMath K) (self : SpotLight K) (fresh : Nat)
    (h : self.debug_mode_enabled_ = true) :
    self.SetDebugMode fp false fresh
      = some { RemoveDebugMesh self with debug_mode_enabled_ := false } := by
  simp [SpotLight.SetDebugMode, h]

theorem SetDebugMode_total {K : Type} [LinearOrderedField K]
    (fp : CMath K) (self : SpotLight K) (b : Bool) (fresh : Nat) :
    ∃ s, self.SetDebugMode fp b fresh = some s ∧ s.debug_mode_enabled_ = b := by
  by_cases h : self.debug_mode_enabled_ = b
  · exact ⟨self, SetDebugMode_same fp self b fresh h, h⟩
  · cases b with
    | true =>
      have hoff : self.debug_mode_enabled_ = false := by
        cases hflag : self.debug_mode_enabled_ <;> simp_all
      obtain ⟨s, -, -, hs, -, -, -, hb⟩ := SetDebugMode_on fp self fresh hoff
      exact ⟨s, hs, hb⟩
    | false =>
      have hon : self.debug_mode_enabled_ = true := by
        cases hflag : self.debug_mode_enabled_ <;> simp_all
      exact ⟨_, SetDebugMode_off fp self fresh hon, rfl⟩

/-- C13: `SetDebugMode(b)` on a light whose flag already equals `b` returns the
light unchanged; every call succeeds and a second `SetDebugMode(b)` right
after it changes nothing; in particular two `SetDebugMode(true)` calls on a
freshly constructed light leave exactly one child, the debug mesh. -/
theorem setDebugMode_idempotent {K : Type} [LinearOrderedField K]
    (fp : CMath K) (self : SpotLight K) (b : Bool) (fresh1 fresh2 : Nat)
    (params : SpotLight.Parameters K) :
    (self.debug_mode_enabled_ = b → self.SetDebugMode fp b fresh1 = some self)
      ∧ (∃ s, self.SetDebugMode fp b fresh1 = some s ∧ s.debug_mode_enabled_ = b
          ∧ s.SetDebugMode fp b fresh2 = some s)
      ∧ (∃ s cone, (SpotLight.new params).SetDebugMode fp true fresh1 = some s
          ∧ s.SetDebugMode fp true fresh2 = some s
          ∧ s.children = [fresh1] ∧ s.impl_.cone = some cone ∧ cone.id = fresh1
          ∧ s.debugChildCount = 1) := by
  refine ⟨SetDebugMode_same fp self b fresh1, ?_, ?_⟩
  · obtain ⟨s, hs, hb⟩ := SetDebugMode_total fp self b fresh1
    exact ⟨s, hs, hb, SetDebugMode_same fp s b fresh2 hb⟩
  · obtain ⟨s, cone, material, hs, hc, hi, hid, hb⟩ :=
      SetDebugMode_on fp (SpotLight.new params) fresh1 rfl
    have hchildren : s.children = [fresh1] := by
      rw [hc]; rfl
    refine ⟨s, cone, hs, SetDebugMode_same fp s true fresh2 hb, hchildren, ?_, hid, ?_⟩
    · rw [hi]
    · simp [SpotLight.debugChildCount, hi, hchildren, hid]

/-- C14: for a light with debug mode off and children `C`, and mesh identities
that are not among `C`: `SetDebugMode(true)` yields the children `C` followed
by the new debug mesh; the following `SetDebugMode(false)` yields the children
`C` again and null `cone` and `material`; one more `SetDebugMode(true)` yields
`C` followed by exactly one debug mesh. -/
theorem setDebugMode_on_off_on {K : Type} [LinearOrderedField K]
    (fp : CMath K) (self : SpotLight K) (fresh1 fresh2 fresh3 : Nat)
    (hoff : self.debug_mode_enabled_ = false) (h1 : fresh1 ∉ self.children)
    (h3 : fresh3 ∉ self.children) :
    ∃ s1 s2 s3 cone1 material1 cone3 material3,
      self.SetDebugMode fp true fresh1 = some s1
        ∧ s1.children = self.children ++ [fresh1]
        ∧ s1.impl_ = ⟨some cone1, some material1⟩ ∧ cone1.id = fresh1
        ∧ s1.debug_mode_enabled_ = true ∧ s1.debugChildCount = 1
      ∧ s1.SetDebugMode fp false fresh2 = some s2
        ∧ s2.children = self.children
        ∧ s2.impl_.cone = none ∧ s2.impl_.material = none
        ∧ s2.debug_mode_enabled_ = false ∧ s2.debugChildCount = 0
      ∧ s2.SetDebugMode fp true fresh3 = some s3
        ∧ s3.children = self.children ++ [fresh3]
        ∧ s3.impl_ = ⟨some cone3, some material3⟩ ∧ cone3.id = fresh3
        ∧ s3.debug_mode_enabled_ = true ∧ s3.debugChildCount = 1
        ∧ s3.children.length = self.children.length + 1 := by
  obtain ⟨s1, cone1, material1, hs1, hc1, hi1, hid1, hb1⟩ := SetDebugMode_on fp self fresh1 hoff
  have hs2 := SetDebugMode_off fp s1 fresh2 hb1
  have hcone1 : s1.impl_.cone = some cone1 := by rw [hi1]
  have hc2 : (RemoveDebugMesh s1).children = self.children := by
    rw [RemoveDebugMesh_children s1 cone1 hcone1, hc1, hid1,
      List.erase_append_right _ h1]
    simp
  have himpl2 := RemoveDebugMesh_impl s1
  obtain ⟨s3, cone3, material3, hs3, hc3, hi3, hid3, hb3⟩ :=
    SetDebugMode_on fp { RemoveDebugMesh s1 with debug_mode_enabled_ := false } fresh3 rfl
  have hc3' : s3.children = self.children ++ [fresh3] := by
    rw [hc3]
    show (RemoveDebugMesh s1).children ++ [fresh3] = self.children ++ [fresh3]
    rw [hc2]
  refine ⟨s1, _, s3, cone1, material1, cone3, material3, hs1, hc1, hi1, hid1, hb1, ?_, hs2, hc2,
    ?_, ?_, rfl, ?_, hs3, hc3', hi3, hid3, hb3, ?_, ?_⟩
  · simp [SpotLight.debugChildCount, hi1, hc1, hid1, List.count_eq_zero_of_not_mem h1]
  · show (RemoveDebugMesh s1).impl_.cone = none
    rw [himpl2]
  · show (RemoveDebugMesh s1).impl_.material = none
    rw [himpl2]
  · show SpotLight.debugChildCount { RemoveDebugMesh s1 with debug_mode_enabled_ := false } = 0
    simp [SpotLight.debugChildCount, himpl2]
  · simp [SpotLight.debugChildCount, hi3, hc3', hid3, List.count_eq_zero_of_not_mem h3]
  · rw [hc3']; simp

/-- Witness of C14: the sample light with children `7, 8` and the mesh
identities `9`, `0`, `9`. -/
theorem setDebugMode_on_off_on_witness :
    ∃ s1 s2 s3 cone1 material1 cone3 material3,
      sampleLight.SetDebugMode CMath.rational true 9 = some s1
        ∧ s1.children = sampleLight.children ++ [9]
        ∧ s1.impl_ = ⟨some cone1, some material1⟩ ∧ cone1.id = 9
        ∧ s1.debug_mode_enabled_ = true ∧ s1.debugChildCount = 1
      ∧ s1.SetDebugMode CMath.rational false 0 = some s2
        ∧ s2.children = sampleLight.children
        ∧ s2.impl_.cone = none ∧ s2.impl_.material = none
        ∧ s2.debug_mode_enabled_ = false ∧ s2.debugChildCount = 0
      ∧ s2.SetDebugMode CMath.rational true 9 = some s3
        ∧ s3.children = sampleLight.children ++ [9]
        ∧ s3.impl_ = ⟨some cone3, some material3⟩ ∧ cone3.id = 9
        ∧ s3.debug_mode_enabled_ = true ∧ s3.debugChildCount = 1
        ∧ s3.children.length = sampleLight.children.length + 1 :=
  setDebugMode_on_off_on CMath.rational sampleLight 9 0 9 rfl
    (by simp [sampleLight, SpotLight.new]) (by simp [sampleLight, SpotLight.new])

/-! ## Attributes of a geometry -/

theorem Geometry.SetAttribute_attributes_of_has {K : Type}
    (g : Geometry K) (attr : GeometryAttribute)
    (h : g.HasAttribute attr.type = true) :
    (g.SetAttribute attr).attributes_
      = g.attributes_.map (fun a => if a.type = attr.type then attr else a) := by
  unfold Geometry.HasAttribute at h
  simp only [Geometry.SetAttribute, h, if_true]

theorem Geometry.SetAttribute_attributes_of_not_has {K : Type}
    (g : Geometry K) (attr : GeometryAttribute)
    (h : g.HasAttribute attr.type = false) :
    (g.SetAttribute attr).attributes_ = g.attributes_ ++ [attr] := by
  unfold Geometry.HasAttribute at h
  simp [Geometry.SetAttribute, h]

theorem Geometry.SetAttribute_buffers {K : Type} (g : Geometry K) (attr : GeometryAttribute) :
    (g.SetAttribute attr).vertex_data_ = g.vertex_data_
      ∧ (g.SetAttribute attr).index_data_ = g.index_data_ := by
  unfold Geometry.SetAttribute
  split_ifs <;> exact ⟨rfl, rfl⟩

theorem Geometry.SetAttribute_bounds {K : Type} (g : Geometry K) (attr : GeometryAttribute) :
    (g.SetAttribute attr).bounding_box_ = none
      ∧ (g.SetAttribute attr).bounding_sphere_ = none := by
  unfold Geometry.SetAttribute
  split_ifs <;> exact ⟨rfl, rfl⟩

theorem replace_kinds (attrs : List GeometryAttribute) (attr : GeometryAttribute) :
    (attrs.map (fun a => if a.type = attr.type then attr else a)).map (fun a => a.type)
      = attrs.map (fun a => a.type) := by
  induction attrs with
  | nil => rfl
  | cons a rest ih =>
    simp only [List.map_cons, ih, List.cons.injEq, and_true]
    split_ifs with h
    · exact h.symm
    · rfl

theorem not_has_iff {K : Type} (g : Geometry K) (kind : GeometryAttributeType) :
    g.HasAttribute kind = false ↔ kind ∉ g.attributes_.map (fun a => a.type) := by
  unfold Geometry.HasAttribute
  rw [← Bool.not_eq_true, List.any_eq_true]
  simp only [decide_eq_true_eq, List.mem_map, not_exists, not_and]

theorem Geometry.SetAttribute_nodup {K : Type} [LinearOrderedField K]
    (g : Geometry K) (attr : GeometryAttribute)
    (hnd : (g.attributes_.map (fun a => a.type)).Nodup) :
    ((g.SetAttribute attr).attributes_.map (fun a => a.type)).Nodup := by
  cases hhas : g.HasAttribute attr.type with
  | false =>
    rw [Geometry.SetAttribute_attributes_of_not_has g attr hhas, List.map_append,
      List.map_singleton, List.nodup_append]
    refine ⟨hnd, List.nodup_singleton _, ?_⟩
    intro k hk hk2
    rw [List.mem_singleton] at hk2
    subst hk2
    exact (not_has_iff g attr.type).1 hhas hk
  | true =>
    rw [Geometry.SetAttribute_attributes_of_has g attr hhas, replace_kinds]
    exact hnd

theorem Geometry.foldl_SetAttribute_nodup {K : Type} [LinearOrderedField K]
    (attrs : List GeometryAttribute) (g : Geometry K)
    (hnd : (g.attributes_.map (fun a => a.type)).Nodup) :
    (((attrs.foldl Geometry.SetAttribute g).attributes_).map (fun a => a.type)).Nodup := by
  induction attrs generalizing g with
  | nil => exact hnd
  | cons a rest ih => exact ih (g.SetAttribute a) (Geometry.SetAttribute_nodup g a hnd)

/-- C15: `Stride()` is the sum of the component counts of the declared
attributes, `0` when none is declared; `VertexCount()` is
`len(vertex_data) / Stride()` when the stride is positive and `0` when the
stride is `0`. -/
theorem geometry_stride_and_vertexCount {K : Type} (g : Geometry K) :
    g.Stride = (g.attributes_.map (fun a => a.item_size)).sum
      ∧ (g.attributes_ = [] → g.Stride = 0)
      ∧ (0 < g.Stride → g.VertexCount = g.vertex_data_.length / g.Stride)
      ∧ (g.Stride = 0 → g.VertexCount = 0) := by
  refine ⟨rfl, ?_, ?_, ?_⟩
  · intro h
    simp [Geometry.Stride, h]
  · intro h
    simp [Geometry.VertexCount, h]
  · intro h
    simp [Geometry.VertexCount, h]

/-- C16: after `SetAttribute(attr)` the geometry has an attribute of that kind;
if none was declared before, `attr` is appended at the end; if one was
declared, it is replaced in place, so the length of the list and the kind in
every slot stay the same; attributes of other kinds stay in their slots; a
list without two attributes of one kind stays so, hence no geometry built by
`SetAttribute` calls on a created geometry ever holds two attributes of one
kind; the buffers are untouched. -/
theorem geometry_setAttribute {K : Type} [LinearOrderedField K]
    (g : Geometry K) (attr : GeometryAttribute) :
    (g.SetAttribute attr).HasAttribute attr.type = true
      ∧ (g.HasAttribute attr.type = false →
          (g.SetAttribute attr).attributes_ = g.attributes_ ++ [attr])
      ∧ (g.HasAttribute attr.type = true →
          (g.SetAttribute attr).attributes_.length = g.attributes_.length
            ∧ (g.SetAttribute attr).attributes_.map (fun a => a.type)
                = g.attributes_.map (fun a => a.type)
            ∧ ∀ (i : Nat) (a : GeometryAttribute), g.attributes_[i]? = some a → a.type = attr.type →
                (g.SetAttribute attr).attributes_[i]? = some attr)
      ∧ (∀ (i : Nat) (a : GeometryAttribute), g.attributes_[i]? = some a → a.type ≠ attr.type →
          (g.SetAttribute attr).attributes_[i]? = some a)
      ∧ ((g.attributes_.map (fun a => a.type)).Nodup →
          ((g.SetAttribute attr).attributes_.map (fun a => a.type)).Nodup)
      ∧ (∀ (vertex_data : List K) (index_data : List Nat) (attrs : List GeometryAttribute),
          (((attrs.foldl Geometry.SetAttribute
            (Geometry.Create vertex_data index_data)).attributes_).map (fun a => a.type)).Nodup)
      ∧ (g.SetAttribute attr).vertex_data_ = g.vertex_data_
      ∧ (g.SetAttribute attr).index_data_ = g.index_data_ := by
  have hbuf := Geometry.SetAttribute_buffers g attr
  have hfold : ∀ (vertex_data : List K) (index_data : List Nat)
      (attrs : List GeometryAttribute),
      (((attrs.foldl Geometry.SetAttribute
        (Geometry.Create vertex_data index_data)).attributes_).map (fun a => a.type)).Nodup :=
    fun vertex_data index_data attrs =>
      Geometry.foldl_SetAttribute_nodup attrs _ (by simp [Geometry.Create, Geometry.empty])
  have hrepl : ∀ (i : Nat) (a : GeometryAttribute), g.attributes_[i]? = some a →
      (g.attributes_.map (fun a => if a.type = attr.type then attr else a))[i]?
        = some (if a.type = attr.type then attr else a) := by
    intro i a hi
    simp [List.getElem?_map, hi]
  cases hhas : g.HasAttribute attr.type with
  | false =>
    have hattrs := Geometry.SetAttribute_attributes_of_not_has g attr hhas
    refine ⟨?_, fun _ => hattrs, ?_, ?_, Geometry.SetAttribute_nodup g attr, hfold, hbuf.1,
      hbuf.2⟩
    · unfold Geometry.HasAttribute
      rw [hattrs]
      simp
    · intro h; cases h
    · intro i a hi _
      rw [hattrs]
      have hlt : i < g.attributes_.length := by
        rcases Nat.lt_or_ge i g.attributes_.length with h | h
        · exact h
        · rw [List.getElem?_eq_none h] at hi; cases hi
      rw [List.getElem?_append_left hlt]
      exact hi
  | true =>
    have hattrs := Geometry.SetAttribute_attributes_of_has g attr hhas
    refine ⟨?_, ?_, fun _ => ⟨?_, ?_, ?_⟩, ?_, Geometry.SetAttribute_nodup g attr, hfold,
      hbuf.1, hbuf.2⟩
    · unfold Geometry.HasAttribute at hhas ⊢
      rw [hattrs]
      rw [List.any_eq_true] at hhas ⊢
      obtain ⟨a, ha, hk⟩ := hhas
      refine ⟨attr, ?_, by simp⟩
      rw [List.mem_map]
      refine ⟨a, ha, ?_⟩
      have : a.type = attr.type := by simpa using hk
      simp [this]
    · intro h; cases h
    · rw [hattrs, List.length_map]
    · rw [hattrs]; exact replace_kinds g.attributes_ attr
    · intro i a hi hk
      rw [hattrs, hrepl i a hi, if_pos hk]
    · intro i a hi hk
      rw [hattrs, hrepl i a hi, if_neg hk]


/-! ## Cached bounds -/

theorem Geometry.computeBoundingBox_congr {K : Type} [LinearOrderedField K] (g h : Geometry K)
    (hv : h.vertex_data_ = g.vertex_data_) (ha : h.attributes_ = g.attributes_) :
    h.computeBoundingBox = g.computeBoundingBox := by
  simp only [Geometry.computeBoundingBox, Geometry.positions, Geometry.VertexCount,
    Geometry.Stride, hv, ha]

theorem Geometry.computeBoundingSphere_congr {K : Type} [LinearOrderedField K]
    (fp : CMath K) (g h : Geometry K)
    (hv : h.vertex_data_ = g.vertex_data_) (ha : h.attributes_ = g.attributes_) :
    h.computeBoundingSphere fp = g.computeBoundingSphere fp := by
  simp only [Geometry.computeBoundingSphere, Geometry.computeBoundingBox, Geometry.positions,
    Geometry.VertexCount, Geometry.Stride, hv, ha]

theorem Geometry.BoundingBox_cached {K : Type} [LinearOrderedField K] (g : Geometry K) :
    g.BoundingBox.2.bounding_box_ = some g.BoundingBox.1 := by
  unfold Geometry.BoundingBox
  cases h : g.bounding_box_ with
  | none => rfl
  | some box => simpa using h

theorem Geometry.BoundingSphere_cached {K : Type} [LinearOrderedField K]
    (fp : CMath K) (g : Geometry K) :
    (g.BoundingSphere fp).2.bounding_sphere_ = some (g.BoundingSphere fp).1 := by
  unfold Geometry.BoundingSphere
  cases h : g.bounding_sphere_ with
  | none => rfl
  | some sphere => simpa using h

theorem Geometry.BoundingBox_of_cached {K : Type} [LinearOrderedField K]
    (g : Geometry K) (box : Box3 K)
    (h : g.bounding_box_ = some box) : g.BoundingBox = (box, g) := by
  simp [Geometry.BoundingBox, h]

theorem Geometry.BoundingSphere_of_cached {K : Type} [LinearOrderedField K]
    (fp : CMath K) (g : Geometry K) (sphere : Sphere K)
    (h : g.bounding_sphere_ = some sphere) : g.BoundingSphere fp = (sphere, g) := by
  simp [Geometry.BoundingSphere, h]

theorem Geometry.BoundingBox_of_absent {K : Type} [LinearOrderedField K]
    (g : Geometry K) (h : g.bounding_box_ = none) :
    g.BoundingBox = (g.computeBoundingBox, { g with bounding_box_ := some g.computeBoundingBox }) := by
  simp [Geometry.BoundingBox, h, Geometry.CreateBoundingBox]

theorem Geometry.BoundingSphere_of_absent {K : Type} [LinearOrderedField K]
    (fp : CMath K) (g : Geometry K)
    (h : g.bounding_sphere_ = none) :
    g.BoundingSphere fp
      = (g.computeBoundingSphere fp,
          { g with bounding_sphere_ := some (g.computeBoundingSphere fp) }) := by
  simp [Geometry.BoundingSphere, h, Geometry.CreateBoundingSphere]

theorem sampleGeometry_box :
    sampleGeometry.computeBoundingBox = Box3.bounds ⟨0, 0, 0⟩ ⟨3, 3, 3⟩ := by
  decide

/-- C17: a created geometry has no cached bounds; the first
`BoundingBox()` / `BoundingSphere()` request computes the bounds from the
position data and caches them; a second request with no mutation in between
returns the same value and changes nothing; every `SetAttribute` call clears
both caches, so the next request computes the bounds of the current position
data, whatever was cached before; for the sample geometry the box found after
declaring a second attribute differs from the one cached before. -/
theorem geometry_bounds_cache (fp : CMath ℚ) (g : Geometry ℚ) (attr : GeometryAttribute)
    (vertex_data : List ℚ) (index_data : List Nat) :
    ((Geometry.Create vertex_data index_data).bounding_box_ = none
        ∧ (Geometry.Create vertex_data index_data).bounding_sphere_ = none)
      ∧ ((g.bounding_box_ = none → g.BoundingBox.1 = g.computeBoundingBox)
        ∧ (g.bounding_sphere_ = none → (g.BoundingSphere fp).1 = g.computeBoundingSphere fp)
        ∧ g.BoundingBox.2.bounding_box_ = some g.BoundingBox.1
        ∧ (g.BoundingSphere fp).2.bounding_sphere_ = some (g.BoundingSphere fp).1)
      ∧ (g.BoundingBox.2.BoundingBox = (g.BoundingBox.1, g.BoundingBox.2)
        ∧ (g.BoundingSphere fp).2.BoundingSphere fp
            = ((g.BoundingSphere fp).1, (g.BoundingSphere fp).2)
        ∧ g.BoundingBox.2.vertex_data_ = g.vertex_data_
        ∧ g.BoundingBox.2.attributes_ = g.attributes_
        ∧ (g.BoundingSphere fp).2.vertex_data_ = g.vertex_data_
        ∧ (g.BoundingSphere fp).2.attributes_ = g.attributes_)
      ∧ ((g.SetAttribute attr).bounding_box_ = none
        ∧ (g.SetAttribute attr).bounding_sphere_ = none
        ∧ (g.SetAttribute attr).BoundingBox.1 = (g.SetAttribute attr).computeBoundingBox
        ∧ ((g.SetAttribute attr).BoundingSphere fp).1
            = (g.SetAttribute attr).computeBoundingSphere fp
        ∧ (g.BoundingBox.2.SetAttribute attr).BoundingBox.1
            = (g.SetAttribute attr).computeBoundingBox
        ∧ (((g.BoundingSphere fp).2.SetAttribute attr).BoundingSphere fp).1
            = (g.SetAttribute attr).computeBoundingSphere fp)
      ∧ (sampleGeometry.BoundingBox.1 = Box3.bounds ⟨0, 0, 0⟩ ⟨3, 3, 3⟩
        ∧ (sampleGeometry.BoundingBox.2.SetAttribute
            ⟨GeometryAttributeType.Normal, 3⟩).BoundingBox.1
          = Box3.bounds ⟨0, 0, 0⟩ ⟨2, 2, 2⟩) := by
  have hbv : g.BoundingBox.2.vertex_data_ = g.vertex_data_ := by
    unfold Geometry.BoundingBox
    cases g.bounding_box_ <;> rfl
  have hba : g.BoundingBox.2.attributes_ = g.attributes_ := by
    unfold Geometry.BoundingBox
    cases g.bounding_box_ <;> rfl
  have hsv : (g.BoundingSphere fp).2.vertex_data_ = g.vertex_data_ := by
    unfold Geometry.BoundingSphere
    cases g.bounding_sphere_ <;> rfl
  have hsa : (g.BoundingSphere fp).2.attributes_ = g.attributes_ := by
    unfold Geometry.BoundingSphere
    cases g.bounding_sphere_ <;> rfl
  have hset : ∀ h : Geometry ℚ, h.vertex_data_ = g.vertex_data_ → h.attributes_ = g.attributes_ →
      (h.SetAttribute attr).vertex_data_ = (g.SetAttribute attr).vertex_data_
        ∧ (h.SetAttribute attr).attributes_ = (g.SetAttribute attr).attributes_ := by
    intro h hv ha
    refine ⟨?_, ?_⟩
    · rw [(Geometry.SetAttribute_buffers h attr).1, (Geometry.SetAttribute_buffers g attr).1, hv]
    · unfold Geometry.SetAttribute
      rw [ha]
      split_ifs <;> rfl
  have hfresh : ∀ h : Geometry ℚ, (h.SetAttribute attr).BoundingBox.1
      = (h.SetAttribute attr).computeBoundingBox := fun h => by
    rw [Geometry.BoundingBox_of_absent _ (Geometry.SetAttribute_bounds h attr).1]
  have hfreshS : ∀ h : Geometry ℚ, ((h.SetAttribute attr).BoundingSphere fp).1
      = (h.SetAttribute attr).computeBoundingSphere fp := fun h => by
    rw [Geometry.BoundingSphere_of_absent fp _ (Geometry.SetAttribute_bounds h attr).2]
  refine ⟨⟨rfl, rfl⟩, ⟨?_, ?_, Geometry.BoundingBox_cached g, Geometry.BoundingSphere_cached fp g⟩,
    ⟨?_, ?_, hbv, hba, hsv, hsa⟩,
    ⟨(Geometry.SetAttribute_bounds g attr).1, (Geometry.SetAttribute_bounds g attr).2, hfresh g,
      hfreshS g, ?_, ?_⟩, ⟨?_, ?_⟩⟩
  · intro h
    rw [Geometry.BoundingBox_of_absent g h]
  · intro h
    rw [Geometry.BoundingSphere_of_absent fp g h]
  · exact Geometry.BoundingBox_of_cached _ _ (Geometry.BoundingBox_cached g)
  · exact Geometry.BoundingSphere_of_cached fp _ _ (Geometry.BoundingSphere_cached fp g)
  · rw [hfresh]
    exact Geometry.computeBoundingBox_congr _ _ (hset _ hbv hba).1 (hset _ hbv hba).2
  · rw [hfreshS]
    exact Geometry.computeBoundingSphere_congr fp _ _ (hset _ hsv hsa).1 (hset _ hsv hsa).2
  · decide
  · decide

/-! ## Disposal -/

theorem Geometry.Dispose_of_disposed {K : Type} (g : Geometry K) (released : List Nat)
    (h : g.disposed_ = true) : g.Dispose released = (g, released) := by
  simp [Geometry.Dispose, h]

theorem Geometry.Dispose_of_live {K : Type} (g : Geometry K) (released : List Nat)
    (h : g.disposed_ = false) :
    g.Dispose released = ({ g with disposed_ := true }, released ++ [g.renderer_id]) := by
  simp [Geometry.Dispose, h]

theorem Geometry.Dispose_disposed {K : Type} [LinearOrderedField K]
    (g : Geometry K) (released : List Nat) :
    (g.Dispose released).1.disposed_ = true := by
  cases h : g.disposed_ with
  | true => rw [Geometry.Dispose_of_disposed g released h]; exact h
  | false => rw [Geometry.Dispose_of_live g released h]

theorem Geometry.disposeTimes_of_disposed {K : Type} [LinearOrderedField K]
    (n : Nat) (g : Geometry K) (released : List Nat)
    (h : g.disposed_ = true) : Geometry.disposeTimes n g released = (g, released) := by
  induction n with
  | zero => rfl
  | succ n ih =>
    rw [Geometry.disposeTimes, Geometry.Dispose_of_disposed g released h]
    exact ih

/-- C18: `Dispose()` is idempotent: on a live geometry it releases the backend
resource once and marks the geometry disposed, on a disposed geometry it does
nothing, so a second call changes nothing; over a lifetime of any number of
explicit `Dispose()` calls followed by the destructor the resource of a
geometry that started live is released exactly once. -/
theorem geometry_dispose_idempotent {K : Type} [LinearOrderedField K]
    (g : Geometry K) (released : List Nat) (n : Nat) :
    (g.Dispose released).1.Dispose (g.Dispose released).2 = g.Dispose released
      ∧ (g.disposed_ = false →
          g.Dispose released = ({ g with disposed_ := true }, released ++ [g.renderer_id]))
      ∧ (g.disposed_ = true → g.Dispose released = (g, released))
      ∧ (g.disposed_ = true → Geometry.disposeTimes n g released = (g, released))
      ∧ (g.disposed_ = false →
          (Geometry.destructor (Geometry.disposeTimes n g released).1
              (Geometry.disposeTimes n g released).2).2 = released ++ [g.renderer_id]
            ∧ (Geometry.destructor (Geometry.disposeTimes n g released).1
              (Geometry.disposeTimes n g released).2).1.disposed_ = true) := by
  refine ⟨Geometry.Dispose_of_disposed _ _ (Geometry.Dispose_disposed g released),
    Geometry.Dispose_of_live g released, Geometry.Dispose_of_disposed g released,
    Geometry.disposeTimes_of_disposed n g released, ?_⟩
  intro hlive
  cases n with
  | zero =>
    simp only [Geometry.disposeTimes, Geometry.destructor]
    rw [Geometry.Dispose_of_live g released hlive]
    exact ⟨rfl, rfl⟩
  | succ n =>
    simp only [Geometry.disposeTimes, Geometry.destructor]
    rw [Geometry.Dispose_of_live g released hlive,
      Geometry.disposeTimes_of_disposed n _ _ rfl, Geometry.Dispose_of_disposed _ _ rfl]
    exact ⟨rfl, rfl⟩

/-! ## Camera uniform block -/

theorem GLUniformBuffer.UploadIfNeeded_same (buffer : GLUniformBuffer) (record : UniformCamera)
    (h : buffer.uploaded = some record) : buffer.UploadIfNeeded record = buffer := by
  simp [GLUniformBuffer.UploadIfNeeded, h]

theorem GLUniformBuffer.UploadIfNeeded_changed (buffer : GLUniformBuffer)
    (record : UniformCamera) (h : buffer.uploaded ≠ some record) :
    buffer.UploadIfNeeded record
      = { buffer with uploaded := some record, uploads := buffer.uploads + 1 } := by
  simp [GLUniformBuffer.UploadIfNeeded, h]

theorem GLCamera.Update_camera (self : GLCamera) (projection view : Matrix4) :
    (self.Update projection view).camera_ = ⟨projection, view⟩ := rfl

theorem GLCamera.Update_buffer (self : GLCamera) (projection view : Matrix4) :
    (self.Update projection view).uniform_buffer_
      = self.uniform_buffer_.UploadIfNeeded ⟨projection, view⟩ := rfl

/-- C19: on a fresh `GLCamera` the first `Update(P, V)` uploads the record, a
second `Update(P, V)` with the same matrices uploads nothing, and a following
`Update` with a different projection or view uploads a second time; after
every `Update`, on any camera, the record holds the given projection and view. -/
theorem glCamera_update (initial : UniformCamera) (self : GLCamera) (P V P2 V2 : Matrix4)
    (hdiff : P2 ≠ P ∨ V2 ≠ V) :
    ((GLCamera.fresh initial).Update P V).uniform_buffer_.uploads = 1
      ∧ (((GLCamera.fresh initial).Update P V).Update P V).uniform_buffer_.uploads = 1
      ∧ ((((GLCamera.fresh initial).Update P V).Update P V).Update P2 V2).uniform_buffer_.uploads
          = 2
      ∧ ((((GLCamera.fresh initial).Update P V).Update P V).Update P2 V2).uniform_buffer_.uploaded
          = some ⟨P2, V2⟩
      ∧ (self.Update P V).camera_.projection = P
      ∧ (self.Update P V).camera_.view = V
      ∧ (self.Update P V).uniform_buffer_.uploaded = some ⟨P, V⟩ := by
  have h1 : ((GLCamera.fresh initial).Update P V).uniform_buffer_
      = ⟨"ub_Camera", 128, some ⟨P, V⟩, 1⟩ := by
    rw [GLCamera.Update_buffer]
    simp [GLCamera.fresh, GLUniformBuffer.UploadIfNeeded]
  have h2 : (((GLCamera.fresh initial).Update P V).Update P V).uniform_buffer_
      = ⟨"ub_Camera", 128, some ⟨P, V⟩, 1⟩ := by
    rw [GLCamera.Update_buffer, h1]
    exact GLUniformBuffer.UploadIfNeeded_same _ _ rfl
  have hne : (⟨P, V⟩ : UniformCamera) ≠ ⟨P2, V2⟩ := by
    intro h
    simp only [UniformCamera.mk.injEq] at h
    rcases hdiff with hp | hv
    · exact hp h.1.symm
    · exact hv h.2.symm
  have h3 : ((((GLCamera.fresh initial).Update P V).Update P V).Update P2 V2).uniform_buffer_
      = ⟨"ub_Camera", 128, some ⟨P2, V2⟩, 2⟩ := by
    rw [GLCamera.Update_buffer, h2]
    rw [GLUniformBuffer.UploadIfNeeded_changed _ _ (by simpa using hne)]
  refine ⟨by rw [h1], by rw [h2], by rw [h3], by rw [h3], rfl, rfl, ?_⟩
  rw [GLCamera.Update_buffer]
  unfold GLUniformBuffer.UploadIfNeeded
  split_ifs with h
  · exact h
  · rfl

/-- Witness of C19: identity projection and view, then a zero view. -/
theorem glCamera_update_witness :
    ((GLCamera.fresh ⟨Matrix4.sampleZero, Matrix4.sampleZero⟩).Update Matrix4.sample
        Matrix4.sample).uniform_buffer_.uploads = 1
      ∧ (((GLCamera.fresh ⟨Matrix4.sampleZero, Matrix4.sampleZero⟩).Update Matrix4.sample
          Matrix4.sample).Update Matrix4.sample Matrix4.sample).uniform_buffer_.uploads = 1
      ∧ ((((GLCamera.fresh ⟨Matrix4.sampleZero, Matrix4.sampleZero⟩).Update Matrix4.sample
          Matrix4.sample).Update Matrix4.sample Matrix4.sample).Update Matrix4.sample
            Matrix4.sampleZero).uniform_buffer_.uploads = 2 := by
  obtain ⟨h1, h2, h3, -⟩ := glCamera_update ⟨Matrix4.sampleZero, Matrix4.sampleZero⟩
    (GLCamera.fresh ⟨Matrix4.sampleZero, Matrix4.sampleZero⟩) Matrix4.sample Matrix4.sample
    Matrix4.sample Matrix4.sampleZero (Or.inr (by decide))
  exact ⟨h1, h2, h3⟩

/-! ## Expanding a sphere by a point -/

theorem Vector3.cauchy_schwarz {K : Type} [LinearOrderedField K] (u w : Vector3 K) :
    Vector3.dot u w * Vector3.dot u w ≤ Vector3.dot u u * Vector3.dot w w := by
  have h : Vector3.dot u u * Vector3.dot w w - Vector3.dot u w * Vector3.dot u w
      = (u.x * w.y - u.y * w.x) * (u.x * w.y - u.y * w.x)
        + (u.y * w.z - u.z * w.y) * (u.y * w.z - u.z * w.y)
        + (u.z * w.x - u.x * w.z) * (u.z * w.x - u.x * w.z) := by
    simp only [Vector3.dot]; ring
  nlinarith [mul_self_nonneg (u.x * w.y - u.y * w.x), mul_self_nonneg (u.y * w.z - u.z * w.y),
    mul_self_nonneg (u.z * w.x - u.x * w.z)]

theorem Vector3.distanceSquared_self {K : Type} [LinearOrderedField K]
    (p : Vector3 K) : Vector3.distanceSquared p p = 0 := by
  simp [Vector3.distanceSquared, Vector3.sub, Vector3.dot]

theorem Vector3.distanceSquared_add {K : Type} [LinearOrderedField K] (q c w : Vector3 K) :
    Vector3.distanceSquared q (Vector3.add c w)
      = Vector3.distanceSquared q c - 2 * Vector3.dot (Vector3.sub q c) w + Vector3.dot w w := by
  simp only [Vector3.distanceSquared, Vector3.sub, Vector3.add, Vector3.dot]; ring

theorem Vector3.distanceSquared_add_left {K : Type} [LinearOrderedField K] (c w : Vector3 K) :
    Vector3.distanceSquared (Vector3.add c w) c = Vector3.dot w w := by
  simp only [Vector3.distanceSquared, Vector3.sub, Vector3.add, Vector3.dot]; ring

theorem Vector3.dot_scale_right {K : Type} [LinearOrderedField K] (t : K) (u v : Vector3 K) :
    Vector3.dot u (Vector3.scale t v) = t * Vector3.dot u v := by
  simp only [Vector3.dot, Vector3.scale]; ring

theorem Sphere.ExpandWithPoint_empty {K : Type} [LinearOrderedField K]
    (fp : CMath K) (s : Sphere K) (p : Vector3 K)
    (h : s.radius < 0) : s.ExpandWithPoint fp p = ⟨p, 0⟩ := by
  simp [Sphere.ExpandWithPoint, Sphere.IsEmpty, h]

theorem Sphere.ExpandWithPoint_inside {K : Type} [LinearOrderedField K]
    (fp : CMath K) (s : Sphere K) (p : Vector3 K)
    (h0 : 0 ≤ s.radius) (hd : (Vector3.sub p s.center).Length fp ≤ s.radius) :
    s.ExpandWithPoint fp p = s := by
  simp [Sphere.ExpandWithPoint, Sphere.IsEmpty, not_lt.2 h0, not_lt.2 hd]

theorem Sphere.ExpandWithPoint_outside {K : Type} [LinearOrderedField K]
    (fp : CMath K) (s : Sphere K) (p : Vector3 K)
    (h0 : 0 ≤ s.radius) (hd : s.radius < (Vector3.sub p s.center).Length fp) :
    s.ExpandWithPoint fp p
      = ⟨Vector3.add s.center
            (Vector3.scale ((((Vector3.sub p s.center).Length fp - s.radius) / 2)
              / (Vector3.sub p s.center).Length fp) (Vector3.sub p s.center)),
          s.radius + ((Vector3.sub p s.center).Length fp - s.radius) / 2⟩ := by
  simp [Sphere.ExpandWithPoint, Sphere.IsEmpty, not_lt.2 h0, hd]

/-- Geometry of the outside case: with `d` the exact distance from the centre
to the point and `h = (d - r) / 2`, the new centre is at distance `h` from the
old one, the point is at distance `r + h` from the new centre, and every point
within `r` of the old centre is within `r + h` of the new one. -/
theorem expand_outside_geometry {K : Type} [LinearOrderedField K]
    (c p : Vector3 K) (r d : K) (h0 : 0 ≤ r) (hd : r < d)
    (hexact : d * d = Vector3.distanceSquared p c) :
    Vector3.dot (Vector3.scale (((d - r) / 2) / d) (Vector3.sub p c))
        (Vector3.scale (((d - r) / 2) / d) (Vector3.sub p c))
        = ((d - r) / 2) * ((d - r) / 2)
      ∧ Vector3.distanceSquared p
          (Vector3.add c (Vector3.scale (((d - r) / 2) / d) (Vector3.sub p c)))
        = (r + (d - r) / 2) * (r + (d - r) / 2)
      ∧ ∀ q, Vector3.distanceSquared q c ≤ r * r →
          Vector3.distanceSquared q
              (Vector3.add c (Vector3.scale (((d - r) / 2) / d) (Vector3.sub p c)))
            ≤ (r + (d - r) / 2) * (r + (d - r) / 2) := by
  have hdpos : 0 < d := lt_of_le_of_lt h0 hd
  have hdne : d ≠ 0 := hdpos.ne'
  have hh : 0 ≤ (d - r) / 2 := by linarith
  have hww : Vector3.dot (Vector3.scale (((d - r) / 2) / d) (Vector3.sub p c))
      (Vector3.scale (((d - r) / 2) / d) (Vector3.sub p c))
      = ((d - r) / 2) * ((d - r) / 2) := by
    rw [Vector3.dot_scale]
    have : Vector3.dot (Vector3.sub p c) (Vector3.sub p c) = d * d := hexact.symm
    rw [this]
    field_simp
    ring
  refine ⟨hww, ?_, ?_⟩
  · rw [Vector3.distanceSquared_add, hww, Vector3.dot_scale_right]
    have : Vector3.dot (Vector3.sub p c) (Vector3.sub p c) = d * d := hexact.symm
    rw [← hexact, this]
    field_simp
    ring
  · intro q hq
    rw [Vector3.distanceSquared_add, hww]
    have hcs := Vector3.cauchy_schwarz (Vector3.sub q c)
      (Vector3.scale (((d - r) / 2) / d) (Vector3.sub p c))
    rw [hww] at hcs
    have hqq : Vector3.dot (Vector3.sub q c) (Vector3.sub q c) ≤ r * r := hq
    have hqq0 := Vector3.dot_self_nonneg (Vector3.sub q c)
    have hbound : -(r * ((d - r) / 2))
        ≤ Vector3.dot (Vector3.sub q c)
            (Vector3.scale (((d - r) / 2) / d) (Vector3.sub p c)) := by
      by_contra hcon
      push_neg at hcon
      have hrh : 0 ≤ r * ((d - r) / 2) := mul_nonneg h0 hh
      nlinarith [mul_nonneg hh hh, mul_nonneg (mul_nonneg hh hh) hqq0,
        mul_le_mul_of_nonneg_right hqq (mul_nonneg hh hh)]
    unfold Vector3.distanceSquared
    nlinarith

theorem Vector3.Length_rational (v : Vector3 ℚ) (d : ℚ) (hd : 0 ≤ d)
    (hsq : Vector3.dot v v = d * d) : v.Length CMath.rational = d := by
  show Rat.sqrt (Vector3.dot v v) = d
  rw [hsq, Rat.sqrt_eq, abs_of_nonneg hd]

/-- The outside case with the rational square root, for a point at a rational
distance `d` from the centre. -/
theorem Sphere.ExpandWithPoint_rational (s : Sphere ℚ) (p : Vector3 ℚ) (d : ℚ) (h0 : 0 ≤ s.radius)
    (hd : s.radius < d)
    (hsq : Vector3.dot (Vector3.sub p s.center) (Vector3.sub p s.center) = d * d) :
    s.ExpandWithPoint CMath.rational p
      = ⟨Vector3.add s.center (Vector3.scale (((d - s.radius) / 2) / d) (Vector3.sub p s.center)),
          s.radius + (d - s.radius) / 2⟩ := by
  have hlen := Vector3.Length_rational (Vector3.sub p s.center) d (le_trans h0 hd.le) hsq
  rw [Sphere.ExpandWithPoint_outside CMath.rational s p h0 (by rw [hlen]; exact hd), hlen]

theorem three_point_sphere :
    [(⟨0, 0, 0⟩ : Vector3 ℚ), ⟨2, 0, 0⟩, ⟨1, 3, 0⟩].foldl
      (Sphere.ExpandWithPoint CMath.rational) Sphere.default = ⟨⟨1, 1, 0⟩, 2⟩ := by
  have h1 : Sphere.ExpandWithPoint CMath.rational Sphere.default ⟨0, 0, 0⟩ = ⟨⟨0, 0, 0⟩, 0⟩ :=
    Sphere.ExpandWithPoint_empty _ _ _ (by norm_num [Sphere.default])
  have h2 : Sphere.ExpandWithPoint CMath.rational ⟨⟨0, 0, 0⟩, 0⟩ ⟨2, 0, 0⟩ = ⟨⟨1, 0, 0⟩, 1⟩ := by
    rw [Sphere.ExpandWithPoint_rational ⟨⟨0, 0, 0⟩, 0⟩ ⟨2, 0, 0⟩ 2 (by norm_num) (by norm_num)
      (by simp [Vector3.dot, Vector3.sub])]
    simp [Vector3.add, Vector3.scale, Vector3.sub]
  have h3 : Sphere.ExpandWithPoint CMath.rational ⟨⟨1, 0, 0⟩, 1⟩ ⟨1, 3, 0⟩ = ⟨⟨1, 1, 0⟩, 2⟩ := by
    rw [Sphere.ExpandWithPoint_rational ⟨⟨1, 0, 0⟩, 1⟩ ⟨1, 3, 0⟩ 3 (by norm_num) (by norm_num)
      (by simp [Vector3.dot, Vector3.sub])]
    simp [Vector3.add, Vector3.scale, Vector3.sub]
    norm_num
  simp only [List.foldl_cons, List.foldl_nil, h1, h2, h3]

/-- The model reproduces the four expectations of `tests/math/sphere_test.cpp`
for `ExpandWithPoint`: empty sphere, point inside, point on the surface, point
outside. -/
theorem Sphere.ExpandWithPoint_tests :
    Sphere.ExpandWithPoint CMath.rational Sphere.default ⟨1, 1, 1⟩ = ⟨⟨1, 1, 1⟩, 0⟩
      ∧ Sphere.ExpandWithPoint CMath.rational ⟨Vector3.zero, 5⟩ ⟨1, 1, 1⟩ = ⟨Vector3.zero, 5⟩
      ∧ Sphere.ExpandWithPoint CMath.rational ⟨Vector3.zero, 1⟩ ⟨1, 0, 0⟩ = ⟨Vector3.zero, 1⟩
      ∧ Sphere.ExpandWithPoint CMath.rational ⟨Vector3.zero, 1⟩ ⟨2, 0, 0⟩
          = ⟨⟨1 / 2, 0, 0⟩, 3 / 2⟩ := by
  refine ⟨Sphere.ExpandWithPoint_empty _ _ _ (by norm_num [Sphere.default]), ?_, ?_, ?_⟩
  · apply Sphere.ExpandWithPoint_inside _ _ _ (by norm_num)
    show Rat.sqrt (Vector3.dot (Vector3.sub ⟨1, 1, 1⟩ Vector3.zero)
      (Vector3.sub ⟨1, 1, 1⟩ Vector3.zero)) ≤ 5
    have h3 : Vector3.dot (Vector3.sub ⟨1, 1, 1⟩ Vector3.zero)
        (Vector3.sub ⟨1, 1, 1⟩ Vector3.zero) = ((3 : ℕ) : ℚ) := by
      simp [Vector3.dot, Vector3.sub, Vector3.zero]; norm_num
    rw [h3, Rat.sqrt_natCast]
    have hs : Nat.sqrt 3 ≤ 3 := Nat.sqrt_le_self 3
    have hq : ((Nat.sqrt 3 : ℕ) : ℚ) ≤ 3 := by exact_mod_cast hs
    linarith
  · apply Sphere.ExpandWithPoint_inside _ _ _ (by norm_num)
    rw [Vector3.Length_rational _ 1 (by norm_num)
      (by simp [Vector3.dot, Vector3.sub, Vector3.zero])]
  · rw [Sphere.ExpandWithPoint_rational ⟨Vector3.zero, 1⟩ ⟨2, 0, 0⟩ 2 (by norm_num) (by norm_num)
      (by simp [Vector3.dot, Vector3.sub, Vector3.zero])]
    simp [Vector3.add, Vector3.scale, Vector3.sub, Vector3.zero]
    norm_num

theorem Vector3.Length_exact {K : Type} [LinearOrderedField K] (fp : CMath K)
    (hsqrt : fp.ExactSqrt) (p c : Vector3 K) :
    0 ≤ (Vector3.sub p c).Length fp
      ∧ (Vector3.sub p c).Length fp * (Vector3.sub p c).Length fp
          = Vector3.distanceSquared p c :=
  hsqrt _ (Vector3.dot_self_nonneg _)

/-- C20: `ExpandWithPoint(p)` turns an empty sphere (radius `< 0`) into the
sphere of centre `p` and radius `0`; it leaves a sphere alone when `p` is at a
distance `d ≤ radius` from the centre; for `d > radius` the new radius is
`(radius + d) / 2` and the centre moves along the direction to `p`.  With the
exact square root the centre moves by the distance `(d - radius) / 2`, and in
every case the result contains `p` and every point of the previous sphere.
The sphere built from the points `(0,0,0)`, `(2,0,0)`, `(1,3,0)` has radius
`2`, although the sphere of centre `(1, 4/3, 0)` and radius `5/3` holds all
three: the result is not minimal. -/
theorem sphere_expandWithPoint {K : Type} [LinearOrderedField K] (fp : CMath K)
    (s : Sphere K) (p : Vector3 K) :
    (s.radius < 0 → s.ExpandWithPoint fp p = ⟨p, 0⟩)
      ∧ (0 ≤ s.radius → (Vector3.sub p s.center).Length fp ≤ s.radius →
          s.ExpandWithPoint fp p = s)
      ∧ (0 ≤ s.radius → s.radius < (Vector3.sub p s.center).Length fp →
          (s.ExpandWithPoint fp p).radius
              = (s.radius + (Vector3.sub p s.center).Length fp) / 2
            ∧ (s.ExpandWithPoint fp p).center
              = Vector3.add s.center
                  (Vector3.scale ((((Vector3.sub p s.center).Length fp - s.radius) / 2)
                    / (Vector3.sub p s.center).Length fp) (Vector3.sub p s.center))
            ∧ 0 < (((Vector3.sub p s.center).Length fp - s.radius) / 2)
                / (Vector3.sub p s.center).Length fp)
      ∧ (fp.ExactSqrt →
          (Vector3.sub p s.center).Length fp * (Vector3.sub p s.center).Length fp
              = Vector3.distanceSquared p s.center
            ∧ 0 ≤ (Vector3.sub p s.center).Length fp
            ∧ (0 ≤ s.radius → s.radius < (Vector3.sub p s.center).Length fp →
                Vector3.distanceSquared (s.ExpandWithPoint fp p).center s.center
                  = (((Vector3.sub p s.center).Length fp - s.radius) / 2)
                    * (((Vector3.sub p s.center).Length fp - s.radius) / 2))
            ∧ (s.ExpandWithPoint fp p).Contains p
            ∧ (∀ q, s.Contains q → (s.ExpandWithPoint fp p).Contains q))
      ∧ ([(⟨0, 0, 0⟩ : Vector3 ℚ), ⟨2, 0, 0⟩, ⟨1, 3, 0⟩].foldl
            (Sphere.ExpandWithPoint CMath.rational) Sphere.default = ⟨⟨1, 1, 0⟩, 2⟩
          ∧ (∀ q ∈ [(⟨0, 0, 0⟩ : Vector3 ℚ), ⟨2, 0, 0⟩, ⟨1, 3, 0⟩],
              Sphere.Contains ⟨⟨1, 4 / 3, 0⟩, 5 / 3⟩ q)
          ∧ (5 / 3 : ℚ) < 2) := by
  refine ⟨Sphere.ExpandWithPoint_empty fp s p, Sphere.ExpandWithPoint_inside fp s p, ?_, ?_,
    three_point_sphere, ?_, ?_⟩
  · intro h0 hd
    rw [Sphere.ExpandWithPoint_outside fp s p h0 hd]
    refine ⟨by ring, rfl, ?_⟩
    exact div_pos (by linarith) (lt_of_le_of_lt h0 hd)
  · intro hsqrt
    obtain ⟨hnonneg, hexact⟩ := Vector3.Length_exact fp hsqrt p s.center
    refine ⟨hexact, hnonneg, ?_, ?_, ?_⟩
    · intro h0 hd
      obtain ⟨hww, -, -⟩ := expand_outside_geometry s.center p s.radius _ h0 hd hexact
      rw [Sphere.ExpandWithPoint_outside fp s p h0 hd, Vector3.distanceSquared_add_left]
      exact hww
    · rcases lt_or_le s.radius 0 with hneg | h0
      · rw [Sphere.ExpandWithPoint_empty fp s p hneg]
        exact ⟨le_refl _, by rw [Vector3.distanceSquared_self]; norm_num⟩
      · rcases le_or_lt ((Vector3.sub p s.center).Length fp) s.radius with hd | hd
        · rw [Sphere.ExpandWithPoint_inside fp s p h0 hd]
          refine ⟨h0, ?_⟩
          rw [← hexact]
          exact mul_le_mul hd hd hnonneg h0
        · obtain ⟨-, hp, -⟩ := expand_outside_geometry s.center p s.radius _ h0 hd hexact
          rw [Sphere.ExpandWithPoint_outside fp s p h0 hd]
          exact ⟨by linarith, le_of_eq hp⟩
    · intro q hq
      obtain ⟨h0, hq⟩ := hq
      rcases le_or_lt ((Vector3.sub p s.center).Length fp) s.radius with hd | hd
      · rw [Sphere.ExpandWithPoint_inside fp s p h0 hd]
        exact ⟨h0, hq⟩
      · obtain ⟨-, -, hall⟩ := expand_outside_geometry s.center p s.radius _ h0 hd hexact
        rw [Sphere.ExpandWithPoint_outside fp s p h0 hd]
        exact ⟨by linarith, hall q hq⟩
  · intro q hq
    simp only [List.mem_cons, List.mem_singleton, List.not_mem_nil, or_false] at hq
    rcases hq with rfl | rfl | rfl <;>
      simp [Sphere.Contains, Vector3.distanceSquared, Vector3.sub, Vector3.dot] <;> norm_num
  · norm_num

/-- Witness of C20: over the reals, with the real square root, the sphere of
radius `5` at the origin and the unit sphere at the origin, each expanded by
the point `(1, 1, 1)` at the distance `sqrt 3`, contain that point and every
point of the sphere they come from. -/
theorem sphere_expandWithPoint_witness :
    ∃ fp : CMath ℝ, fp.ExactSqrt
      ∧ (Sphere.ExpandWithPoint fp ⟨Vector3.zero, 5⟩ ⟨1, 1, 1⟩).Contains ⟨1, 1, 1⟩
      ∧ (Sphere.ExpandWithPoint fp ⟨Vector3.zero, 1⟩ ⟨1, 1, 1⟩).Contains ⟨1, 1, 1⟩
      ∧ (∀ q, Sphere.Contains ⟨Vector3.zero, 1⟩ q →
          (Sphere.ExpandWithPoint fp ⟨Vector3.zero, 1⟩ ⟨1, 1, 1⟩).Contains q) :=
  ⟨⟨Real.sqrt, Real.cos, Real.sin, Real.tan, 2 * Real.pi⟩, exactSqrt_real,
    ((sphere_expandWithPoint _ ⟨Vector3.zero, 5⟩ ⟨1, 1, 1⟩).2.2.2.1 exactSqrt_real).2.2.2.1,
    ((sphere_expandWithPoint _ ⟨Vector3.zero, 1⟩ ⟨1, 1, 1⟩).2.2.2.1 exactSqrt_real).2.2.2.1,
    ((sphere_expandWithPoint _ ⟨Vector3.zero, 1⟩ ⟨1, 1, 1⟩).2.2.2.1 exactSqrt_real).2.2.2.2⟩

/-! ## Matrix3 -/

theorem Determinant_eq_triple (m : Matrix3) :
    Determinant m = Vector3.dot (Vector3.cross (m.column 0) (m.column 1)) (m.column 2) := by
  simp only [Determinant, Matrix3.entry, Matrix3.column, Vector3.get, Vector3.cross, Vector3.dot]
  ring

/-- The model reproduces the product the test `MultiplicationMatrix` expects. -/
theorem Matrix3.mul_test :
    Matrix3.mul (Matrix3.rowMajor 1 2 3 5 6 7 4 3 2) (Matrix3.rowMajor 1 5 1 2 1 3 1 5 4)
      = Matrix3.rowMajor 8 22 19 24 66 51 12 33 21 := by
  simp only [Matrix3.mul, Matrix3.rowMajor, Matrix3.entry, Matrix3.column, Vector3.get]
  norm_num

/-- The model reproduces the product the test `MultiplicationWithVector3` expects. -/
theorem Matrix3.mulVec_test :
    Matrix3.mulVec (Matrix3.rowMajor 1 2 3 5 6 7 4 3 2) ⟨1, 2, 3⟩ = ⟨14, 38, 16⟩ := by
  simp only [Matrix3.mulVec, Matrix3.rowMajor, Matrix3.entry, Matrix3.column, Vector3.get]
  norm_num

/-- The three determinants the tests expect. -/
theorem Determinant_tests :
    Determinant Matrix3.sample = 9
      ∧ Determinant (Matrix3.rowMajor 1 2 1 3 1 1 2 2 3) = -9
      ∧ Determinant (Matrix3.rowMajor 1 2 3 4 5 6 7 8 9) = 0 := by
  simp only [Determinant, Matrix3.sample, Matrix3.rowMajor, Matrix3.entry, Matrix3.column,
    Vector3.get]
  norm_num

/-- The inverse of the sample matrix, exactly. -/
theorem Inverse_sample :
    Inverse Matrix3.sample
      = Matrix3.rowMajor (13 / 9) (-11 / 9) (-5 / 9) (-7 / 9) (8 / 9) (2 / 9) (3 / 9) (-6 / 9)
          (3 / 9) := by
  simp only [Inverse, Matrix3.sample, Matrix3.rowMajor, Matrix3.column, Vector3.cross,
    Vector3.dot]
  norm_num

/-- The inverse of the sample matrix is within `0.01` of the matrix the test
`Inverse` expects. -/
theorem Inverse_sample_near :
    Matrix3.Near (Inverse Matrix3.sample)
      (Matrix3.rowMajor (144 / 100) (-122 / 100) (-55 / 100) (-77 / 100) (88 / 100) (22 / 100)
        (33 / 100) (-66 / 100) (33 / 100)) (1 / 100) := by
  rw [Inverse_sample]
  intro i j
  fin_cases i <;> fin_cases j <;>
    simp only [Matrix3.rowMajor, Matrix3.entry, Matrix3.column, Vector3.get] <;>
    rw [abs_le] <;> norm_num

theorem Inverse_mul_self (m : Matrix3) (h : Determinant m ≠ 0) :
    Matrix3.mul (Inverse m) m = Matrix3.Identity := by
  rw [Determinant_eq_triple] at h
  obtain ⟨⟨a, b, c⟩, ⟨d, e, f⟩, ⟨g, k, l⟩⟩ := m
  simp only [Matrix3.column, Vector3.cross, Vector3.dot] at h
  simp only [Matrix3.mul, Inverse, Matrix3.Identity, Matrix3.diagonal, Matrix3.rowMajor,
    Matrix3.entry, Matrix3.column, Vector3.get, Vector3.cross, Vector3.dot, Matrix3.mk.injEq,
    Vector3.mk.injEq]
  refine ⟨⟨?_, ?_, ?_⟩, ⟨?_, ?_, ?_⟩, ⟨?_, ?_, ?_⟩⟩ <;> field_simp <;> ring

/-- C21: for every `Matrix3` `m` whose determinant is not zero, the product
`Inverse(m) * m` is `Matrix3::Identity()`, exactly; in particular it is within
every tolerance `eps ≥ 0` of the identity, such as the `0.01` of the test. -/
theorem matrix3_inverse_mul (m : Matrix3) (h : Determinant m ≠ 0) :
    Matrix3.mul (Inverse m) m = Matrix3.Identity
      ∧ ∀ eps : ℚ, 0 ≤ eps → Matrix3.Near (Matrix3.mul (Inverse m) m) Matrix3.Identity eps := by
  refine ⟨Inverse_mul_self m h, ?_⟩
  intro eps heps i j
  rw [Inverse_mul_self m h, sub_self, abs_zero]
  exact heps

theorem matrix3_inverse_mul_witness :
    Determinant Matrix3.sample ≠ 0
      ∧ Matrix3.mul (Inverse Matrix3.sample) Matrix3.sample = Matrix3.Identity :=
  ⟨by rw [Determinant_tests.1]; norm_num,
    (matrix3_inverse_mul Matrix3.sample (by rw [Determinant_tests.1]; norm_num)).1⟩

theorem Determinant_dependent (m : Matrix3) (h : m.ColumnsDependent) : Determinant m = 0 := by
  obtain ⟨a, b, c, hne, h0⟩ := h
  obtain ⟨⟨p, q, r⟩, ⟨d, e, f⟩, ⟨g, k, l⟩⟩ := m
  simp only [Vector3.add, Vector3.scale, Vector3.zero, Vector3.mk.injEq] at h0
  obtain ⟨hx, hy, hz⟩ := h0
  simp only [Determinant, Matrix3.entry, Matrix3.column, Vector3.get]
  have ha : a * (p * (e * l - k * f) - d * (q * l - k * r) + g * (q * f - e * r)) = 0 := by
    linear_combination (e * l - k * f) * hx + (g * f - d * l) * hy + (d * k - g * e) * hz
  have hb : b * (p * (e * l - k * f) - d * (q * l - k * r) + g * (q * f - e * r)) = 0 := by
    linear_combination (k * r - q * l) * hx + (p * l - g * r) * hy + (g * q - p * k) * hz
  have hc : c * (p * (e * l - k * f) - d * (q * l - k * r) + g * (q * f - e * r)) = 0 := by
    linear_combination (q * f - e * r) * hx + (d * r - p * f) * hy + (p * e - d * q) * hz
  rcases hne with h1 | h1 | h1
  · exact (mul_eq_zero.1 ha).resolve_left h1
  · exact (mul_eq_zero.1 hb).resolve_left h1
  · exact (mul_eq_zero.1 hc).resolve_left h1

/-- The columns of the matrix of the test `DeterminantZero` are dependent:
the first minus twice the second plus the third is zero. -/
theorem columnsDependent_test : (Matrix3.rowMajor 1 2 3 4 5 6 7 8 9).ColumnsDependent := by
  refine ⟨1, -2, 1, Or.inl one_ne_zero, ?_⟩
  simp only [Matrix3.rowMajor, Vector3.add, Vector3.scale, Vector3.zero, Vector3.mk.injEq]
  norm_num

/-- C22: for every `Matrix3` `m`, `Determinant(m)` is the scalar triple product
`Dot(Cross(m[0], m[1]), m[2])` of its columns, where `m[j]` is column `j` of
the matrix written row by row in the constructor; a matrix whose columns are
linearly dependent has determinant `0`. -/
theorem matrix3_determinant_triple_product :
    (∀ m : Matrix3,
        Determinant m = Vector3.dot (Vector3.cross (m.column 0) (m.column 1)) (m.column 2))
      ∧ (∀ n00 n01 n02 n10 n11 n12 n20 n21 n22 : ℚ,
          (Matrix3.rowMajor n00 n01 n02 n10 n11 n12 n20 n21 n22).column 0 = ⟨n00, n10, n20⟩
          ∧ (Matrix3.rowMajor n00 n01 n02 n10 n11 n12 n20 n21 n22).column 1 = ⟨n01, n11, n21⟩
          ∧ (Matrix3.rowMajor n00 n01 n02 n10 n11 n12 n20 n21 n22).column 2 = ⟨n02, n12, n22⟩)
      ∧ (∀ m : Matrix3, m.ColumnsDependent → Determinant m = 0)
      ∧ Determinant Matrix3.sample = 9
      ∧ (Matrix3.rowMajor 1 2 3 4 5 6 7 8 9).ColumnsDependent
      ∧ Determinant (Matrix3.rowMajor 1 2 3 4 5 6 7 8 9) = 0 :=
  ⟨Determinant_eq_triple, fun _ _ _ _ _ _ _ _ _ => ⟨rfl, rfl, rfl⟩, Determinant_dependent,
    Determinant_tests.1, columnsDependent_test, Determinant_tests.2.2⟩

/-- C23: for every `Matrix3`: `m(i, j)` is the entry in row `i` and column `j`
of the constructor arguments given row by row, `m[j]` is column `j` with
`m[j][i] = m(i, j)`, every matrix is the one built from its entries,
`Transpose(m)(i, j) = m(j, i)`, transposing twice gives the matrix back, and
the transpose of the identity is the identity. -/
theorem matrix3_access_and_transpose :
    (∀ n00 n01 n02 n10 n11 n12 n20 n21 n22 : ℚ,
        (Matrix3.rowMajor n00 n01 n02 n10 n11 n12 n20 n21 n22).entry 0 0 = n00
        ∧ (Matrix3.rowMajor n00 n01 n02 n10 n11 n12 n20 n21 n22).entry 0 1 = n01
        ∧ (Matrix3.rowMajor n00 n01 n02 n10 n11 n12 n20 n21 n22).entry 0 2 = n02
        ∧ (Matrix3.rowMajor n00 n01 n02 n10 n11 n12 n20 n21 n22).entry 1 0 = n10
        ∧ (Matrix3.rowMajor n00 n01 n02 n10 n11 n12 n20 n21 n22).entry 1 1 = n11
        ∧ (Matrix3.rowMajor n00 n01 n02 n10 n11 n12 n20 n21 n22).entry 1 2 = n12
        ∧ (Matrix3.rowMajor n00 n01 n02 n10 n11 n12 n20 n21 n22).entry 2 0 = n20
        ∧ (Matrix3.rowMajor n00 n01 n02 n10 n11 n12 n20 n21 n22).entry 2 1 = n21
        ∧ (Matrix3.rowMajor n00 n01 n02 n10 n11 n12 n20 n21 n22).entry 2 2 = n22)
      ∧ (∀ m : Matrix3,
          m = Matrix3.rowMajor (m.entry 0 0) (m.entry 0 1) (m.entry 0 2) (m.entry 1 0)
            (m.entry 1 1) (m.entry 1 2) (m.entry 2 0) (m.entry 2 1) (m.entry 2 2))
      ∧ (∀ (m : Matrix3) (j : Fin 3),
          m.column j.val = ⟨m.entry 0 j.val, m.entry 1 j.val, m.entry 2 j.val⟩)
      ∧ (∀ (m : Matrix3) (i j : Fin 3), (m.column j.val).get i.val = m.entry i.val j.val)
      ∧ (∀ (m : Matrix3) (i j : Fin 3), (Transpose m).entry i.val j.val = m.entry j.val i.val)
      ∧ (∀ m : Matrix3, Transpose (Transpose m) = m)
      ∧ Transpose Matrix3.Identity = Matrix3.Identity
      ∧ Transpose (Matrix3.rowMajor 1 2 3 4 5 6 7 8 9) = Matrix3.rowMajor 1 4 7 2 5 8 3 6 9 := by
  refine ⟨fun _ _ _ _ _ _ _ _ _ => ⟨rfl, rfl, rfl, rfl, rfl, rfl, rfl, rfl, rfl⟩, fun m => rfl,
    ?_, fun _ _ _ => rfl, ?_, fun m => rfl, rfl, rfl⟩
  · intro m j
    fin_cases j <;> rfl
  · intro m i j
    fin_cases i <;> fin_cases j <;> rfl

/-- C24: `math::Lerp(a, b, t)` is `a + (b - a) * t` for every factor `t`,
without clamping: it is `a` at `0`, `b` at `1`, the midpoint at `1/2`, it lies
strictly outside the interval between `a` and `b` when `a ≠ b` and `t` is
outside `[0, 1]`, and the tests' values come out. -/
theorem lerp_unclamped :
    (∀ a b t : ℚ, Lerp a b t = a + (b - a) * t)
      ∧ (∀ a b : ℚ, Lerp a b 0 = a ∧ Lerp a b 1 = b ∧ Lerp a b (1 / 2) = (a + b) / 2)
      ∧ (∀ a b t : ℚ, a < b → t < 0 → Lerp a b t < a)
      ∧ (∀ a b t : ℚ, a < b → 1 < t → b < Lerp a b t)
      ∧ (∀ a b t : ℚ, b < a → t < 0 → a < Lerp a b t)
      ∧ (∀ a b t : ℚ, b < a → 1 < t → Lerp a b t < b)
      ∧ Lerp 0 1 (-1 / 2) = -1 / 2 ∧ Lerp 0 1 (3 / 2) = 3 / 2
      ∧ Lerp 0 1 (1 / 2) = 1 / 2 ∧ Lerp (-1) 1 (1 / 2) = 0 ∧ Lerp (-1) (-2) (1 / 2) = -3 / 2 := by
  refine ⟨fun _ _ _ => rfl, ?_, ?_, ?_, ?_, ?_, ?_, ?_, ?_, ?_, ?_⟩
  · intro a b
    refine ⟨?_, ?_, ?_⟩ <;> simp only [Lerp] <;> ring
  · intro a b t hab ht
    simp only [Lerp]
    nlinarith [mul_pos (sub_pos.2 hab) (neg_pos.2 ht)]
  · intro a b t hab ht
    simp only [Lerp]
    nlinarith [mul_pos (sub_pos.2 hab) (sub_pos.2 ht)]
  · intro a b t hab ht
    simp only [Lerp]
    nlinarith [mul_pos (sub_pos.2 hab) (neg_pos.2 ht)]
  · intro a b t hab ht
    simp only [Lerp]
    nlinarith [mul_pos (sub_pos.2 hab) (sub_pos.2 ht)]
  all_goals (simp only [Lerp]; norm_num)

/-! ## The debug cone of a spot light -/

theorem UpdateDebugMesh_eq {K : Type} [LinearOrderedField K]
    (fp : CMath K) (self : SpotLight K) (cone : Mesh K)
    (material : FlatMaterial K) (hc : self.impl_.cone = some cone)
    (hm : self.impl_.material = some material) :
    UpdateDebugMesh fp self
      = some { self with
          impl_ :=
            ⟨some { cone with
                look_at := some self.targetWorldPosition,
                scale :=
                  ⟨fp.tan self.angle
                      * (Vector3.distance fp self.GetWorldPosition self.targetWorldPosition + 1),
                    fp.tan self.angle
                      * (Vector3.distance fp self.GetWorldPosition self.targetWorldPosition + 1),
                    Vector3.distance fp self.GetWorldPosition self.targetWorldPosition + 1⟩ },
              some { material with color := self.color }⟩ } := by
  simp only [UpdateDebugMesh, hc, hm, Mesh.LookAt, Mesh.SetScale, SpotLight.targetWorldPosition,
    Vector3.distance]

theorem UpdateDebugMesh_none {K : Type} [LinearOrderedField K] (fp : CMath K) (self : SpotLight K)
    (h : self.impl_.cone = none ∨ self.impl_.material = none) : UpdateDebugMesh fp self = none := by
  unfold UpdateDebugMesh
  rcases h with h | h
  · simp only [h]
  · rw [h]
    cases self.impl_.cone <;> rfl

theorem CreateDebugMesh_eq {K : Type} [LinearOrderedField K]
    (fp : CMath K) (self : SpotLight K) (fresh : Nat) :
    CreateDebugMesh fp self fresh
      = some { self with
          children := self.children ++ [fresh],
          impl_ :=
            ⟨some
                { id := fresh,
                  geometry :=
                    { (Geometry.Create (conePoints fp) []).SetAttribute
                        ⟨GeometryAttributeType.Position, 3⟩ with
                      name := "directional light line",
                      primitive := GeometryPrimitiveType.Lines },
                  transform_auto_update := false,
                  look_at := some self.targetWorldPosition,
                  scale :=
                    ⟨fp.tan self.angle
                        * (Vector3.distance fp self.GetWorldPosition self.targetWorldPosition + 1),
                      fp.tan self.angle
                        * (Vector3.distance fp self.GetWorldPosition self.targetWorldPosition + 1),
                      Vector3.distance fp self.GetWorldPosition self.targetWorldPosition + 1⟩ },
              some ⟨self.color, true, true, false⟩⟩ } := by
  rfl

theorem sqrt_rational_nonneg (x : ℚ) : 0 ≤ CMath.rational.sqrt x := Rat.sqrt_nonneg x

/-- C25: whenever the debug cone is created (`CreateDebugMesh`) or updated
(`UpdateDebugMesh` with a cone and a material held), the cone is oriented by
`LookAt(t)` and scaled by `(tan(angle) * L, tan(angle) * L, L)` with
`L = distance(light world position, t) + 1`, where `t` is the world position
of the target, or the origin without a target; the `x` and `y` scales are
equal, and `L ≥ 1` as the square root is never negative. -/
theorem debugCone_lookAt_and_scale {K : Type} [LinearOrderedField K]
    (fp : CMath K) (self : SpotLight K)
    (hsqrt : ∀ x : K, 0 ≤ fp.sqrt x) :
    (∀ cone material, self.impl_.cone = some cone → self.impl_.material = some material →
        ∃ s cone1, UpdateDebugMesh fp self = some s ∧ s.impl_.cone = some cone1
          ∧ cone1.look_at = some self.targetWorldPosition
          ∧ cone1.scale
              = ⟨fp.tan self.angle
                    * (Vector3.distance fp self.GetWorldPosition self.targetWorldPosition + 1),
                  fp.tan self.angle
                    * (Vector3.distance fp self.GetWorldPosition self.targetWorldPosition + 1),
                  Vector3.distance fp self.GetWorldPosition self.targetWorldPosition + 1⟩
          ∧ cone1.scale.x = cone1.scale.y)
      ∧ (∀ fresh : Nat,
        ∃ s cone1, CreateDebugMesh fp self fresh = some s ∧ s.impl_.cone = some cone1
          ∧ cone1.look_at = some self.targetWorldPosition
          ∧ cone1.scale
              = ⟨fp.tan self.angle
                    * (Vector3.distance fp self.GetWorldPosition self.targetWorldPosition + 1),
                  fp.tan self.angle
                    * (Vector3.distance fp self.GetWorldPosition self.targetWorldPosition + 1),
                  Vector3.distance fp self.GetWorldPosition self.targetWorldPosition + 1⟩
          ∧ cone1.scale.x = cone1.scale.y)
      ∧ (∀ target : Node K, self.target = some target →
          self.targetWorldPosition = target.GetWorldPosition)
      ∧ (self.target = none → self.targetWorldPosition = Vector3.zero)
      ∧ Vector3.distance fp self.GetWorldPosition self.targetWorldPosition
          = fp.sqrt (Vector3.distanceSquared self.targetWorldPosition self.GetWorldPosition)
      ∧ 1 ≤ Vector3.distance fp self.GetWorldPosition self.targetWorldPosition + 1 := by
  refine ⟨?_, ?_, ?_, ?_, rfl, ?_⟩
  · intro cone material hc hm
    exact ⟨_, _, UpdateDebugMesh_eq fp self cone material hc hm, rfl, rfl, rfl, rfl⟩
  · intro fresh
    exact ⟨_, _, CreateDebugMesh_eq fp self fresh, rfl, rfl, rfl, rfl⟩
  · intro target h
    simp only [SpotLight.targetWorldPosition, h]
  · intro h
    simp only [SpotLight.targetWorldPosition, h]
  · have h := hsqrt (Vector3.dot
      (Vector3.sub self.targetWorldPosition self.GetWorldPosition)
      (Vector3.sub self.targetWorldPosition self.GetWorldPosition))
    simp only [Vector3.distance, Vector3.Length]
    linarith

theorem debugCone_lookAt_and_scale_witness :
    (∀ x : ℚ, 0 ≤ CMath.rational.sqrt x)
      ∧ 1 ≤ Vector3.distance CMath.rational sampleLightOn.GetWorldPosition
          sampleLightOn.targetWorldPosition + 1 :=
  ⟨sqrt_rational_nonneg,
    (debugCone_lookAt_and_scale CMath.rational sampleLightOn sqrt_rational_nonneg).2.2.2.2.2⟩

/-- C26: `OnUpdate(delta)` with debug mode off returns the light unchanged;
with debug mode on (a cone and a material are held) it sets the look-at target
and the scale of the cone anew and the colour of the material to the current
colour of the light, whatever the colour of the material was, and changes
nothing else: children, colour, angle, target and debug flag of the light and
the other members of cone and material stay; the result is the same for every
`delta`. -/
theorem spotLight_onUpdate {K : Type} [LinearOrderedField K]
    (fp : CMath K) (self : SpotLight K) (delta : K) :
    (self.debug_mode_enabled_ = false → self.OnUpdate fp delta = some self)
      ∧ (self.debug_mode_enabled_ = true →
        ∀ cone material, self.impl_.cone = some cone → self.impl_.material = some material →
          ∃ s cone1 material1, self.OnUpdate fp delta = some s
            ∧ s = { self with impl_ := ⟨some cone1, some material1⟩ }
            ∧ cone1 = { cone with
                look_at := some self.targetWorldPosition,
                scale :=
                  ⟨fp.tan self.angle
                      * (Vector3.distance fp self.GetWorldPosition self.targetWorldPosition + 1),
                    fp.tan self.angle
                      * (Vector3.distance fp self.GetWorldPosition self.targetWorldPosition + 1),
                    Vector3.distance fp self.GetWorldPosition self.targetWorldPosition + 1⟩ }
            ∧ material1 = { material with color := self.color }
            ∧ material1.color = s.color
            ∧ s.children = self.children ∧ s.color = self.color ∧ s.angle = self.angle
            ∧ s.target = self.target ∧ s.debug_mode_enabled_ = true
            ∧ s.debugChildCount = self.debugChildCount)
      ∧ (∀ delta1 : K, self.OnUpdate fp delta1 = self.OnUpdate fp delta) := by
  refine ⟨?_, ?_, fun _ => rfl⟩
  · intro h
    unfold SpotLight.OnUpdate
    rw [if_neg (by simp [h])]
  · intro h cone material hc hm
    refine ⟨_, _, _, ?_, rfl, rfl, rfl, rfl, rfl, rfl, rfl, rfl, h, ?_⟩
    · unfold SpotLight.OnUpdate
      rw [if_pos h]
      exact UpdateDebugMesh_eq fp self cone material hc hm
    · simp only [SpotLight.debugChildCount, hc]

/-- On the sample light with debug mode on, whose material is white while the
light is red, `OnUpdate` turns the material red and keeps the three children. -/
theorem onUpdate_sample :
    ∃ s material, sampleLightOn.OnUpdate CMath.rational 1 = some s
      ∧ s.impl_.material = some material ∧ material.color = ⟨1, 0, 0⟩
      ∧ (FlatMaterial.Create : FlatMaterial ℚ).color = ⟨1, 1, 1⟩ ∧ s.children = [7, 8, 9] := by
  have h := UpdateDebugMesh_eq CMath.rational sampleLightOn _ _ rfl rfl
  have h1 : sampleLightOn.OnUpdate CMath.rational 1
      = UpdateDebugMesh CMath.rational sampleLightOn := by
    unfold SpotLight.OnUpdate
    exact if_pos rfl
  exact ⟨_, _, h1.trans h, rfl, rfl, rfl, rfl⟩

/-! ## The points of the debug cone -/

theorem circleLoop_eq {K : Type} [LinearOrderedField K] (fp : CMath K) (pts : List K) (n : Nat) :
    forLoop n (circleBody fp circle_line_segments) ⟨1, pts⟩
      = ⟨n + 1, pts ++ blocks n (circleSegment fp)⟩ := by
  induction n with
  | zero => simp [forLoop, blocks]
  | succ n ih =>
    show circleBody fp circle_line_segments n (forLoop n (circleBody fp circle_line_segments) ⟨1, pts⟩) = _
    rw [ih, blocks_succ]
    simp only [circleBody, circleSegment, List.append_assoc]

theorem conePoints_eq {K : Type} [LinearOrderedField K] (fp : CMath K) :
    conePoints fp = apexLines ++ blocks circle_line_segments (circleSegment fp) := by
  unfold conePoints
  exact congrArg CircleLoop.points (circleLoop_eq fp apexLines circle_line_segments)

theorem circleSegment_length {K : Type} [LinearOrderedField K]
    (fp : CMath K) (i : Nat) : (circleSegment fp i).length = 6 := rfl

theorem conePoints_length {K : Type} [LinearOrderedField K]
    (fp : CMath K) : (conePoints fp).length = 414 := by
  rw [conePoints_eq, List.length_append, blocks_length _ 6 (circleSegment_length fp)]
  rfl

theorem conePoints_getD_apex {K : Type} [LinearOrderedField K]
    (fp : CMath K) (n : Nat) (hn : n < 30) :
    (conePoints fp).getD n 0 = apexLines.getD n 0 := by
  rw [conePoints_eq]
  simp only [List.getD_eq_getElem?_getD]
  rw [List.getElem?_append_left (by simpa [apexLines] using hn)]

theorem conePoints_getD_circle {K : Type} [LinearOrderedField K]
    (fp : CMath K) (i j : Nat) (hi : i < 64) (hj : j < 6) :
    (conePoints fp).getD (6 * (5 + i) + j) 0 = (circleSegment fp i).getD j 0 := by
  rw [conePoints_eq]
  have h30 : (apexLines : List K).length = 30 := rfl
  have hidx : 6 * (5 + i) + j = (apexLines : List K).length + (i * 6 + j) := by
    rw [h30]; ring
  rw [hidx]
  simp only [List.getD_eq_getElem?_getD]
  rw [List.getElem?_append_right (Nat.le_add_right _ _), Nat.add_sub_cancel_left]
  have := blocks_getD (circleSegment fp) 6 (circleSegment_length fp) 0 circle_line_segments i j
    hi hj
  simpa only [List.getD_eq_getElem?_getD] using this

theorem segment_apex {K : Type} [LinearOrderedField K] (fp : CMath K) :
    (∀ k, k < 5 → segmentStart (conePoints fp) k = ⟨0, 0, 0⟩ ∧ (segmentEnd (conePoints fp) k).z = 1)
      ∧ segmentEnd (conePoints fp) 0 = ⟨0, 0, 1⟩
      ∧ segmentEnd (conePoints fp) 1 = ⟨1, 0, 1⟩
      ∧ segmentEnd (conePoints fp) 2 = ⟨-1, 0, 1⟩
      ∧ segmentEnd (conePoints fp) 3 = ⟨0, 1, 1⟩
      ∧ segmentEnd (conePoints fp) 4 = ⟨0, -1, 1⟩ := by
  refine ⟨?_, ?_, ?_, ?_, ?_, ?_⟩
  · intro k hk
    interval_cases k <;>
      simp only [segmentStart, segmentEnd] <;>
      (repeat rw [conePoints_getD_apex fp _ (by norm_num)]) <;>
      simp [apexLines]
  all_goals
    simp only [segmentEnd]
    (repeat rw [conePoints_getD_apex fp _ (by norm_num)])
    simp [apexLines]

theorem segment_circle {K : Type} [LinearOrderedField K] (fp : CMath K) (i : Nat) (hi : i < 64) :
    segmentStart (conePoints fp) (5 + i) = circlePoint fp i
      ∧ segmentEnd (conePoints fp) (5 + i) = circlePoint fp (i + 1) := by
  have h0 := conePoints_getD_circle fp i 0 hi (by norm_num)
  have h1 := conePoints_getD_circle fp i 1 hi (by norm_num)
  have h2 := conePoints_getD_circle fp i 2 hi (by norm_num)
  have h3 := conePoints_getD_circle fp i 3 hi (by norm_num)
  have h4 := conePoints_getD_circle fp i 4 hi (by norm_num)
  have h5 := conePoints_getD_circle fp i 5 hi (by norm_num)
  rw [Nat.add_zero] at h0
  constructor
  · simp only [segmentStart, h0, h1, h2]
    rfl
  · simp only [segmentEnd, h3, h4, h5]
    rfl

theorem circlePoint_closed {K : Type} [LinearOrderedField K] (fp : CMath K)
    (hperiod : fp.cos fp.two_pi = fp.cos 0 ∧ fp.sin fp.two_pi = fp.sin 0) :
    circlePoint fp 64 = circlePoint fp 0 := by
  have h64 : ((64 : Nat) : K) / ((circle_line_segments : Nat) : K) * fp.two_pi = fp.two_pi := by
    simp [circle_line_segments]
  have h0 : ((0 : Nat) : K) / ((circle_line_segments : Nat) : K) * fp.two_pi = 0 := by
    simp
  simp only [circlePoint, h64, h0, hperiod.1, hperiod.2]

theorem trig_rational :
    (∀ x : ℚ, CMath.rational.cos x * CMath.rational.cos x
        + CMath.rational.sin x * CMath.rational.sin x = 1)
      ∧ CMath.rational.cos CMath.rational.two_pi = CMath.rational.cos 0
      ∧ CMath.rational.sin CMath.rational.two_pi = CMath.rational.sin 0 := by
  refine ⟨fun x => ?_, rfl, rfl⟩
  simp [CMath.rational]

theorem CreateDebugMesh_cone {K : Type} [LinearOrderedField K]
    (fp : CMath K) (self : SpotLight K) (fresh : Nat) :
    ∃ s cone material, CreateDebugMesh fp self fresh = some s
      ∧ s.impl_ = ⟨some cone, some material⟩
      ∧ cone.geometry
          = ⟨conePoints fp, [], [⟨GeometryAttributeType.Position, 3⟩], GeometryPrimitiveType.Lines,
              0, "directional light line", none, none, false⟩
      ∧ cone.transform_auto_update = false
      ∧ material = ⟨self.color, true, true, false⟩ :=
  ⟨_, _, _, CreateDebugMesh_eq fp self fresh, rfl, rfl, rfl, rfl⟩


/-- C27: the mesh `CreateDebugMesh` builds has 414 floats of vertex data under
the single attribute `Position:3` (138 vertices, 69 segments), the primitive
`Lines`, no indices and `transform_auto_update = false`; segments 0 to 4 run
from the apex to `(0,0,1)`, `(1,0,1)`, `(-1,0,1)`, `(0,1,1)`, `(0,-1,1)`;
circle segment `i < 64` joins the circle points `i` and `i + 1`, which lie on
the unit circle in the plane `z = 1`; consecutive segments share a point and
the last one ends where the first one starts; the material is two-sided,
wireframe, without fog and has the colour of the light. -/
theorem debugMesh_geometry_and_material {K : Type} [LinearOrderedField K]
    (fp : CMath K) (self : SpotLight K) (fresh : Nat)
    (hcircle : ∀ x : K, fp.cos x * fp.cos x + fp.sin x * fp.sin x = 1)
    (hperiod : fp.cos fp.two_pi = fp.cos 0 ∧ fp.sin fp.two_pi = fp.sin 0) :
    ∃ s cone material, CreateDebugMesh fp self fresh = some s
      ∧ s.impl_ = ⟨some cone, some material⟩
      ∧ cone.geometry.vertex_data_ = conePoints fp
      ∧ cone.geometry.vertex_data_.length = 5 * 6 + 64 * 6
      ∧ cone.geometry.vertex_data_.length = 414
      ∧ cone.geometry.attributes_ = [⟨GeometryAttributeType.Position, 3⟩]
      ∧ cone.geometry.VertexCount = 138
      ∧ cone.geometry.VertexCount = 2 * 69
      ∧ cone.geometry.primitive = GeometryPrimitiveType.Lines
      ∧ cone.geometry.index_data_ = []
      ∧ cone.transform_auto_update = false
      ∧ (∀ k, k < 5 → segmentStart cone.geometry.vertex_data_ k = ⟨0, 0, 0⟩
          ∧ (segmentEnd cone.geometry.vertex_data_ k).z = 1)
      ∧ segmentEnd cone.geometry.vertex_data_ 0 = ⟨0, 0, 1⟩
      ∧ segmentEnd cone.geometry.vertex_data_ 1 = ⟨1, 0, 1⟩
      ∧ segmentEnd cone.geometry.vertex_data_ 2 = ⟨-1, 0, 1⟩
      ∧ segmentEnd cone.geometry.vertex_data_ 3 = ⟨0, 1, 1⟩
      ∧ segmentEnd cone.geometry.vertex_data_ 4 = ⟨0, -1, 1⟩
      ∧ (∀ i, i < 64 →
          segmentStart cone.geometry.vertex_data_ (5 + i)
              = ⟨fp.cos ((i : K) / 64 * fp.two_pi), fp.sin ((i : K) / 64 * fp.two_pi), 1⟩
          ∧ segmentEnd cone.geometry.vertex_data_ (5 + i)
              = ⟨fp.cos (((i + 1 : Nat) : K) / 64 * fp.two_pi),
                  fp.sin (((i + 1 : Nat) : K) / 64 * fp.two_pi), 1⟩
          ∧ (segmentStart cone.geometry.vertex_data_ (5 + i)).x
                * (segmentStart cone.geometry.vertex_data_ (5 + i)).x
              + (segmentStart cone.geometry.vertex_data_ (5 + i)).y
                * (segmentStart cone.geometry.vertex_data_ (5 + i)).y = 1
          ∧ (segmentStart cone.geometry.vertex_data_ (5 + i)).z = 1
          ∧ (segmentEnd cone.geometry.vertex_data_ (5 + i)).x
                * (segmentEnd cone.geometry.vertex_data_ (5 + i)).x
              + (segmentEnd cone.geometry.vertex_data_ (5 + i)).y
                * (segmentEnd cone.geometry.vertex_data_ (5 + i)).y = 1
          ∧ (segmentEnd cone.geometry.vertex_data_ (5 + i)).z = 1)
      ∧ (∀ i, i + 1 < 64 →
          segmentEnd cone.geometry.vertex_data_ (5 + i)
            = segmentStart cone.geometry.vertex_data_ (5 + (i + 1)))
      ∧ segmentEnd cone.geometry.vertex_data_ (5 + 63) = segmentStart cone.geometry.vertex_data_ 5
      ∧ material.two_sided = true ∧ material.wireframe = true ∧ material.fog = false
      ∧ material.color = self.color := by
  obtain ⟨s, cone, material, hs, himpl, hgeom, hauto, hmat⟩ := CreateDebugMesh_cone fp self fresh
  have hvd : cone.geometry.vertex_data_ = conePoints fp := by rw [hgeom]
  have hattr : cone.geometry.attributes_ = [⟨GeometryAttributeType.Position, 3⟩] := by
    rw [hgeom]
  have hlen := conePoints_length fp
  have hapex := segment_apex fp
  have hcount : cone.geometry.VertexCount = 138 := by
    unfold Geometry.VertexCount Geometry.Stride
    rw [hattr, hvd, hlen]
    rfl
  refine ⟨s, cone, material, hs, himpl, hvd, ?_, ?_, hattr, hcount, hcount, ?_, ?_, hauto, ?_⟩
  · rw [hvd, hlen]
  · rw [hvd, hlen]
  · rw [hgeom]
  · rw [hgeom]
  rw [hvd, hmat]
  refine ⟨hapex.1, hapex.2.1, hapex.2.2.1, hapex.2.2.2.1, hapex.2.2.2.2.1, hapex.2.2.2.2.2,
    ?_, ?_, ?_, rfl, rfl, rfl, rfl⟩
  · intro i hi
    have hseg := segment_circle fp i hi
    rw [hseg.1, hseg.2]
    refine ⟨?_, ?_, hcircle _, rfl, hcircle _, rfl⟩
    · simp [circlePoint, circle_line_segments]
    · simp [circlePoint, circle_line_segments]
  · intro i hi
    rw [(segment_circle fp i (by omega)).2, (segment_circle fp (i + 1) hi).1]
  · rw [(segment_circle fp 63 (by norm_num)).2, (segment_circle fp 0 (by norm_num)).1]
    exact circlePoint_closed fp hperiod

theorem debugMesh_geometry_and_material_witness :
    ∃ s cone material, CreateDebugMesh CMath.rational sampleLight 9 = some s
      ∧ s.impl_ = ⟨some cone, some material⟩
      ∧ cone.geometry.vertex_data_.length = 414
      ∧ segmentEnd cone.geometry.vertex_data_ (5 + 63) = segmentStart cone.geometry.vertex_data_ 5
      ∧ material.color = sampleLight.color := by
  obtain ⟨s, cone, material, h1, h2, _, _, h3, _, _, _, _, _, _, _, _, _, _, _, _, _, _, h4, _, _,
    _, h5⟩ := debugMesh_geometry_and_material CMath.rational sampleLight 9 trig_rational.1
      trig_rational.2
  exact ⟨s, cone, material, h1, h2, h3, h4, h5⟩

/-! ## Range of the indices of a box -/

theorem mem_blocks {α : Type} (f : Nat → List α) (n : Nat) (x : α) :
    x ∈ blocks n f ↔ ∃ i, i < n ∧ x ∈ f i := by
  induction n with
  | zero => simp [blocks_zero]
  | succ n ih =>
    rw [blocks_succ, List.mem_append, ih]
    constructor
    · rintro (⟨i, hi, hx⟩ | hx)
      · exact ⟨i, Nat.lt_succ_of_lt hi, hx⟩
      · exact ⟨n, Nat.lt_succ_self n, hx⟩
    · rintro ⟨i, hi, hx⟩
      rcases Nat.lt_succ_iff_lt_or_eq.1 hi with h | h
      · exact Or.inl ⟨i, h, hx⟩
      · exact Or.inr (h ▸ hx)

theorem latticeIndex_ge (p : PlaneParameters) (s iy ix : Nat) : s ≤ latticeIndex p s iy ix := by
  unfold latticeIndex
  omega

theorem mem_planeIndices (p : PlaneParameters) (s i : Nat) (h : i ∈ planeIndices p s) :
    s ≤ i ∧ i < s + planeVertexCount p := by
  unfold planeIndices at h
  obtain ⟨iy, hiy, h⟩ := (mem_blocks _ _ _).1 h
  obtain ⟨ix, hix, h⟩ := (mem_blocks _ _ _).1 h
  simp only [cellIndices, List.mem_cons, List.mem_singleton, List.not_mem_nil, or_false] at h
  rcases h with h | h | h | h | h | h <;> subst h <;>
    exact ⟨latticeIndex_ge _ _ _ _, latticeIndex_lt _ _ _ _ (by omega) (by omega)⟩

theorem mem_allIndices (calls : List PlaneParameters) (s i : Nat) (h : i ∈ allIndices s calls) :
    s ≤ i ∧ i < s + vertexTotal calls := by
  induction calls generalizing s with
  | nil => simp [allIndices] at h
  | cons p ps ih =>
    simp only [allIndices, List.mem_append] at h
    simp only [vertexTotal]
    rcases h with h | h
    · have := mem_planeIndices p s i h
      omega
    · have := ih _ h
      omega

theorem buildPlanes_invariant (calls : List PlaneParameters) (self : BoxGeometry)
    (h : self.vertex_counter_ * 8 = self.geometry.vertex_data_.length) :
    (buildPlanes self calls).vertex_counter_ * 8
      = (buildPlanes self calls).geometry.vertex_data_.length := by
  induction calls generalizing self with
  | nil => exact h
  | cons p ps ih =>
    show (buildPlanes (BuildPlane self p) ps).vertex_counter_ * 8 = _
    apply ih
    rw [BuildPlane_counter, BuildPlane_vertex_length]
    omega

theorem buildPlanes_counter (calls : List PlaneParameters) (self : BoxGeometry) :
    (buildPlanes self calls).vertex_counter_ = self.vertex_counter_ + vertexTotal calls := by
  rw [buildPlanes_eq]

theorem buildPlanes_append (ps qs : List PlaneParameters) (self : BoxGeometry) :
    buildPlanes self (ps ++ qs) = buildPlanes (buildPlanes self ps) qs := by
  simp only [buildPlanes, List.foldl_append]

theorem triangle_in_plane (p : PlaneParameters) (s : Nat) (t : Nat × Nat × Nat)
    (h : t ∈ triangles (planeIndices p s)) :
    (s ≤ t.1 ∧ t.1 < s + planeVertexCount p) ∧ (s ≤ t.2.1 ∧ t.2.1 < s + planeVertexCount p)
      ∧ (s ≤ t.2.2 ∧ t.2.2 < s + planeVertexCount p) := by
  obtain ⟨iy, ix, hiy, hix, h | h⟩ := (mem_triangles_planeIndices p s t).1 h <;> subst h <;>
    exact ⟨⟨latticeIndex_ge _ _ _ _, latticeIndex_lt _ _ _ _ (by omega) (by omega)⟩,
      ⟨latticeIndex_ge _ _ _ _, latticeIndex_lt _ _ _ _ (by omega) (by omega)⟩,
      ⟨latticeIndex_ge _ _ _ _, latticeIndex_lt _ _ _ _ (by omega) (by omega)⟩⟩

theorem init_invariant :
    (⟨Geometry.empty, 0, "box geometry"⟩ : BoxGeometry).vertex_counter_ * 8
      = (⟨Geometry.empty, 0, "box geometry"⟩ : BoxGeometry).geometry.vertex_data_.length := rfl

/-- C28: for a box with positive extents and segment counts of at least one,
every entry of `index_data` is below `VertexCount()`.  Every `BuildPlane` call
appends indices that lie in `[s, s + (grid_x+1)(grid_y+1))`, `s` being the
value of `vertex_counter_` on entry, and keeps `vertex_counter_ * 8 =
len(vertex_data)`; at the call of the constructor that follows the planes `ps`
the counter is the number of vertices of `ps`, and the three corners of every
triangle lie in the vertex range of one and the same face. -/
theorem box_indices_in_range (params : Parameters) (hw : 0 < params.width)
    (hh : 0 < params.height) (hd : 0 < params.depth) (hsx : 1 ≤ params.width_segments)
    (hsy : 1 ≤ params.height_segments) (hsz : 1 ≤ params.depth_segments) :
    ∃ box, BoxGeometry.new params = some box
      ∧ (∀ i ∈ box.geometry.index_data_, i < box.geometry.VertexCount)
      ∧ (∀ (self : BoxGeometry) (p : PlaneParameters),
          (∃ appended,
            (BuildPlane self p).geometry.index_data_ = self.geometry.index_data_ ++ appended
              ∧ ∀ i ∈ appended, self.vertex_counter_ ≤ i
                  ∧ i < self.vertex_counter_ + (p.grid_x + 1) * (p.grid_y + 1))
          ∧ (BuildPlane self p).vertex_counter_
              = self.vertex_counter_ + (p.grid_x + 1) * (p.grid_y + 1)
          ∧ (self.vertex_counter_ * 8 = self.geometry.vertex_data_.length →
              (BuildPlane self p).vertex_counter_ * 8
                = (BuildPlane self p).geometry.vertex_data_.length))
      ∧ (∀ (ps qs : List PlaneParameters) (p : PlaneParameters),
          planeCalls params = ps ++ p :: qs →
            (buildPlanes ⟨Geometry.empty, 0, "box geometry"⟩ ps).vertex_counter_ = vertexTotal ps
            ∧ (buildPlanes ⟨Geometry.empty, 0, "box geometry"⟩ ps).vertex_counter_ * 8
                = (buildPlanes ⟨Geometry.empty, 0, "box geometry"⟩ ps).geometry.vertex_data_.length
            ∧ (buildPlanes ⟨Geometry.empty, 0, "box geometry"⟩ (ps ++ [p])).vertex_counter_ * 8
                = (buildPlanes ⟨Geometry.empty, 0, "box geometry"⟩
                    (ps ++ [p])).geometry.vertex_data_.length
            ∧ vertexTotal ps + planeVertexCount p ≤ box.geometry.VertexCount)
      ∧ box = SetAttributes (buildPlanes ⟨Geometry.empty, 0, "box geometry"⟩ (planeCalls params))
      ∧ (∀ t ∈ triangles box.geometry.index_data_,
          ∃ ps p qs, planeCalls params = ps ++ p :: qs
            ∧ (vertexTotal ps ≤ t.1 ∧ t.1 < vertexTotal ps + planeVertexCount p)
            ∧ (vertexTotal ps ≤ t.2.1 ∧ t.2.1 < vertexTotal ps + planeVertexCount p)
            ∧ (vertexTotal ps ≤ t.2.2 ∧ t.2.2 < vertexTotal ps + planeVertexCount p)) := by
  refine ⟨construct params, new_eq_some params hw hh hd hsx hsy hsz, ?_, ?_, ?_, rfl, ?_⟩
  · intro i hi
    rw [construct_index_data_eq] at hi
    rw [construct_VertexCount, construct_counter_eq]
    have := mem_allIndices _ _ _ hi
    omega
  · intro self p
    refine ⟨⟨planeIndices p self.vertex_counter_, BuildPlane_index_data self p, ?_⟩,
      BuildPlane_counter self p, ?_⟩
    · intro i hi
      exact mem_planeIndices p _ i hi
    · intro h
      rw [BuildPlane_counter, BuildPlane_vertex_length]
      unfold planeVertexCount
      omega
  · intro ps qs p hcalls
    refine ⟨?_, buildPlanes_invariant ps _ init_invariant,
      buildPlanes_invariant (ps ++ [p]) _ init_invariant, ?_⟩
    · rw [buildPlanes_counter]
      exact Nat.zero_add _
    · rw [construct_VertexCount, construct_counter_eq, hcalls, vertexTotal_append]
      simp only [vertexTotal]
      omega
  · intro t ht
    rw [construct_index_data_eq] at ht
    obtain ⟨ps, p, qs, hcalls, ht⟩ := (mem_triangles_allIndices 0 _ t).1 ht
    rw [Nat.zero_add] at ht
    exact ⟨ps, p, qs, hcalls, triangle_in_plane p _ t ht⟩

theorem box_indices_in_range_witness :
    ∃ box, BoxGeometry.new sampleBox = some box
      ∧ ∀ i ∈ box.geometry.index_data_, i < box.geometry.VertexCount := by
  obtain ⟨box, h1, h2, _⟩ := box_indices_in_range sampleBox (by norm_num [sampleBox])
    (by norm_num [sampleBox]) (by norm_num [sampleBox]) (by norm_num [sampleBox])
    (by norm_num [sampleBox]) (by norm_num [sampleBox])
  exact ⟨box, h1, h2⟩

/-- C29: for a box with segment counts `(sx, sy, sz)`, each at least one, the
length of `index_data` is `12 * (sx*sy + sy*sz + sz*sx)`; every `BuildPlane`
call appends exactly `6 * grid_x * grid_y` indices, so the length is a
multiple of `3`; and it is `36` exactly when `sx = sy = sz = 1`. -/
theorem box_index_length_formula (params : Parameters) (hw : 0 < params.width)
    (hh : 0 < params.height) (hd : 0 < params.depth) (hsx : 1 ≤ params.width_segments)
    (hsy : 1 ≤ params.height_segments) (hsz : 1 ≤ params.depth_segments) :
    ∃ box, BoxGeometry.new params = some box
      ∧ box.geometry.index_data_.length
          = 12 * (params.width_segments * params.height_segments
              + params.height_segments * params.depth_segments
              + params.depth_segments * params.width_segments)
      ∧ box.geometry.IndexCount = box.geometry.index_data_.length
      ∧ (∀ (self : BoxGeometry) (p : PlaneParameters),
          (BuildPlane self p).geometry.index_data_.length
            = self.geometry.index_data_.length + 6 * p.grid_x * p.grid_y)
      ∧ 3 ∣ box.geometry.index_data_.length
      ∧ (triangles box.geometry.index_data_).length * 3 = box.geometry.index_data_.length
      ∧ (box.geometry.index_data_.length = 36 ↔
          params.width_segments = 1 ∧ params.height_segments = 1
            ∧ params.depth_segments = 1) := by
  have hlen := construct_index_length params
  refine ⟨construct params, new_eq_some params hw hh hd hsx hsy hsz, hlen, rfl, ?_, ?_, ?_, ?_⟩
  · intro self p
    rw [BuildPlane_index_length, planeCellCount, Nat.mul_assoc]
  · rw [hlen]
    exact ⟨4 * (params.width_segments * params.height_segments
      + params.height_segments * params.depth_segments
      + params.depth_segments * params.width_segments), by ring⟩
  · rw [triangles_length (4 * (params.width_segments * params.height_segments
      + params.height_segments * params.depth_segments
      + params.depth_segments * params.width_segments)) _ (by rw [hlen]; ring), hlen]
    ring
  · rw [hlen]
    constructor
    · intro h
      have h1 : 1 ≤ params.width_segments * params.height_segments := Nat.mul_pos hsx hsy
      have h2 : 1 ≤ params.height_segments * params.depth_segments := Nat.mul_pos hsy hsz
      have h3 : 1 ≤ params.depth_segments * params.width_segments := Nat.mul_pos hsz hsx
      have e1 : params.width_segments * params.height_segments = 1 := by omega
      have e2 : params.height_segments * params.depth_segments = 1 := by omega
      have l1 : params.width_segments ≤ params.width_segments * params.height_segments :=
        Nat.le_mul_of_pos_right _ hsy
      have l2 : params.height_segments ≤ params.width_segments * params.height_segments :=
        Nat.le_mul_of_pos_left _ hsx
      have l3 : params.depth_segments ≤ params.height_segments * params.depth_segments :=
        Nat.le_mul_of_pos_left _ hsy
      omega
    · rintro ⟨h1, h2, h3⟩
      rw [h1, h2, h3]

theorem box_index_length_formula_witness :
    ∃ box, BoxGeometry.new sampleBox = some box
      ∧ box.geometry.index_data_.length = 12 * (2 * 3 + 3 * 4 + 4 * 2) := by
  obtain ⟨box, h1, h2, _⟩ := box_index_length_formula sampleBox (by norm_num [sampleBox])
    (by norm_num [sampleBox]) (by norm_num [sampleBox]) (by norm_num [sampleBox])
    (by norm_num [sampleBox]) (by norm_num [sampleBox])
  exact ⟨box, h1, h2⟩

/-! ## The debug state machine of a spot light -/

theorem DebugInvariant_new {K : Type} [LinearOrderedField K] (params : SpotLight.Parameters K) :
    (SpotLight.new params).DebugInvariant := Or.inl ⟨rfl, rfl, rfl⟩

theorem DebugInvariant_SetDebugMode {K : Type} [LinearOrderedField K]
    (fp : CMath K) (self : SpotLight K) (b : Bool) (fresh : Nat)
    (hinv : self.DebugInvariant) :
    ∃ s, self.SetDebugMode fp b fresh = some s ∧ s.DebugInvariant ∧ s.debug_mode_enabled_ = b := by
  rcases hinv with ⟨hoff, himpl, hch⟩ | ⟨hon, cone, material, himpl, hch⟩
  · cases b with
    | false =>
      exact ⟨self, SetDebugMode_same fp self false fresh hoff, Or.inl ⟨hoff, himpl, hch⟩, hoff⟩
    | true =>
      obtain ⟨s, cone, material, hs, hchildren, himpl1, hid, hflag⟩ :=
        SetDebugMode_on fp self fresh hoff
      refine ⟨s, hs, Or.inr ⟨hflag, cone, material, himpl1, ?_⟩, hflag⟩
      rw [hchildren, hch, hid]
      rfl
  · cases b with
    | true =>
      exact ⟨self, SetDebugMode_same fp self true fresh hon,
        Or.inr ⟨hon, cone, material, himpl, hch⟩, hon⟩
    | false =>
      refine ⟨_, SetDebugMode_off fp self fresh hon, Or.inl ⟨rfl, ?_, ?_⟩, rfl⟩
      · exact RemoveDebugMesh_impl self
      · show (RemoveDebugMesh self).children = []
        rw [RemoveDebugMesh_children self cone (by rw [himpl]), hch]
        simp

theorem DebugInvariant_OnUpdate {K : Type} [LinearOrderedField K]
    (fp : CMath K) (self : SpotLight K) (delta : K)
    (hinv : self.DebugInvariant) :
    ∃ s, self.OnUpdate fp delta = some s ∧ s.DebugInvariant
      ∧ s.debug_mode_enabled_ = self.debug_mode_enabled_ := by
  rcases hinv with ⟨hoff, himpl, hch⟩ | ⟨hon, cone, material, himpl, hch⟩
  · refine ⟨self, ?_, Or.inl ⟨hoff, himpl, hch⟩, rfl⟩
    unfold SpotLight.OnUpdate
    rw [if_neg (by simp [hoff])]
  · have h := UpdateDebugMesh_eq fp self cone material (by rw [himpl]) (by rw [himpl])
    have h1 : self.OnUpdate fp delta = UpdateDebugMesh fp self := by
      unfold SpotLight.OnUpdate
      rw [if_pos hon]
    exact ⟨_, h1.trans h, Or.inr ⟨hon, _, _, rfl, hch⟩, rfl⟩

theorem run_invariant {K : Type} [LinearOrderedField K]
    (fp : CMath K) (calls : List (DebugCall K)) (self : SpotLight K)
    (hinv : self.DebugInvariant) :
    ∃ s, SpotLight.run fp self calls = some s ∧ s.DebugInvariant
      ∧ s.debug_mode_enabled_ = lastSetDebugMode self.debug_mode_enabled_ calls := by
  induction calls generalizing self with
  | nil => exact ⟨self, rfl, hinv, rfl⟩
  | cons c cs ih =>
    cases c with
    | SetDebugMode b fresh =>
      obtain ⟨s1, hs1, hinv1, hflag1⟩ := DebugInvariant_SetDebugMode fp self b fresh hinv
      obtain ⟨s, hs, hinv2, hflag⟩ := ih s1 hinv1
      refine ⟨s, ?_, hinv2, ?_⟩
      · simp only [SpotLight.run, SpotLight.call, hs1, hs]
      · rw [hflag, hflag1]
        rfl
    | OnUpdate delta =>
      obtain ⟨s1, hs1, hinv1, hflag1⟩ := DebugInvariant_OnUpdate fp self delta hinv
      obtain ⟨s, hs, hinv2, hflag⟩ := ih s1 hinv1
      refine ⟨s, ?_, hinv2, ?_⟩
      · simp only [SpotLight.run, SpotLight.call, hs1, hs]
      · rw [hflag, hflag1]
        rfl

theorem DebugInvariant_facts {K : Type} (s : SpotLight K) (hinv : s.DebugInvariant) :
    (s.debug_mode_enabled_ = true ↔ (s.impl_.cone ≠ none ∧ s.impl_.material ≠ none))
      ∧ (s.debug_mode_enabled_ = true ↔ s.coneIsChild = true)
      ∧ s.debugChildCount = (if s.debug_mode_enabled_ then 1 else 0)
      ∧ s.children.length = (if s.debug_mode_enabled_ then 1 else 0) := by
  rcases hinv with ⟨hoff, himpl, hch⟩ | ⟨hon, cone, material, himpl, hch⟩
  · simp [hoff, himpl, hch, SpotLight.coneIsChild, SpotLight.debugChildCount]
  · simp [hon, himpl, hch, SpotLight.coneIsChild, SpotLight.debugChildCount]

/-- C30: a freshly constructed spot light is off, holds neither cone nor
material and has no child; every finite sequence of `SetDebugMode(b)` and
`OnUpdate(delta)` calls on it has a result, and in that result debug mode is
on exactly when cone and material are both held, exactly when the cone is a
child of the light; the light has one debug child when on and none when off;
and the flag is the argument of the last `SetDebugMode` call (off when there
was none). -/
theorem spotLight_debug_state_machine {K : Type} [LinearOrderedField K]
    (fp : CMath K) (params : SpotLight.Parameters K)
    (calls : List (DebugCall K)) :
    (SpotLight.new params).debug_mode_enabled_ = false
      ∧ (SpotLight.new params).impl_ = ⟨none, none⟩
      ∧ (SpotLight.new params).children = []
      ∧ (SpotLight.new params).debugChildCount = 0
      ∧ ∃ s, SpotLight.run fp (SpotLight.new params) calls = some s
        ∧ (s.debug_mode_enabled_ = true ↔ (s.impl_.cone ≠ none ∧ s.impl_.material ≠ none))
        ∧ (s.debug_mode_enabled_ = true ↔ s.coneIsChild = true)
        ∧ s.debugChildCount = (if s.debug_mode_enabled_ then 1 else 0)
        ∧ s.children.length = (if s.debug_mode_enabled_ then 1 else 0)
        ∧ s.debugChildCount ≤ 1
        ∧ s.debug_mode_enabled_ = lastSetDebugMode false calls := by
  refine ⟨rfl, rfl, rfl, rfl, ?_⟩
  obtain ⟨s, hs, hinv, hflag⟩ := run_invariant fp calls (SpotLight.new params)
    (DebugInvariant_new params)
  obtain ⟨h1, h2, h3, h4⟩ := DebugInvariant_facts s hinv
  refine ⟨s, hs, h1, h2, h3, h4, ?_, hflag⟩
  rw [h3]
  split_ifs <;> omega

end gleam
